import Mathlib

/-!
# examples/simple_net.c : reorder insertion and net assembly

A shallow embedding of `examples/simple_net.c`.  The C functions of the example
(`product`, `prepare_arg_node`, `set_arg`, `init_data_memory`, `prepare_reorder`,
`simple_net`) are translated statement by statement into a state-and-outcome monad
`M`.  The MKL-DNN library itself (`mkldnn.h` and its implementation) is not among
the sources; its entry points are modelled from the specification and every such
definition says so in its doc comment.  What the library is free to choose (the
status of each call, the layouts an operator resolves to, the sizes it reports, the
pointers the allocator returns) is a parameter `Env` over which the theorems
quantify.
-/

namespace SimpleNet

/-! ## Constants, `simple_net.c` lines 28-40 -/

def BATCH : Int := 8
def IC : Int := 3
def OC : Int := 96
def CONV_IH : Int := 227
def CONV_IW : Int := 227
def CONV_OH : Int := 55
def CONV_OW : Int := 55
def CONV_STRIDE : Int := 4
def CONV_PAD : Int := 0
def POOL_OH : Int := 27
def POOL_OW : Int := 27
def POOL_STRIDE : Int := 2
def POOL_PAD : Int := 0

/-- The value of `sizeof(float)`, a `size_t`. -/
def sizeof_float : Nat := 4

/-- The modulus of `uint32_t` arithmetic. -/
def UINT32_MOD : Nat := 2 ^ 32

/-- The modulus of `size_t` arithmetic (LP64). -/
def SIZE_MOD : Nat := 2 ^ 64

/-! ## Library types (modelled) -/

/-- A data pointer (`float *`, `void *`); `0` is `NULL`. -/
abbrev Ptr := Nat

/-- The null pointer / null handle. -/
def NULL : Nat := 0

/-- Handle of an engine; `0` is `NULL`. -/
abbrev mkldnn_engine_t := Nat
/-- Handle of a memory object; `0` is `NULL`, handle `h + 1` names object number `h`. -/
abbrev mkldnn_memory_t := Nat
/-- Handle of a primitive; `0` is `NULL`, handle `h + 1` names primitive number `h`. -/
abbrev mkldnn_primitive_t := Nat
/-- Handle of a stream; `0` is `NULL`. -/
abbrev mkldnn_stream_t := Nat

/-- Modelled from the spec: the status taxonomy of section 6 (`mkldnn.h` is not among
the sources). -/
inductive mkldnn_status_t where
  | mkldnn_success
  | mkldnn_invalid_arguments
  | mkldnn_unimplemented
  | mkldnn_out_of_memory
  | mkldnn_runtime_error
  deriving DecidableEq, Repr

open mkldnn_status_t

/-- Modelled from the spec: the layout tags of section 6 used by the example, the
sentinel `any`, and `mkldnn_blocked t` for any further tag an implementation may resolve
to. -/
inductive mkldnn_memory_format_t where
  | mkldnn_any
  | mkldnn_nchw
  | mkldnn_oihw
  | mkldnn_x
  | mkldnn_blocked (tag : Nat)
  deriving DecidableEq, Repr

open mkldnn_memory_format_t

/-- Modelled from the spec: element types; the example only uses `mkldnn_f32`. -/
inductive mkldnn_data_type_t where
  | mkldnn_f32
  | mkldnn_other_type (tag : Nat)
  deriving DecidableEq, Repr

open mkldnn_data_type_t

/-- Modelled from the spec: a memory descriptor, section 3 (dims, dtype, layout). -/
structure mkldnn_memory_desc_t where
  dims : List Int
  data_type : mkldnn_data_type_t
  format : mkldnn_memory_format_t
  deriving DecidableEq, Repr

/-- Modelled from the spec: a memory primitive descriptor, a memory descriptor bound to
an engine (what `const_mkldnn_primitive_desc_t` points to for a memory). -/
structure MemPd where
  md : mkldnn_memory_desc_t
  engine : mkldnn_engine_t
  deriving DecidableEq, Repr

/-- Modelled from the spec: a memory object, section 3: a descriptor and a nullable data
handle. -/
structure MemObj where
  pd : MemPd
  handle : Ptr
  deriving DecidableEq, Repr

/-- The operator families of the example. -/
inductive OpKind where
  | convolution
  | eltwise
  | lrn
  | pooling
  deriving DecidableEq, Repr

/-- The algorithm kinds passed by the example. -/
inductive AlgKind where
  | mkldnn_convolution_direct
  | mkldnn_eltwise_relu
  | mkldnn_lrn_across_channels
  | mkldnn_pooling_max
  deriving DecidableEq, Repr

/-- A decimal floating literal of the source, kept as written: `mant * 10 ^ exp10`
(`0.0001f` is `⟨1, -4⟩`).  No floating-point arithmetic is performed on it. -/
structure DecLit where
  mant : Int
  exp10 : Int
  deriving DecidableEq, Repr

/-- An operator descriptor as filled in by one of the `*_forward_desc_init` calls: the
operand memory descriptors, the integer array parameters and the scalar coefficients, all
in argument order.  The propagation kind is `mkldnn_forward` and the padding kind is
`mkldnn_padding_zero` at every call of the example. -/
structure OpDesc where
  kind : OpKind
  alg : AlgKind
  mds : List mkldnn_memory_desc_t
  arrays : List (List Int)
  local_size : Nat
  scalars : List DecLit
  deriving DecidableEq, Repr

/-- The operand descriptors an operator primitive descriptor resolved to. -/
structure Resolved where
  src : MemPd
  weights : MemPd
  dst : MemPd
  workspace : MemPd
  deriving DecidableEq, Repr

/-- Modelled from the spec: a resolved operator primitive descriptor, section 3. -/
structure OpPd where
  desc : OpDesc
  engine : mkldnn_engine_t
  resolved : Resolved
  deriving DecidableEq, Repr

/-- What a `mkldnn_primitive_desc_t` can describe. -/
inductive PrimDesc where
  | memory (pd : MemPd)
  | reorder (input : MemPd) (output : MemPd)
  | op (pd : OpPd)
  deriving DecidableEq, Repr

/-- The queries the example makes. -/
inductive mkldnn_query_t where
  | mkldnn_query_src_pd
  | mkldnn_query_weights_pd
  | mkldnn_query_dst_pd
  | mkldnn_query_workspace_pd
  deriving DecidableEq, Repr

open mkldnn_query_t

/-- Argument slot identifiers, section 6 of the spec. -/
inductive ArgSlot where
  | MKLDNN_ARG_SRC
  | MKLDNN_ARG_DST
  | MKLDNN_ARG_WEIGHTS
  | MKLDNN_ARG_BIAS
  | MKLDNN_ARG_WORKSPACE
  | MKLDNN_ARG_FROM
  | MKLDNN_ARG_TO
  deriving DecidableEq, Repr

open ArgSlot

/-- The library's `mkldnn_exec_arg_t`: a slot and the memory bound to it. -/
structure mkldnn_exec_arg_t where
  arg : ArgSlot
  memory : mkldnn_memory_t
  deriving DecidableEq, Repr

/-- `typedef struct { int nargs; mkldnn_exec_arg_t *args; } args_t;` (line 85).
`args` is the pointer `malloc` returned, `cells` the array it points to (`none` is a cell
not yet written). -/
structure args_t where
  nargs : Int
  args : Ptr
  cells : List (Option mkldnn_exec_arg_t)
  deriving DecidableEq, Repr

/-! ## The world outside the example -/

/-- One `malloc` / `aligned_malloc` call: the size and alignment asked for and the
pointer returned. -/
structure Alloc where
  size : Nat
  alignment : Nat
  ptr : Ptr
  deriving DecidableEq, Repr

/-- What is observable of a run, in the order it happens.  `net_store` is the assignment
`net[i] = p` of the example itself and `counter_sub n d` the statement `n -= d` of line 427
met with the counter at `n` (both are ghost events: they record what the example does to
its own variables); the others are calls that leave the example. -/
inductive Event where
  | net_store (i : Nat) (p : mkldnn_primitive_t)
  | counter_sub (n : Nat) (d : Nat)
  | execute (p : mkldnn_primitive_t) (stream : mkldnn_stream_t) (nargs : Int)
      (args : List mkldnn_exec_arg_t)
  | free (p : Ptr)
  | primitive_desc_destroy (pd : PrimDesc)
  | stream_destroy (s : mkldnn_stream_t)
  | memory_destroy (m : mkldnn_memory_t)
  | primitive_destroy (p : mkldnn_primitive_t)
  | engine_destroy (e : mkldnn_engine_t)
  deriving DecidableEq, Repr

/-- What the two checking macros print before `exit(2)`. -/
inductive Msg where
  | error_returns (s : mkldnn_status_t)
  | failed
  deriving DecidableEq, Repr

/-- The state of the process outside the example's own variables. -/
structure World where
  calls : Nat
  heap : List Alloc
  engines : Nat
  streams : Nat
  mems : List MemObj
  prims : List PrimDesc
  trace : List Event
  out : List Msg
  deriving DecidableEq, Repr

/-- The world at process start. -/
def World.init : World :=
  { calls := 0, heap := [], engines := 0, streams := 0, mems := [], prims := [],
    trace := [], out := [] }

/-- What the library and the allocator are free to choose.
* `status i` is the status the `i`-th status-returning library call answers with;
* `alloc i` is the pointer the `i`-th allocation returns (`0` when it fails);
* `layouts d e` are the operand layouts the operator descriptor `d` resolves to on
  engine `e` (deterministic in its inputs, section 4.3 of the spec);
* `get_size pd` is the byte size the library reports for a memory descriptor. -/
structure Env where
  status : Nat → mkldnn_status_t
  alloc : Nat → Ptr
  layouts : OpDesc → mkldnn_engine_t → Resolved
  get_size : MemPd → Nat

/-- How a computation ends: it returns a value, the process is terminated by `exit(code)`,
or the behaviour is undefined (a store outside an array, a read of an indeterminate
value, a dereference of `NULL`). -/
inductive Outcome (α : Type) where
  | ret (a : α) (w : World)
  | exited (code : Nat) (w : World)
  | ub
  deriving DecidableEq, Repr

/-- Computations over the world. -/
def M (α : Type) : Type := World → Outcome α

/-- Sequencing: a terminated or undefined computation stays so. -/
def M.bind {α β : Type} (m : M α) (f : α → M β) : M β := fun w =>
  match m w with
  | .ret a w1 => f a w1
  | .exited c w1 => .exited c w1
  | .ub => .ub

instance : Monad M where
  pure a := fun w => .ret a w
  bind := M.bind

/-- Undefined behaviour. -/
def undefined {α : Type} : M α := fun _ => .ub

/-- The call `exit(code)`. -/
def exit_ {α : Type} (code : Nat) : M α := fun w => .exited code w

/-- The call `printf(...)` of the checking macros. -/
def printf (m : Msg) : M Unit := fun w => .ret () { w with out := w.out ++ [m] }

/-- Append an event to the trace. -/
def emit (e : Event) : M Unit := fun w => .ret () { w with trace := w.trace ++ [e] }

/-- What a status-returning library call hands back: `ok a` is `mkldnn_success` together
with the values written through its out-parameters, `fail s` is the status `s` with the
out-parameters left untouched. -/
inductive Ret (α : Type) where
  | ok (a : α)
  | fail (s : mkldnn_status_t)
  deriving DecidableEq, Repr

/-- The status a call returned. -/
def Ret.status {α : Type} : Ret α → mkldnn_status_t
  | .ok _ => mkldnn_success
  | .fail s => s

/-- The `CHECK(f)` macro, lines 42-48: when the status is not `mkldnn_success`, print and
`exit(2)`.  Otherwise execution goes on with what `f` wrote through its out-parameters. -/
def CHECK {α : Type} (f : M (Ret α)) : M α := do
  let r ← f
  if r.status ≠ mkldnn_success then
    printf (.error_returns r.status)
    exit_ 2
  else
    match r with
    | .ok a => pure a
    | .fail _ => undefined

/-- The `CHECK_TRUE(expr)` macro, lines 50-56. -/
def CHECK_TRUE (e_ : Bool) : M Unit :=
  if !e_ then do
    printf .failed
    exit_ 2
  else pure ()

/-- A call whose status the source ignores: the out-parameter holds a value only when
the call succeeded; using it otherwise is a read of an indeterminate value. -/
def unchecked {α : Type} (f : M (Ret α)) : M α := do
  let r ← f
  match r with
  | .ok a => pure a
  | .fail _ => undefined

/-- A call whose status and results the source ignores altogether. -/
def ignored {α : Type} (f : M (Ret α)) : M Unit := do
  let _ ← f
  pure ()

/-- Modelled from the spec: the common shape of a status-returning entry point
(section 7: every operation returns a status; a failing call has no side effect).  The
environment answers the call; when it answers success the effect `eff` is applied, and
`eff` itself rejects invalid handles with `mkldnn_invalid_arguments`. -/
def libcall {α : Type} (env : Env) (eff : World → Option (α × World)) : M (Ret α) := fun w =>
  let w1 := { w with calls := w.calls + 1 }
  match env.status w.calls with
  | mkldnn_success =>
    match eff w1 with
    | some (a, w2) => .ret (.ok a) w2
    | none => .ret (.fail mkldnn_invalid_arguments) w1
  | s => .ret (.fail s) w1

/-! ## Allocation, lines 58-77 -/

/-- `aligned_malloc(size, alignment)`, lines 58-67: the allocator's pointer, or `NULL`. -/
def aligned_malloc (env : Env) (size : Nat) (alignment : Nat) : M Ptr := fun w =>
  let p := env.alloc w.heap.length
  .ret p { w with heap := w.heap ++ [{ size := size, alignment := alignment, ptr := p }] }

/-- The C library's `malloc(size)`. -/
def malloc (env : Env) (size : Nat) : M Ptr := aligned_malloc env size 1

/-- `_free(ptr)`, lines 69-77, and the C library's `free`. -/
def _free (ptr : Ptr) : M Unit := emit (.free ptr)

/-- `product(arr, size)`, lines 79-83: the product of the first `size` entries in
`size_t` arithmetic; `none` when the loop reads past the array. -/
def product (arr : List Int) (size : Nat) : Option Nat :=
  if size ≤ arr.length then
    some ((arr.take size).foldl (fun prod a => (prod * (a % (SIZE_MOD : Int)).toNat) % SIZE_MOD) 1)
  else none

/-- The size in bytes of an `mkldnn_exec_arg_t` (an `int` and a pointer, LP64). -/
def sizeof_exec_arg : Nat := 16

/-- `prepare_arg_node(node, nargs)`, lines 87-90; the node is returned. -/
def prepare_arg_node (env : Env) (nargs : Int) : M args_t := do
  let p ← malloc env ((sizeof_exec_arg * (nargs % (SIZE_MOD : Int)).toNat) % SIZE_MOD)
  pure { nargs := nargs, args := p, cells := List.replicate nargs.toNat none }

/-- `free_arg_node(node)`, line 91. -/
def free_arg_node (node : args_t) : M Unit := _free node.args

/-- `set_arg(arg, arg_idx, memory)`, lines 93-94; the cell is returned. -/
def set_arg (arg_idx : ArgSlot) (memory : mkldnn_memory_t) : mkldnn_exec_arg_t :=
  { arg := arg_idx, memory := memory }

/-- Reading `arr[i]`: undefined outside the array or when the slot was never written. -/
def load {α : Type} (arr : List (Option α)) (i : Nat) : M α :=
  match arr.get? i with
  | some (some a) => pure a
  | _ => undefined

/-- Writing `arr[i] = v`: undefined outside the array. -/
def store {α : Type} (arr : List (Option α)) (i : Nat) (v : α) : M (List (Option α)) :=
  if i < arr.length then pure (arr.set i (some v)) else undefined

/-- The assignment `net[i] = p`, recorded in the trace. -/
def net_store (net : List (Option mkldnn_primitive_t)) (i : Nat) (p : mkldnn_primitive_t) :
    M (List (Option mkldnn_primitive_t)) := do
  let net1 ← store net i p
  emit (.net_store i p)
  pure net1

/-- The statement `set_arg(&net_args[i].args[j], arg_idx, memory)`: undefined when
`net_args[i]` is outside the array or was never prepared, when its `args` is `NULL`,
or when `j` is outside the node. -/
def set_arg_at (net_args : List (Option args_t)) (i : Nat) (j : Nat) (arg_idx : ArgSlot)
    (memory : mkldnn_memory_t) : M (List (Option args_t)) := do
  let node ← load net_args i
  if node.args = NULL then undefined
  else do
    let cells ← store node.cells j (set_arg arg_idx memory)
    store net_args i { node with cells := cells }

/-! ## Library entry points (modelled) -/

/-- Modelled from the spec: `engine_create`, section 4.1; a fresh non-null engine. -/
def mkldnn_engine_create (env : Env) : M (Ret mkldnn_engine_t) :=
  libcall env fun w => some (w.engines + 1, { w with engines := w.engines + 1 })

/-- Modelled from the spec: `describe(dims, dtype, layout)`, section 4.2: fails if dims is
empty or contains non-positive entries.  Only the first `ndims` entries are read. -/
def mkldnn_memory_desc_init (env : Env) (ndims : Nat) (dims : List Int)
    (data_type : mkldnn_data_type_t) (format : mkldnn_memory_format_t) :
    M (Ret mkldnn_memory_desc_t) :=
  if ndims ≤ dims.length then
    libcall env fun w =>
      if ndims = 0 ∨ (dims.take ndims).any (fun d => d ≤ 0) then none
      else some ({ dims := dims.take ndims, data_type := data_type, format := format }, w)
  else undefined

/-- Modelled from the spec: binding a memory descriptor to an engine; a null engine is an
invalid argument. -/
def mkldnn_memory_primitive_desc_create (env : Env) (md : mkldnn_memory_desc_t)
    (engine : mkldnn_engine_t) : M (Ret MemPd) :=
  libcall env fun w => if engine = NULL then none else some ({ md := md, engine := engine }, w)

/-- Modelled from the spec: `create_memory(descriptor, engine, optional data_handle)`,
section 4.2: passing no handle means the handle starts null.  The new object gets the
next handle, which is never null. -/
def mkldnn_memory_create (env : Env) (pd : MemPd) (handle : Ptr) : M (Ret mkldnn_memory_t) :=
  libcall env fun w =>
    some (w.mems.length + 1, { w with mems := w.mems ++ [{ pd := pd, handle := handle }] })

/-- The memory object a handle names, if any. -/
def World.mem (w : World) (m : mkldnn_memory_t) : Option MemObj :=
  if m = NULL then none else w.mems.get? (m - 1)

/-- The primitive a handle names, if any. -/
def World.prim (w : World) (p : mkldnn_primitive_t) : Option PrimDesc :=
  if p = NULL then none else w.prims.get? (p - 1)

/-- Modelled from the spec: `get_data_handle`, section 4.2. -/
def mkldnn_memory_get_data_handle (env : Env) (memory : mkldnn_memory_t) : M (Ret Ptr) :=
  libcall env fun w => (w.mem memory).map fun o => (o.handle, w)

/-- Modelled from the spec: `set_data_handle`, section 4.2: a single assignment of the
handle. -/
def mkldnn_memory_set_data_handle (env : Env) (memory : mkldnn_memory_t) (handle : Ptr) :
    M (Ret Unit) :=
  libcall env fun w => (w.mem memory).map fun o =>
    ((), { w with mems := w.mems.set (memory - 1) { o with handle := handle } })

/-- Modelled from the spec: the descriptor a memory object was created with. -/
def mkldnn_memory_get_primitive_desc (env : Env) (memory : mkldnn_memory_t) : M (Ret MemPd) :=
  libcall env fun w => (w.mem memory).map fun o => (o.pd, w)

/-- Modelled from the spec: `layout_compatible(a, b)`, sections 3 and 4.2: dims, dtype and
resolved layout all match, and "any" matches nothing, itself included. -/
def mkldnn_memory_primitive_desc_equal (a b : MemPd) : Bool :=
  decide (a.md.dims = b.md.dims) && decide (a.md.data_type = b.md.data_type)
    && decide (a.md.format = b.md.format) && !decide (a.md.format = mkldnn_any)

/-- Modelled from the spec: the reorder operator descriptor transforming `input` into
`output`, section 4.4. -/
def mkldnn_reorder_primitive_desc_create (env : Env) (input output : MemPd) :
    M (Ret PrimDesc) :=
  libcall env fun w => some (.reorder input output, w)

/-- Modelled from the spec: `create_operator_descriptor`, section 4.3: the layouts of the
operands are those the implementation resolves for this descriptor and engine. -/
def mkldnn_primitive_desc_create (env : Env) (desc : OpDesc) (engine : mkldnn_engine_t) :
    M (Ret OpPd) :=
  libcall env fun w =>
    if engine = NULL then none
    else some ({ desc := desc, engine := engine, resolved := env.layouts desc engine }, w)

/-- Modelled from the spec: the resolved operand descriptor of an operator descriptor. -/
def mkldnn_primitive_desc_query_pd (pd : OpPd) (what : mkldnn_query_t) : MemPd :=
  match what with
  | mkldnn_query_src_pd => pd.resolved.src
  | mkldnn_query_weights_pd => pd.resolved.weights
  | mkldnn_query_dst_pd => pd.resolved.dst
  | mkldnn_query_workspace_pd => pd.resolved.workspace

/-- Modelled from the spec: the memory descriptor inside a memory primitive descriptor. -/
def mkldnn_primitive_desc_query_memory_d (pd : MemPd) : mkldnn_memory_desc_t := pd.md

/-- Modelled from the spec: `primitive_create`: an executable instance of a resolved
descriptor.  The new primitive gets the next handle, which is never null. -/
def mkldnn_primitive_create (env : Env) (pd : PrimDesc) : M (Ret mkldnn_primitive_t) :=
  libcall env fun w => some (w.prims.length + 1, { w with prims := w.prims ++ [pd] })

/-- Modelled from the spec: the destructor of a primitive descriptor. -/
def mkldnn_primitive_desc_destroy (env : Env) (pd : PrimDesc) : M (Ret Unit) :=
  libcall env fun w => some ((), { w with trace := w.trace ++ [.primitive_desc_destroy pd] })

/-! ## `init_data_memory`, lines 96-113 -/

/-- `init_data_memory(dim, dims, user_fmt, mkldnn_f32, engine, data, memory)`; the
memory object written through `memory` is returned.  The parameter the source names
`mkldnn_f32` is `data_type` here. -/
def init_data_memory (env : Env) (dim : Nat) (dims : List Int)
    (user_fmt : mkldnn_memory_format_t) (data_type : mkldnn_data_type_t)
    (engine : mkldnn_engine_t) (data : Ptr) : M mkldnn_memory_t := do
  let prim_md ← CHECK (mkldnn_memory_desc_init env dim dims data_type user_fmt)
  let user_pd ← CHECK (mkldnn_memory_primitive_desc_create env prim_md engine)
  let memory ← CHECK (mkldnn_memory_create env user_pd NULL)
  let req ← CHECK (mkldnn_memory_get_data_handle env memory)
  CHECK_TRUE (req == NULL)
  CHECK (mkldnn_memory_set_data_handle env memory data)
  let req ← CHECK (mkldnn_memory_get_data_handle env memory)
  CHECK_TRUE (req == data)
  CHECK (mkldnn_primitive_desc_destroy env (.memory user_pd))
  pure memory

/-! ## `prepare_reorder`, lines 115-158 -/

/-- The values `prepare_reorder` leaves in its out- and in-out-parameters. -/
structure reorder_out where
  prim_memory : mkldnn_memory_t
  reorder : mkldnn_primitive_t
  net_index : Nat
  net : List (Option mkldnn_primitive_t)
  net_args : List (Option args_t)
  deriving DecidableEq, Repr

/-- `prepare_reorder(user_memory, prim_memory_pd, dir_is_user_to_prim, prim_memory,
reorder, buffer, net_index, net, net_args)`.  `net_index` is a `uint32_t`. -/
def prepare_reorder (env : Env) (user_memory : mkldnn_memory_t) (prim_memory_pd : MemPd)
    (dir_is_user_to_prim : Int) (buffer : Ptr) (net_index : Nat)
    (net : List (Option mkldnn_primitive_t)) (net_args : List (Option args_t)) :
    M (Ret reorder_out) := do
  let user_memory_pd ← unchecked (mkldnn_memory_get_primitive_desc env user_memory)
  if !mkldnn_memory_primitive_desc_equal user_memory_pd prim_memory_pd then
    let prim_memory ← CHECK (mkldnn_memory_create env prim_memory_pd NULL)
    let reorder_pd ←
      if dir_is_user_to_prim ≠ 0 then
        CHECK (mkldnn_reorder_primitive_desc_create env user_memory_pd prim_memory_pd)
      else
        CHECK (mkldnn_reorder_primitive_desc_create env prim_memory_pd user_memory_pd)
    let reorder ← CHECK (mkldnn_primitive_create env reorder_pd)
    CHECK (mkldnn_memory_set_data_handle env prim_memory buffer)
    CHECK (mkldnn_primitive_desc_destroy env reorder_pd)
    let net ← net_store net net_index reorder
    let node ← prepare_arg_node env 2
    let net_args ← store net_args net_index node
    let net_args ← set_arg_at net_args net_index 0 MKLDNN_ARG_FROM
      (if dir_is_user_to_prim ≠ 0 then user_memory else prim_memory)
    let net_args ← set_arg_at net_args net_index 1 MKLDNN_ARG_TO
      (if dir_is_user_to_prim ≠ 0 then prim_memory else user_memory)
    let net_index := (net_index + 1) % UINT32_MOD
    pure (.ok { prim_memory := prim_memory, reorder := reorder, net_index := net_index,
                net := net, net_args := net_args })
  else
    let prim_memory := NULL
    let reorder := NULL
    pure (.ok { prim_memory := prim_memory, reorder := reorder, net_index := net_index,
                net := net, net_args := net_args })

/-! ## Further library entry points used by `simple_net` (modelled) -/

/-- Modelled from the spec: the convolution operator descriptor, section 4.3, holding the
operand descriptors (src, weights, bias, dst) and the strides and paddings as passed. -/
def mkldnn_convolution_forward_desc_init (env : Env) (alg : AlgKind)
    (src_md weights_md bias_md dst_md : mkldnn_memory_desc_t)
    (strides padding_l padding_r : List Int) : M (Ret OpDesc) :=
  libcall env fun w =>
    some ({ kind := .convolution, alg := alg, mds := [src_md, weights_md, bias_md, dst_md],
            arrays := [strides, padding_l, padding_r], local_size := 0, scalars := [] }, w)

/-- Modelled from the spec: the elementwise operator descriptor, section 4.3. -/
def mkldnn_eltwise_forward_desc_init (env : Env) (alg : AlgKind)
    (data_md : mkldnn_memory_desc_t) (alpha beta : DecLit) : M (Ret OpDesc) :=
  libcall env fun w =>
    some ({ kind := .eltwise, alg := alg, mds := [data_md], arrays := [], local_size := 0,
            scalars := [alpha, beta] }, w)

/-- Modelled from the spec: the normalization operator descriptor, section 4.3. -/
def mkldnn_lrn_forward_desc_init (env : Env) (alg : AlgKind)
    (data_md : mkldnn_memory_desc_t) (local_size : Nat) (alpha beta k : DecLit) :
    M (Ret OpDesc) :=
  libcall env fun w =>
    some ({ kind := .lrn, alg := alg, mds := [data_md], arrays := [],
            local_size := local_size, scalars := [alpha, beta, k] }, w)

/-- Modelled from the spec: the pooling operator descriptor, section 4.3. -/
def mkldnn_pooling_forward_desc_init (env : Env) (alg : AlgKind)
    (src_md dst_md : mkldnn_memory_desc_t) (strides kernel padding_l padding_r : List Int) :
    M (Ret OpDesc) :=
  libcall env fun w =>
    some ({ kind := .pooling, alg := alg, mds := [src_md, dst_md],
            arrays := [strides, kernel, padding_l, padding_r], local_size := 0,
            scalars := [] }, w)

/-- Modelled from the spec: `required_size`, section 4.3: the byte count the library
reports for a resolved descriptor. -/
def mkldnn_memory_primitive_desc_get_size (env : Env) (pd : MemPd) : Nat :=
  env.get_size pd % SIZE_MOD

/-- Modelled from the spec: `stream_create`; a fresh non-null stream on a non-null
engine. -/
def mkldnn_stream_create (env : Env) (engine : mkldnn_engine_t) : M (Ret mkldnn_stream_t) :=
  libcall env fun w =>
    if engine = NULL then none
    else some (w.streams + 1, { w with streams := w.streams + 1 })

/-- All cells of an argument array, when every one of them has been written. -/
def all_written {α : Type} : List (Option α) → Option (List α)
  | [] => some []
  | none :: _ => none
  | some a :: rest => (all_written rest).map fun l => a :: l

/-- Modelled from the spec: `primitive_execute(primitive, stream, argument_bindings)`,
sections 4.5 and 6: runs the primitive with its bound arguments.  The call reads the
argument array, which is undefined when `args` is `NULL` or a cell was never written; the
numeric effect on the buffers is outside the model. -/
def mkldnn_primitive_execute (env : Env) (p : mkldnn_primitive_t) (stream : mkldnn_stream_t)
    (node : args_t) : M (Ret Unit) :=
  if node.args = NULL then undefined
  else
    match all_written node.cells with
    | none => undefined
    | some args =>
      libcall env fun w =>
        if (w.prim p).isSome && !decide (stream = NULL) then
          some ((), { w with trace := w.trace ++ [.execute p stream node.nargs args] })
        else none

/-- Modelled from the spec: `destroy(Stream)`. -/
def mkldnn_stream_destroy (env : Env) (s : mkldnn_stream_t) : M (Ret Unit) :=
  libcall env fun w => some ((), { w with trace := w.trace ++ [.stream_destroy s] })

/-- Modelled from the spec: `destroy(MemoryObject)`. -/
def mkldnn_memory_destroy (env : Env) (m : mkldnn_memory_t) : M (Ret Unit) :=
  libcall env fun w => some ((), { w with trace := w.trace ++ [.memory_destroy m] })

/-- Modelled from the spec: `destroy(Primitive)`. -/
def mkldnn_primitive_destroy (env : Env) (p : mkldnn_primitive_t) : M (Ret Unit) :=
  libcall env fun w => some ((), { w with trace := w.trace ++ [.primitive_destroy p] })

/-- Modelled from the spec: `destroy(Engine)`, section 4.1. -/
def mkldnn_engine_destroy (env : Env) (e : mkldnn_engine_t) : M (Ret Unit) :=
  libcall env fun w => some ((), { w with trace := w.trace ++ [.engine_destroy e] })

/-! ## C arithmetic used by `simple_net` -/

/-- Multiplication of two `int` values: `none` on signed overflow (undefined in C). -/
def int_mul (a b : Int) : Option Int :=
  if -(2 : Int) ^ 31 ≤ a * b ∧ a * b < (2 : Int) ^ 31 then some (a * b) else none

/-- The expression `a * b * c * d * sizeof(float)` of lines 171 and 173: three `int`
multiplications, then a conversion to `size_t` and a `size_t` multiplication. -/
def bytes_of (a b c d : Int) : Option Nat :=
  (int_mul a b).bind fun ab =>
  (int_mul ab c).bind fun abc =>
  (int_mul abc d).map fun abcd => ((abcd % (SIZE_MOD : Int)).toNat * sizeof_float) % SIZE_MOD

/-- An optional value as a computation: absence is undefined behaviour. -/
def defined {α : Type} : Option α → M α
  | some a => pure a
  | none => undefined

/-- The statement `n++` / `n += 1` on a `uint32_t`. -/
def u32_inc (n : Nat) : Nat := (n + 1) % UINT32_MOD

/-- The statement `n -= d` on a `uint32_t`. -/
def u32_sub (n d : Nat) : Nat := (n + UINT32_MOD - d % UINT32_MOD) % UINT32_MOD

/-- The loop `for (uint32_t i = 0; i < n; ++i) body(i)` unrolled over its index values. -/
def for_each (body : Nat → M Unit) : List Nat → M Unit
  | [] => pure ()
  | i :: rest => do
    body i
    for_each body rest

/-- The index values `i, i + 1, ..., i + k - 1`. -/
def indices : Nat → Nat → List Nat
  | _, 0 => []
  | i, k + 1 => i :: indices (i + 1) k

/-! ## `simple_net`, lines 160-508

The body of `simple_net` is one C function.  It is embedded in three consecutive parts
that hand the local variables over in a record: building the net (lines 160-442),
executing it (lines 446-451) and the clean-up (lines 453-505). -/

/-- The local variables of `simple_net` that are live after the net has been built. -/
structure Locals where
  engine : mkldnn_engine_t
  n : Nat
  net : List (Option mkldnn_primitive_t)
  net_args : List (Option args_t)
  net_src : Ptr
  net_dst : Ptr
  conv_weights : Ptr
  conv_bias : Ptr
  conv_user_src_memory : mkldnn_memory_t
  conv_user_weights_memory : mkldnn_memory_t
  conv_user_bias_memory : mkldnn_memory_t
  conv_pd : OpPd
  conv_internal_src_memory : mkldnn_memory_t
  conv_internal_weights_memory : mkldnn_memory_t
  conv_internal_dst_memory : mkldnn_memory_t
  conv_dst_buffer : Ptr
  conv_reorder_src : mkldnn_primitive_t
  conv_reorder_weights : mkldnn_primitive_t
  conv_src_buffer : Ptr
  conv_weights_buffer : Ptr
  conv_src_memory : mkldnn_memory_t
  conv_weights_memory : mkldnn_memory_t
  conv : mkldnn_primitive_t
  relu_pd : OpPd
  relu_dst_memory : mkldnn_memory_t
  relu_dst_buffer : Ptr
  relu : mkldnn_primitive_t
  lrn_pd : OpPd
  lrn_dst_memory : mkldnn_memory_t
  lrn_dst_buffer : Ptr
  lrn_scratch_memory : mkldnn_memory_t
  lrn_scratch_buffer : Ptr
  lrn : mkldnn_primitive_t
  pool_user_dst_memory : mkldnn_memory_t
  pool_pd : OpPd
  pool_indices_memory : mkldnn_memory_t
  pool_indices_buffer : Ptr
  pool_dst_memory : mkldnn_memory_t
  pool_reorder_dst : mkldnn_primitive_t
  pool_internal_dst_memory : mkldnn_memory_t
  pool_dst_buffer : Ptr
  pool : mkldnn_primitive_t
  deriving DecidableEq, Repr

/-- Lines 160-442 of `simple_net`: the engine, the user memories, the four operator
stages and the reorders between user and operator layouts. -/
def simple_net_build (env : Env) : M Locals := do
  let engine ← CHECK (mkldnn_engine_create env)
  /- build a simple net -/
  let n : Nat := 0
  let net : List (Option mkldnn_primitive_t) := List.replicate 10 none
  let net_args : List (Option args_t) := List.replicate 10 none
  let net_src_bytes ← defined (bytes_of BATCH IC CONV_IH CONV_IW)
  let net_src ← aligned_malloc env net_src_bytes 64
  let net_dst_bytes ← defined (bytes_of BATCH OC POOL_OH POOL_OW)
  let net_dst ← aligned_malloc env net_dst_bytes 64
  /- AlexNet: conv -/
  let conv_user_src_sizes : List Int := [BATCH, IC, CONV_IH, CONV_IW]
  let conv_user_weights_sizes : List Int := [OC, IC, 11, 11]
  let conv_bias_sizes : List Int := [OC, 0, 0, 0]
  let conv_user_dst_sizes : List Int := [BATCH, OC, CONV_OH, CONV_OW]
  let conv_strides : List Int := [CONV_STRIDE, CONV_STRIDE]
  let conv_padding : List Int := [CONV_PAD, CONV_PAD]
  let conv_src := net_src
  let conv_weights_elems ← defined (product conv_user_weights_sizes 4)
  let conv_weights ← aligned_malloc env ((conv_weights_elems * sizeof_float) % SIZE_MOD) 64
  let conv_bias_elems ← defined (product conv_bias_sizes 1)
  let conv_bias ← aligned_malloc env ((conv_bias_elems * sizeof_float) % SIZE_MOD) 64
  /- create memory for user data -/
  let conv_user_src_memory ←
    init_data_memory env 4 conv_user_src_sizes mkldnn_nchw mkldnn_f32 engine conv_src
  let conv_user_weights_memory ←
    init_data_memory env 4 conv_user_weights_sizes mkldnn_oihw mkldnn_f32 engine conv_weights
  let conv_user_bias_memory ←
    init_data_memory env 1 conv_bias_sizes mkldnn_x mkldnn_f32 engine conv_bias
  /- create data descriptors for convolution w/ no specified format -/
  let conv_src_md ← CHECK (mkldnn_memory_desc_init env 4 conv_user_src_sizes mkldnn_f32 mkldnn_any)
  let conv_weights_md ←
    CHECK (mkldnn_memory_desc_init env 4 conv_user_weights_sizes mkldnn_f32 mkldnn_any)
  let conv_bias_md ← CHECK (mkldnn_memory_desc_init env 1 conv_bias_sizes mkldnn_f32 mkldnn_x)
  let conv_dst_md ← CHECK (mkldnn_memory_desc_init env 4 conv_user_dst_sizes mkldnn_f32 mkldnn_any)
  /- create a convolution -/
  let conv_any_desc ← CHECK (mkldnn_convolution_forward_desc_init env .mkldnn_convolution_direct
    conv_src_md conv_weights_md conv_bias_md conv_dst_md conv_strides conv_padding conv_padding)
  let conv_pd ← CHECK (mkldnn_primitive_desc_create env conv_any_desc engine)
  /- create memory for dst data, we don't need reorder it to user data -/
  let dst_pd := mkldnn_primitive_desc_query_pd conv_pd mkldnn_query_dst_pd
  let conv_internal_dst_memory ← CHECK (mkldnn_memory_create env dst_pd NULL)
  let conv_dst_size := mkldnn_memory_primitive_desc_get_size env dst_pd
  let conv_dst_buffer ← aligned_malloc env conv_dst_size 64
  CHECK (mkldnn_memory_set_data_handle env conv_internal_dst_memory conv_dst_buffer)
  /- create reorder primitives between user data and convolution srcs if required -/
  let src_pd := mkldnn_primitive_desc_query_pd conv_pd mkldnn_query_src_pd
  let conv_src_size := mkldnn_memory_primitive_desc_get_size env src_pd
  let conv_src_buffer ← aligned_malloc env conv_src_size 64
  let r ← CHECK (prepare_reorder env conv_user_src_memory src_pd 1 conv_src_buffer n net net_args)
  let conv_internal_src_memory := r.prim_memory
  let conv_reorder_src := r.reorder
  let n := r.net_index
  let net := r.net
  let net_args := r.net_args
  let weights_pd := mkldnn_primitive_desc_query_pd conv_pd mkldnn_query_weights_pd
  let conv_weights_size := mkldnn_memory_primitive_desc_get_size env weights_pd
  let conv_weights_buffer ← aligned_malloc env conv_weights_size 64
  let r ← CHECK (prepare_reorder env conv_user_weights_memory weights_pd 1 conv_weights_buffer
    n net net_args)
  let conv_internal_weights_memory := r.prim_memory
  let conv_reorder_weights := r.reorder
  let n := r.net_index
  let net := r.net
  let net_args := r.net_args
  let conv_src_memory :=
    if conv_internal_src_memory ≠ NULL then conv_internal_src_memory else conv_user_src_memory
  let conv_weights_memory :=
    if conv_internal_weights_memory ≠ NULL then conv_internal_weights_memory
    else conv_user_weights_memory
  /- finally create a convolution primitive -/
  let conv ← CHECK (mkldnn_primitive_create env (.op conv_pd))
  let net ← net_store net n conv
  let node ← prepare_arg_node env 4
  let net_args ← store net_args n node
  let net_args ← set_arg_at net_args n 0 MKLDNN_ARG_SRC conv_src_memory
  let net_args ← set_arg_at net_args n 1 MKLDNN_ARG_WEIGHTS conv_weights_memory
  let net_args ← set_arg_at net_args n 2 MKLDNN_ARG_BIAS conv_user_bias_memory
  let net_args ← set_arg_at net_args n 3 MKLDNN_ARG_DST conv_internal_dst_memory
  let n := u32_inc n
  /- AlexNet: relu -/
  let negative_slope : DecLit := ⟨10, -1⟩
  /- create relu memory descriptor on dst memory descriptor from previous primitive -/
  let conv_dst_pd := mkldnn_primitive_desc_query_pd conv_pd mkldnn_query_dst_pd
  let relu_src_md := mkldnn_primitive_desc_query_memory_d conv_dst_pd
  /- create a relu -/
  let relu_desc ← CHECK (mkldnn_eltwise_forward_desc_init env .mkldnn_eltwise_relu relu_src_md
    negative_slope ⟨0, 0⟩)
  let relu_pd ← CHECK (mkldnn_primitive_desc_create env relu_desc engine)
  let relu_dst_pd := mkldnn_primitive_desc_query_pd relu_pd mkldnn_query_dst_pd
  let relu_dst_memory ← CHECK (mkldnn_memory_create env relu_dst_pd NULL)
  let relu_dst_size := mkldnn_memory_primitive_desc_get_size env relu_dst_pd
  let relu_dst_buffer ← aligned_malloc env relu_dst_size 64
  CHECK (mkldnn_memory_set_data_handle env relu_dst_memory relu_dst_buffer)
  /- finally create a relu primitive -/
  let relu ← CHECK (mkldnn_primitive_create env (.op relu_pd))
  let net ← net_store net n relu
  let node ← prepare_arg_node env 2
  let net_args ← store net_args n node
  let net_args ← set_arg_at net_args n 0 MKLDNN_ARG_SRC conv_internal_dst_memory
  let net_args ← set_arg_at net_args n 1 MKLDNN_ARG_DST relu_dst_memory
  let n := u32_inc n
  /- AlexNet: lrn -/
  let local_size : Nat := 5
  let alpha : DecLit := ⟨1, -4⟩
  let beta : DecLit := ⟨75, -2⟩
  let k : DecLit := ⟨10, -1⟩
  /- create lrn memory descriptor on dst memory descriptor from previous primitive -/
  let lrn_src_md := mkldnn_primitive_desc_query_memory_d relu_dst_pd
  /- create a lrn -/
  let lrn_desc ← CHECK (mkldnn_lrn_forward_desc_init env .mkldnn_lrn_across_channels lrn_src_md
    local_size alpha beta k)
  let lrn_pd ← CHECK (mkldnn_primitive_desc_create env lrn_desc engine)
  let lrn_dst_pd := mkldnn_primitive_desc_query_pd lrn_pd mkldnn_query_dst_pd
  let lrn_dst_memory ← CHECK (mkldnn_memory_create env lrn_dst_pd NULL)
  let lrn_dst_size := mkldnn_memory_primitive_desc_get_size env lrn_dst_pd
  let lrn_dst_buffer ← aligned_malloc env lrn_dst_size 64
  CHECK (mkldnn_memory_set_data_handle env lrn_dst_memory lrn_dst_buffer)
  let lrn_scratch_pd := mkldnn_primitive_desc_query_pd lrn_pd mkldnn_query_workspace_pd
  let lrn_scratch_memory ← CHECK (mkldnn_memory_create env lrn_scratch_pd NULL)
  let lrn_scratch_size := mkldnn_memory_primitive_desc_get_size env lrn_scratch_pd
  let lrn_scratch_buffer ← aligned_malloc env lrn_scratch_size 64
  CHECK (mkldnn_memory_set_data_handle env lrn_scratch_memory lrn_scratch_buffer)
  /- finally create a lrn primitive -/
  let lrn ← CHECK (mkldnn_primitive_create env (.op lrn_pd))
  let net ← net_store net n lrn
  let node ← prepare_arg_node env 3
  let net_args ← store net_args n node
  let net_args ← set_arg_at net_args n 0 MKLDNN_ARG_SRC relu_dst_memory
  let net_args ← set_arg_at net_args n 1 MKLDNN_ARG_DST lrn_dst_memory
  let net_args ← set_arg_at net_args n 2 MKLDNN_ARG_WORKSPACE lrn_scratch_memory
  let n := u32_inc n
  /- AlexNet: pool -/
  let pool_dst_sizes : List Int := [BATCH, OC, POOL_OH, POOL_OW]
  let pool_kernel : List Int := [3, 3]
  let pool_strides : List Int := [POOL_STRIDE, POOL_STRIDE]
  let pool_padding : List Int := [POOL_PAD, POOL_PAD]
  /- create pooling memory descriptor on dst descriptor from previous primitive -/
  let pool_src_md := mkldnn_primitive_desc_query_memory_d lrn_dst_pd
  /- create descriptors for dst pooling data -/
  let pool_dst_md ← CHECK (mkldnn_memory_desc_init env 4 pool_dst_sizes mkldnn_f32 mkldnn_any)
  /- create memory for user data -/
  let pool_user_dst_memory ←
    init_data_memory env 4 pool_dst_sizes mkldnn_nchw mkldnn_f32 engine net_dst
  /- create a pooling -/
  let pool_desc ← CHECK (mkldnn_pooling_forward_desc_init env .mkldnn_pooling_max pool_src_md
    pool_dst_md pool_strides pool_kernel pool_padding pool_padding)
  let pool_pd ← CHECK (mkldnn_primitive_desc_create env pool_desc engine)
  /- create memory for workspace -/
  let pool_indices_pd := mkldnn_primitive_desc_query_pd pool_pd mkldnn_query_workspace_pd
  let pool_indices_memory ← CHECK (mkldnn_memory_create env pool_indices_pd NULL)
  let pool_indices_size := mkldnn_memory_primitive_desc_get_size env pool_indices_pd
  let pool_indices_buffer ← aligned_malloc env pool_indices_size 64
  CHECK (mkldnn_memory_set_data_handle env pool_indices_memory pool_indices_buffer)
  /- create reorder primitives between user data and pooling dsts if required -/
  let pool_dst_pd := mkldnn_primitive_desc_query_pd pool_pd mkldnn_query_dst_pd
  let pool_dst_size := mkldnn_memory_primitive_desc_get_size env pool_dst_pd
  let pool_dst_buffer ← aligned_malloc env pool_dst_size 64
  /- tentative workaround: preserve space for pooling that should happen before the
     reorder -/
  let n := u32_inc n
  let r ← CHECK (prepare_reorder env pool_user_dst_memory pool_dst_pd 0 pool_dst_buffer
    n net net_args)
  let pool_internal_dst_memory := r.prim_memory
  let pool_reorder_dst := r.reorder
  let n := r.net_index
  let net := r.net
  let net_args := r.net_args
  emit (.counter_sub n (if pool_reorder_dst ≠ NULL then 2 else 1))
  let n := u32_sub n (if pool_reorder_dst ≠ NULL then 2 else 1)
  let pool_dst_memory :=
    if pool_internal_dst_memory ≠ NULL then pool_internal_dst_memory else pool_user_dst_memory
  /- finally create a pooling primitive -/
  let pool ← CHECK (mkldnn_primitive_create env (.op pool_pd))
  let net ← net_store net n pool
  let node ← prepare_arg_node env 3
  let net_args ← store net_args n node
  let net_args ← set_arg_at net_args n 0 MKLDNN_ARG_SRC lrn_dst_memory
  let net_args ← set_arg_at net_args n 1 MKLDNN_ARG_DST pool_dst_memory
  let net_args ← set_arg_at net_args n 2 MKLDNN_ARG_WORKSPACE pool_indices_memory
  let n := u32_inc n
  let n := if pool_reorder_dst ≠ NULL then u32_inc n else n
  pure
    { engine := engine, n := n, net := net, net_args := net_args, net_src := net_src,
      net_dst := net_dst, conv_weights := conv_weights, conv_bias := conv_bias,
      conv_user_src_memory := conv_user_src_memory,
      conv_user_weights_memory := conv_user_weights_memory,
      conv_user_bias_memory := conv_user_bias_memory, conv_pd := conv_pd,
      conv_internal_src_memory := conv_internal_src_memory,
      conv_internal_weights_memory := conv_internal_weights_memory,
      conv_internal_dst_memory := conv_internal_dst_memory,
      conv_dst_buffer := conv_dst_buffer, conv_reorder_src := conv_reorder_src,
      conv_reorder_weights := conv_reorder_weights, conv_src_buffer := conv_src_buffer,
      conv_weights_buffer := conv_weights_buffer, conv_src_memory := conv_src_memory,
      conv_weights_memory := conv_weights_memory, conv := conv, relu_pd := relu_pd,
      relu_dst_memory := relu_dst_memory, relu_dst_buffer := relu_dst_buffer, relu := relu,
      lrn_pd := lrn_pd, lrn_dst_memory := lrn_dst_memory, lrn_dst_buffer := lrn_dst_buffer,
      lrn_scratch_memory := lrn_scratch_memory, lrn_scratch_buffer := lrn_scratch_buffer,
      lrn := lrn, pool_user_dst_memory := pool_user_dst_memory, pool_pd := pool_pd,
      pool_indices_memory := pool_indices_memory, pool_indices_buffer := pool_indices_buffer,
      pool_dst_memory := pool_dst_memory, pool_reorder_dst := pool_reorder_dst,
      pool_internal_dst_memory := pool_internal_dst_memory,
      pool_dst_buffer := pool_dst_buffer, pool := pool }

/-- Lines 446-451 of `simple_net`: the stream and the execution loop.  The stream is
returned. -/
def simple_net_execute (env : Env) (L : Locals) : M mkldnn_stream_t := do
  let stream ← CHECK (mkldnn_stream_create env L.engine)
  for_each (fun i => do
    let p ← load L.net i
    let node ← load L.net_args i
    CHECK (mkldnn_primitive_execute env p stream node)) (indices 0 L.n)
  pure stream

/-- Lines 453-505 of `simple_net`: the clean-up. -/
def simple_net_cleanup (env : Env) (L : Locals) (stream : mkldnn_stream_t) : M Unit := do
  for_each (fun i => do
    let node ← load L.net_args i
    free_arg_node node) (indices 0 L.n)
  CHECK (mkldnn_primitive_desc_destroy env (.op L.conv_pd))
  CHECK (mkldnn_primitive_desc_destroy env (.op L.relu_pd))
  CHECK (mkldnn_primitive_desc_destroy env (.op L.lrn_pd))
  CHECK (mkldnn_primitive_desc_destroy env (.op L.pool_pd))
  ignored (mkldnn_stream_destroy env stream)
  _free L.net_src
  _free L.net_dst
  ignored (mkldnn_memory_destroy env L.conv_user_src_memory)
  ignored (mkldnn_memory_destroy env L.conv_user_weights_memory)
  ignored (mkldnn_memory_destroy env L.conv_user_bias_memory)
  ignored (mkldnn_memory_destroy env L.conv_internal_src_memory)
  ignored (mkldnn_memory_destroy env L.conv_internal_weights_memory)
  ignored (mkldnn_memory_destroy env L.conv_internal_dst_memory)
  ignored (mkldnn_primitive_destroy env L.conv_reorder_src)
  ignored (mkldnn_primitive_destroy env L.conv_reorder_weights)
  ignored (mkldnn_primitive_destroy env L.conv)
  _free L.conv_weights
  _free L.conv_bias
  _free L.conv_src_buffer
  _free L.conv_weights_buffer
  _free L.conv_dst_buffer
  ignored (mkldnn_memory_destroy env L.relu_dst_memory)
  ignored (mkldnn_primitive_destroy env L.relu)
  _free L.relu_dst_buffer
  ignored (mkldnn_memory_destroy env L.lrn_scratch_memory)
  ignored (mkldnn_memory_destroy env L.lrn_dst_memory)
  ignored (mkldnn_primitive_destroy env L.lrn)
  _free L.lrn_scratch_buffer
  _free L.lrn_dst_buffer
  ignored (mkldnn_memory_destroy env L.pool_user_dst_memory)
  ignored (mkldnn_memory_destroy env L.pool_internal_dst_memory)
  ignored (mkldnn_memory_destroy env L.pool_indices_memory)
  ignored (mkldnn_primitive_destroy env L.pool_reorder_dst)
  ignored (mkldnn_primitive_destroy env L.pool)
  _free L.pool_dst_buffer
  _free L.pool_indices_buffer
  ignored (mkldnn_engine_destroy env L.engine)

/-- `simple_net()`, lines 160-508. -/
def simple_net (env : Env) : M mkldnn_status_t := do
  let L ← simple_net_build env
  let stream ← simple_net_execute env L
  simple_net_cleanup env L stream
  pure mkldnn_success

/-- Two consecutive calls of `prepare_reorder` with the same user memory, resolved
descriptor, direction and buffer on the same net, as `simple_net` would write them: the
second call finds `*net_index`, `net` and `net_args` as the first call left them. -/
def prepare_reorder_twice (env : Env) (user_memory : mkldnn_memory_t) (prim_memory_pd : MemPd)
    (dir_is_user_to_prim : Int) (buffer : Ptr) (net_index : Nat)
    (net : List (Option mkldnn_primitive_t)) (net_args : List (Option args_t)) :
    M (Ret reorder_out) := do
  let r ← CHECK (prepare_reorder env user_memory prim_memory_pd dir_is_user_to_prim buffer
    net_index net net_args)
  prepare_reorder env user_memory prim_memory_pd dir_is_user_to_prim buffer
    r.net_index r.net r.net_args

/-! ## Reading a net -/

/-- Whether a net slot holds a reorder primitive of the world `w`. -/
def is_reorder_entry (w : World) : Option mkldnn_primitive_t → Bool
  | some p =>
    match w.prim p with
    | some (.reorder _ _) => true
    | _ => false
  | none => false

/-- The number of reorder entries a net holds. -/
def reorder_entries (w : World) (net : List (Option mkldnn_primitive_t)) : Nat :=
  (net.filter (is_reorder_entry w)).length

/-! ## Reading the assembled net of `simple_net` -/

/-- The outcome is a return whose value and world satisfy `P`.  (Irreducible, so that
stating a fact about the outcome of a run does not make Lean evaluate the run.) -/
@[irreducible]
def Outcome.returns {α : Type} (P : α → World → Prop) : Outcome α → Prop
  | .ret a w => P a w
  | .exited _ _ => False
  | .ub => False

/-- The outcome of the comparison `!mkldnn_memory_primitive_desc_equal(user_memory_pd,
*prim_memory_pd)` for the memory object `user` of the world `w` against `pd`. -/
def mismatch (w : World) (user : mkldnn_memory_t) (pd : MemPd) : Bool :=
  match w.mem user with
  | some o => !mkldnn_memory_primitive_desc_equal o.pd pd
  | none => false

/-- The comparison of the user's source memory with the convolution's source layout. -/
def Locals.src_mismatch (L : Locals) (w : World) : Bool :=
  mismatch w L.conv_user_src_memory (mkldnn_primitive_desc_query_pd L.conv_pd mkldnn_query_src_pd)

/-- The comparison of the user's weights memory with the convolution's weights layout. -/
def Locals.weights_mismatch (L : Locals) (w : World) : Bool :=
  mismatch w L.conv_user_weights_memory
    (mkldnn_primitive_desc_query_pd L.conv_pd mkldnn_query_weights_pd)

/-- The comparison of the user's destination memory with the pooling's destination
layout. -/
def Locals.dst_mismatch (L : Locals) (w : World) : Bool :=
  mismatch w L.pool_user_dst_memory (mkldnn_primitive_desc_query_pd L.pool_pd mkldnn_query_dst_pd)

/-- The argument cells of entry `i` of the net, when that entry has been prepared. -/
def Locals.cells (L : Locals) (i : Nat) : Option (List (Option mkldnn_exec_arg_t)) :=
  match L.net_args.get? i with
  | some (some node) => some node.cells
  | _ => none

/-- The descriptor of a memory object of the world. -/
def World.mem_pd (w : World) (m : mkldnn_memory_t) : Option MemPd :=
  (w.mem m).map fun o => o.pd

/-! ## Reading a trace -/

/-- The primitives in the order in which they were written into `net`. -/
def written_order (t : List Event) : List mkldnn_primitive_t :=
  t.filterMap fun e =>
    match e with
    | .net_store _ p => some p
    | _ => none

/-- The indices of `net` that were written, in the order of the writes. -/
def written_indices (t : List Event) : List Nat :=
  t.filterMap fun e =>
    match e with
    | .net_store i _ => some i
    | _ => none

/-- The calls of `mkldnn_primitive_execute`, in the order in which they were made. -/
def executions (t : List Event) : List Event :=
  t.filter fun e =>
    match e with
    | .execute _ _ _ _ => true
    | _ => false

/-- The primitives in the order in which they were executed. -/
def executed_order (t : List Event) : List mkldnn_primitive_t :=
  t.filterMap fun e =>
    match e with
    | .execute p _ _ _ => some p
    | _ => none

/-- The subtractions `n -= d` made on the counter: the value of `n` before and `d`. -/
def counter_subs (t : List Event) : List (Nat × Nat) :=
  t.filterMap fun e =>
    match e with
    | .counter_sub n d => some (n, d)
    | _ => none

/-- The call `mkldnn_primitive_execute(net[i], stream, net_args[i].nargs,
net_args[i].args)` of the stream loop for the slot `i`, when `net[i]` and `net_args[i]`
have been written and every cell of the node is set. -/
def Locals.execute_event (L : Locals) (stream : mkldnn_stream_t) (i : Nat) : Option Event :=
  match L.net.get? i, L.net_args.get? i with
  | some (some p), some (some node) =>
    (all_written node.cells).map fun args => Event.execute p stream node.nargs args
  | _, _ => none

/-- The pointer `net_args[i].args`, when `net_args[i]` has been prepared. -/
def Locals.node_ptr (L : Locals) (i : Nat) : Option Ptr :=
  match L.net_args.get? i with
  | some (some node) => some node.args
  | _ => none

/-! ## The teardown order of section 5 of the spec -/

/-- Modelled from the spec: the class of a teardown event in the order "free Net entries,
destroy Primitives, destroy Operator Descriptors, destroy Memory Objects, free backing
buffers, destroy Stream, destroy Engine" (classes 1 to 7).  A `free` belongs to class 1
when its pointer is one of the argument nodes `nodes` and to class 5 otherwise. -/
def teardown_class (nodes : List Ptr) : Event → Option Nat
  | .free p => some (if p ∈ nodes then 1 else 5)
  | .primitive_destroy _ => some 2
  | .primitive_desc_destroy _ => some 3
  | .memory_destroy _ => some 4
  | .stream_destroy _ => some 6
  | .engine_destroy _ => some 7
  | _ => none

/-- Whether a list of classes never steps down. -/
def nondecreasing : List Nat → Bool
  | [] => true
  | [_] => true
  | a :: b :: rest => decide (a ≤ b) && nondecreasing (b :: rest)

/-- Modelled from the spec: no event of a later class occurs before an event of an
earlier class. -/
def in_teardown_order (nodes : List Ptr) (t : List Event) : Bool :=
  nondecreasing (t.filterMap (teardown_class nodes))

/-- The argument-node pointers of the slots `0 .. n-1`. -/
def Locals.node_ptrs (L : Locals) : List Ptr :=
  (indices 0 L.n).filterMap L.node_ptr

/-! ## What the assembled net of `simple_net` looks like

`BuildFacts env a b c L w` collects what holds of the locals `L` and the world `w` at the
end of lines 160-442 when the three layout comparisons answered `a` (convolution source
differs), `b` (convolution weights differ) and `c` (pooling destination differs). -/

/-- The facts established of a run of `simple_net_build`. -/
structure BuildFacts (env : Env) (a b c : Bool) (L : Locals) (w : World) : Prop where
  src : L.src_mismatch w = a
  weights : L.weights_mismatch w = b
  dst : L.dst_mismatch w = c
  n_eq : L.n = 4 + a.toNat + b.toNat + c.toNat
  net_len : L.net.length = 10
  args_len : L.net_args.length = 10
  net_eq : L.net.take L.n =
    (if a then [some L.conv_reorder_src] else []) ++
    (if b then [some L.conv_reorder_weights] else []) ++
    [some L.conv, some L.relu, some L.lrn, some L.pool] ++
    (if c then [some L.pool_reorder_dst] else [])
  net_rest : L.net.drop L.n = List.replicate (10 - L.n) none
  args_rest : L.net_args.drop L.n = List.replicate (10 - L.n) none
  ready : ∀ i, i < L.n → ∃ p node args, L.net.get? i = some (some p) ∧
    L.net_args.get? i = some (some node) ∧ node.args ≠ NULL ∧
    all_written node.cells = some args ∧ (w.prim p).isSome = true
  engine_ok : L.engine ≠ NULL
  conv_prim : w.prim L.conv = some (.op L.conv_pd)
  relu_prim : w.prim L.relu = some (.op L.relu_pd)
  lrn_prim : w.prim L.lrn = some (.op L.lrn_pd)
  pool_prim : w.prim L.pool = some (.op L.pool_pd)
  src_reorder : w.prim L.conv_reorder_src =
    if a then (w.mem_pd L.conv_user_src_memory).map fun u =>
      PrimDesc.reorder u (mkldnn_primitive_desc_query_pd L.conv_pd mkldnn_query_src_pd)
    else none
  weights_reorder : w.prim L.conv_reorder_weights =
    if b then (w.mem_pd L.conv_user_weights_memory).map fun u =>
      PrimDesc.reorder u (mkldnn_primitive_desc_query_pd L.conv_pd mkldnn_query_weights_pd)
    else none
  dst_reorder : w.prim L.pool_reorder_dst =
    if c then (w.mem_pd L.pool_user_dst_memory).map fun u =>
      PrimDesc.reorder (mkldnn_primitive_desc_query_pd L.pool_pd mkldnn_query_dst_pd) u
    else none
  src_null : L.conv_reorder_src = if a then L.conv_reorder_src else NULL
  weights_null : L.conv_reorder_weights = if b then L.conv_reorder_weights else NULL
  dst_null : L.pool_reorder_dst = if c then L.pool_reorder_dst else NULL
  src_sel : L.conv_src_memory =
    if a then L.conv_internal_src_memory else L.conv_user_src_memory
  weights_sel : L.conv_weights_memory =
    if b then L.conv_internal_weights_memory else L.conv_user_weights_memory
  dst_sel : L.pool_dst_memory =
    if c then L.pool_internal_dst_memory else L.pool_user_dst_memory
  src_internal : w.mem_pd L.conv_internal_src_memory =
    if a then some (mkldnn_primitive_desc_query_pd L.conv_pd mkldnn_query_src_pd) else none
  weights_internal : w.mem_pd L.conv_internal_weights_memory =
    if b then some (mkldnn_primitive_desc_query_pd L.conv_pd mkldnn_query_weights_pd) else none
  dst_internal : w.mem_pd L.pool_internal_dst_memory =
    if c then some (mkldnn_primitive_desc_query_pd L.pool_pd mkldnn_query_dst_pd) else none
  src_user : w.mem_pd L.conv_user_src_memory =
    some { md := { dims := [8, 3, 227, 227], data_type := mkldnn_f32, format := mkldnn_nchw },
           engine := L.engine }
  weights_user : w.mem_pd L.conv_user_weights_memory =
    some { md := { dims := [96, 3, 11, 11], data_type := mkldnn_f32, format := mkldnn_oihw },
           engine := L.engine }
  dst_user : w.mem_pd L.pool_user_dst_memory =
    some { md := { dims := [8, 96, 27, 27], data_type := mkldnn_f32, format := mkldnn_nchw },
           engine := L.engine }
  src_reorder_cells : a = true → L.cells 0 =
    some [some ⟨MKLDNN_ARG_FROM, L.conv_user_src_memory⟩,
          some ⟨MKLDNN_ARG_TO, L.conv_internal_src_memory⟩]
  weights_reorder_cells : b = true → L.cells a.toNat =
    some [some ⟨MKLDNN_ARG_FROM, L.conv_user_weights_memory⟩,
          some ⟨MKLDNN_ARG_TO, L.conv_internal_weights_memory⟩]
  conv_cells : L.cells (a.toNat + b.toNat) =
    some [some ⟨MKLDNN_ARG_SRC, L.conv_src_memory⟩,
          some ⟨MKLDNN_ARG_WEIGHTS, L.conv_weights_memory⟩,
          some ⟨MKLDNN_ARG_BIAS, L.conv_user_bias_memory⟩,
          some ⟨MKLDNN_ARG_DST, L.conv_internal_dst_memory⟩]
  relu_cells : L.cells (a.toNat + b.toNat + 1) =
    some [some ⟨MKLDNN_ARG_SRC, L.conv_internal_dst_memory⟩,
          some ⟨MKLDNN_ARG_DST, L.relu_dst_memory⟩]
  lrn_cells : L.cells (a.toNat + b.toNat + 2) =
    some [some ⟨MKLDNN_ARG_SRC, L.relu_dst_memory⟩,
          some ⟨MKLDNN_ARG_DST, L.lrn_dst_memory⟩,
          some ⟨MKLDNN_ARG_WORKSPACE, L.lrn_scratch_memory⟩]
  pool_cells : L.cells (a.toNat + b.toNat + 3) =
    some [some ⟨MKLDNN_ARG_SRC, L.lrn_dst_memory⟩,
          some ⟨MKLDNN_ARG_DST, L.pool_dst_memory⟩,
          some ⟨MKLDNN_ARG_WORKSPACE, L.pool_indices_memory⟩]
  dst_reorder_cells : c = true → L.cells (a.toNat + b.toNat + 4) =
    some [some ⟨MKLDNN_ARG_FROM, L.pool_internal_dst_memory⟩,
          some ⟨MKLDNN_ARG_TO, L.pool_user_dst_memory⟩]
  src_at : a = true → L.net.get? 0 = some (some L.conv_reorder_src)
  weights_at : b = true → L.net.get? a.toNat = some (some L.conv_reorder_weights)
  conv_at : L.net.get? (a.toNat + b.toNat) = some (some L.conv)
  relu_at : L.net.get? (a.toNat + b.toNat + 1) = some (some L.relu)
  lrn_at : L.net.get? (a.toNat + b.toNat + 2) = some (some L.lrn)
  pool_at : L.net.get? (a.toNat + b.toNat + 3) = some (some L.pool)
  dst_at : c = true → L.net.get? (a.toNat + b.toNat + 4) = some (some L.pool_reorder_dst)
  written : written_order w.trace =
    (if a then [L.conv_reorder_src] else []) ++
    (if b then [L.conv_reorder_weights] else []) ++
    [L.conv, L.relu, L.lrn] ++
    (if c then [L.pool_reorder_dst] else []) ++ [L.pool]
  written_at : written_indices w.trace =
    indices 0 (a.toNat + b.toNat + 3) ++
    (if c then [a.toNat + b.toNat + 4] else []) ++ [a.toNat + b.toNat + 3]
  not_executed : executions w.trace = []
  executed_none : executed_order w.trace = []
  exec_order : ∀ stream, executed_order ((indices 0 L.n).filterMap (L.execute_event stream)) =
    (if a then [L.conv_reorder_src] else []) ++
    (if b then [L.conv_reorder_weights] else []) ++
    [L.conv, L.relu, L.lrn, L.pool] ++
    (if c then [L.pool_reorder_dst] else [])
  exec_all : ∀ stream, ((indices 0 L.n).filterMap (L.execute_event stream)).length = L.n
  ptrs_len : L.node_ptrs.length = L.n
  dst_ne : (L.pool_reorder_dst == L.pool) = false
  subs : counter_subs w.trace =
    [(a.toNat + b.toNat + 4 + c.toNat, if c then 2 else 1)]
  quiet : w.out = []
  heap_src : w.heap.get? 0 = some { size := 4946784, alignment := 64, ptr := L.net_src }
  heap_dst : w.heap.get? 1 = some { size := 2239488, alignment := 64, ptr := L.net_dst }
  conv_dims : L.conv_pd.desc.mds.map (fun md => md.dims) =
    [[8, 3, 227, 227], [96, 3, 11, 11], [96], [8, 96, 55, 55]]
  conv_arrays : L.conv_pd.desc.arrays = [[4, 4], [0, 0], [0, 0]]
  pool_dst_dims : (L.pool_pd.desc.mds.get? 1).map (fun md => md.dims) = some [8, 96, 27, 27]
  pool_arrays : L.pool_pd.desc.arrays = [[2, 2], [3, 3], [0, 0], [0, 0]]
  conv_kind : L.conv_pd.desc.kind = OpKind.convolution
  pool_kind : L.pool_pd.desc.kind = OpKind.pooling
  conv_resolved : L.conv_pd.resolved = env.layouts L.conv_pd.desc L.engine
  pool_resolved : L.pool_pd.resolved = env.layouts L.pool_pd.desc L.engine

/-! ## The discipline of the checking macros -/

/-- What the checking macros allow a computation started in the world `w` to do: when it
returns it has printed nothing; when it terminates the process it does so by `exit(2)`
right after printing one message, which is a status other than `mkldnn_success` or the
failure of a `CHECK_TRUE` test.  With `quiet` set, moreover, no primitive has been executed
in the meantime.  Undefined behaviour is not constrained. -/
def Outcome.checked {α : Type} (quiet : Bool) (w : World) : Outcome α → Prop
  | .ret _ w1 =>
    w1.out = w.out ∧ (quiet = true → executions w1.trace = executions w.trace)
  | .exited c w1 =>
    c = 2 ∧ (∃ msg, w1.out = w.out ++ [msg] ∧ msg ≠ Msg.error_returns mkldnn_success)
      ∧ (quiet = true → executions w1.trace = executions w.trace)
  | .ub => True

/-- The computation keeps the discipline of the checking macros from every world. -/
def Checked {α : Type} (quiet : Bool) (m : M α) : Prop :=
  ∀ w, (m w).checked quiet w

/-! ## Runs with a failing library call -/

/-- The process was terminated by `exit(2)` at library call number `j`: the call was made
(`j + 1` calls are counted), the status it answered is the only message printed, and the
world it leaves satisfies `P`. -/
@[irreducible]
def Outcome.stops {α : Type} (env : Env) (j : Nat) (P : World → Prop) : Outcome α → Prop
  | .exited c w =>
    c = 2 ∧ w.calls = j + 1 ∧ w.out = [Msg.error_returns (env.status j)] ∧ P w
  | .ret _ _ => False
  | .ub => False

/-- How lines 160-442 end when library call number `j` is the first to fail: the process
is terminated at that call (the build makes at most 74 library calls); or the behaviour
is undefined, which happens only when call `j` is one of the calls of
`mkldnn_memory_get_primitive_desc` in `prepare_reorder`, whose status is not checked; or
the build returns without having reached call `j`, and then the net is assembled as
`BuildFacts` says, after 59 library calls plus 5 for each reorder. -/
def BuildOutcome (env : Env) (j : Nat) (o : Outcome Locals) : Prop :=
  o.stops env j (fun w => w.calls ≤ 74)
  ∨ (o = .ub ∧ (j = 30 ∨ j = 31 ∨ j = 36 ∨ j = 57 ∨ j = 62 ∨ j = 67))
  ∨ o.returns (fun L w => w.calls ≤ j ∧ ∃ a b c, BuildFacts env a b c L w ∧
      w.calls = 59 + 5 * (a.toNat + b.toNat + c.toNat))

/-- The computation returns from every world, whatever the library answers, and prints
nothing. -/
def AlwaysReturns {α : Type} (m : M α) : Prop :=
  ∀ w, ∃ a w1, m w = .ret a w1 ∧ w1.out = w.out

/-! ## Concrete inputs for the witnesses and counterexamples -/

/-- A memory primitive descriptor of element type `f32` on engine `1`. -/
def pd_f32 (dims : List Int) (format : mkldnn_memory_format_t) : MemPd :=
  { md := { dims := dims, data_type := mkldnn_f32, format := format }, engine := 1 }

/-- The user's source descriptor of the example. -/
def pd_user_src : MemPd := pd_f32 [8, 3, 227, 227] mkldnn_nchw

/-- A blocked source descriptor an implementation may prefer. -/
def pd_blocked_src : MemPd := pd_f32 [8, 3, 227, 227] (mkldnn_blocked 8)

/-- A world with one engine and one user memory (handle `1`) over buffer `4096`. -/
def world_one_memory : World :=
  { calls := 7, heap := [], engines := 1, streams := 0,
    mems := [{ pd := pd_user_src, handle := 4096 }], prims := [], trace := [], out := [] }

/-- An empty net of three slots. -/
def net3 : List (Option mkldnn_primitive_t) := [none, none, none]

/-- An empty argument table of three slots. -/
def net_args3 : List (Option args_t) := [none, none, none]

/-- The layouts of an implementation that prefers blocked layouts exactly for the operands
flagged: `a` the convolution source, `b` the convolution weights, `c` the pooling
destination; the other operands get the layout the user's memories have. -/
def layouts_of (a b c : Bool) (d : OpDesc) (e : mkldnn_engine_t) : Resolved :=
  match d.kind with
  | .convolution =>
    { src := { md := { dims := [8, 3, 227, 227], data_type := mkldnn_f32,
                       format := if a then mkldnn_blocked 8 else mkldnn_nchw }, engine := e }
      weights := { md := { dims := [96, 3, 11, 11], data_type := mkldnn_f32,
                           format := if b then mkldnn_blocked 64 else mkldnn_oihw }, engine := e }
      dst := { md := { dims := [8, 96, 55, 55], data_type := mkldnn_f32,
                       format := mkldnn_blocked 8 }, engine := e }
      workspace := { md := { dims := [1], data_type := mkldnn_f32, format := mkldnn_x },
                     engine := e } }
  | .pooling =>
    { src := { md := { dims := [8, 96, 55, 55], data_type := mkldnn_f32,
                       format := mkldnn_blocked 8 }, engine := e }
      weights := { md := { dims := [1], data_type := mkldnn_f32, format := mkldnn_x },
                   engine := e }
      dst := { md := { dims := [8, 96, 27, 27], data_type := mkldnn_f32,
                       format := if c then mkldnn_blocked 8 else mkldnn_nchw }, engine := e }
      workspace := { md := { dims := [8, 96, 27, 27], data_type := mkldnn_f32,
                             format := mkldnn_blocked 8 }, engine := e } }
  | _ =>
    { src := { md := { dims := [8, 96, 55, 55], data_type := mkldnn_f32,
                       format := mkldnn_blocked 8 }, engine := e }
      weights := { md := { dims := [1], data_type := mkldnn_f32, format := mkldnn_x },
                   engine := e }
      dst := { md := { dims := [8, 96, 55, 55], data_type := mkldnn_f32,
                       format := mkldnn_blocked 8 }, engine := e }
      workspace := { md := { dims := [8, 96, 55, 55], data_type := mkldnn_f32,
                             format := mkldnn_blocked 8 }, engine := e } }

/-- An environment in which every library call and every allocation succeeds, with the
layout preferences `a`, `b`, `c` of `layouts_of`. -/
def env_of (a b c : Bool) : Env where
  status := fun _ => mkldnn_success
  alloc := fun i => 4096 * (i + 1)
  layouts := layouts_of a b c
  get_size := fun _ => 4096

/-- The environment `env_of a b c` except that library call number `j` answers `s`. -/
def env_failing (a b c : Bool) (j : Nat) (s : mkldnn_status_t) : Env where
  status := fun i => if i = j then s else mkldnn_success
  alloc := fun i => 4096 * (i + 1)
  layouts := layouts_of a b c
  get_size := fun _ => 4096


/-! ## Stepping lemmas -/

theorem bind_apply {α β : Type} (m : M α) (f : α → M β) (w : World) :
    (m >>= f) w = match m w with
      | .ret a w1 => f a w1
      | .exited c w1 => .exited c w1
      | .ub => .ub := rfl

theorem bind_ret {α β : Type} {m : M α} {f : α → M β} {w w1 : World} {a : α}
    (h : m w = .ret a w1) : (m >>= f) w = f a w1 := by
  rw [bind_apply, h]

theorem bind_exited {α β : Type} {m : M α} {f : α → M β} {w w1 : World} {c : Nat}
    (h : m w = .exited c w1) : (m >>= f) w = .exited c w1 := by
  rw [bind_apply, h]

theorem bind_ub {α β : Type} {m : M α} {f : α → M β} {w : World}
    (h : m w = .ub) : (m >>= f) w = .ub := by
  rw [bind_apply, h]

theorem pure_apply {α : Type} (a : α) (w : World) : (pure a : M α) w = .ret a w := rfl

theorem libcall_ok {α : Type} {env : Env} {eff : World → Option (α × World)} {w w2 : World}
    {a : α} (hs : env.status w.calls = mkldnn_success)
    (he : eff { w with calls := w.calls + 1 } = some (a, w2)) :
    libcall env eff w = .ret (.ok a) w2 := by
  simp [libcall, hs, he]

theorem libcall_fail {α : Type} {env : Env} {eff : World → Option (α × World)} {w : World}
    (hs : env.status w.calls ≠ mkldnn_success) :
    libcall env eff w = .ret (.fail (env.status w.calls)) { w with calls := w.calls + 1 } := by
  unfold libcall
  cases h : env.status w.calls <;> simp_all

theorem CHECK_ok {α : Type} {f : M (Ret α)} {w w2 : World} {a : α}
    (h : f w = .ret (.ok a) w2) : CHECK f w = .ret a w2 := by
  simp [CHECK, bind_apply, h, Ret.status, pure_apply]

theorem CHECK_fail {α : Type} {f : M (Ret α)} {w w2 : World} {s : mkldnn_status_t}
    (h : f w = .ret (.fail s) w2) (hs : s ≠ mkldnn_success) :
    CHECK f w = .exited 2 { w2 with out := w2.out ++ [.error_returns s] } := by
  simp [CHECK, bind_apply, h, Ret.status, hs, printf, exit_]

theorem CHECK_libcall {α : Type} {env : Env} {eff : World → Option (α × World)} {w w2 : World}
    {a : α} (hs : env.status w.calls = mkldnn_success)
    (he : eff { w with calls := w.calls + 1 } = some (a, w2)) :
    CHECK (libcall env eff) w = .ret a w2 :=
  CHECK_ok (libcall_ok hs he)

theorem unchecked_libcall {α : Type} {env : Env} {eff : World → Option (α × World)}
    {w w2 : World} {a : α} (hs : env.status w.calls = mkldnn_success)
    (he : eff { w with calls := w.calls + 1 } = some (a, w2)) :
    unchecked (libcall env eff) w = .ret a w2 := by
  simp [unchecked, bind_apply, libcall_ok hs he, pure_apply]

theorem store_ok {α : Type} {arr : List (Option α)} {i : Nat} (v : α) (w : World)
    (h : i < arr.length) : store arr i v w = .ret (arr.set i (some v)) w := by
  simp [store, h, pure_apply]

theorem net_store_ok {net : List (Option mkldnn_primitive_t)} {i : Nat} (p : mkldnn_primitive_t)
    (w : World) (h : i < net.length) :
    net_store net i p w
      = .ret (net.set i (some p)) { w with trace := w.trace ++ [.net_store i p] } := by
  simp [net_store, bind_apply, store_ok p w h, emit, pure_apply]

theorem load_ok {α : Type} {arr : List (Option α)} {i : Nat} {a : α} (w : World)
    (h : arr.get? i = some (some a)) : load arr i w = .ret a w := by
  unfold load
  rw [h]
  rfl

theorem set_arg_at_ok {net_args : List (Option args_t)} {i j : Nat} {node : args_t}
    (arg_idx : ArgSlot) (memory : mkldnn_memory_t) (w : World)
    (hn : net_args.get? i = some (some node)) (hp : node.args ≠ NULL)
    (hj : j < node.cells.length) :
    set_arg_at net_args i j arg_idx memory w
      = .ret (net_args.set i (some { node with
          cells := node.cells.set j (some (set_arg arg_idx memory)) })) w := by
  have hi : i < net_args.length := by
    rcases Nat.lt_or_ge i net_args.length with h | h
    · exact h
    · rw [List.get?_eq_none.mpr h] at hn
      cases hn
  simp [set_arg_at, bind_apply, load_ok w hn, hp, store_ok _ w hj, store_ok _ w hi, pure_apply]

theorem prepare_arg_node_apply (env : Env) (nargs : Int) (w : World) :
    prepare_arg_node env nargs w
      = .ret { nargs := nargs, args := env.alloc w.heap.length,
               cells := List.replicate nargs.toNat none }
          { w with heap := w.heap ++
              [{ size := (sizeof_exec_arg * (nargs % (SIZE_MOD : Int)).toNat) % SIZE_MOD,
                 alignment := 1, ptr := env.alloc w.heap.length }] } := rfl

theorem get?_set_self {α : Type} {l : List α} {i : Nat} (v : α) (h : i < l.length) :
    (l.set i v).get? i = some v := by
  simp [h]

theorem get?_set_other {α : Type} (l : List α) {i j : Nat} (v : α) (h : i ≠ j) :
    (l.set i v).get? j = l.get? j := by
  simp [List.getElem?_set, h]

/-! ## `prepare_reorder` evaluated -/

/-- What `prepare_reorder` hands back when it creates a reorder. -/
theorem prepare_reorder_created (env : Env) (w : World) (U : mkldnn_memory_t) (o : MemObj)
    (R : MemPd) (dir : Int) (buffer : Ptr) (k : Nat) (net : List (Option mkldnn_primitive_t))
    (net_args : List (Option args_t))
    (hlib : ∀ i, i < 6 → env.status (w.calls + i) = mkldnn_success)
    (halloc : env.alloc w.heap.length ≠ NULL)
    (hU : w.mem U = some o)
    (hne : mkldnn_memory_primitive_desc_equal o.pd R = false)
    (hk : k < net.length) (hk2 : k < net_args.length) :
    prepare_reorder env U R dir buffer k net net_args w
      = .ret (.ok
          { prim_memory := w.mems.length + 1
            reorder := w.prims.length + 1
            net_index := (k + 1) % UINT32_MOD
            net := net.set k (some (w.prims.length + 1))
            net_args := net_args.set k (some
              { nargs := 2, args := env.alloc w.heap.length,
                cells := [some ⟨MKLDNN_ARG_FROM, if dir ≠ 0 then U else w.mems.length + 1⟩,
                          some ⟨MKLDNN_ARG_TO, if dir ≠ 0 then w.mems.length + 1 else U⟩] }) })
          { calls := w.calls + 6
            heap := w.heap ++ [{ size := 32, alignment := 1, ptr := env.alloc w.heap.length }]
            engines := w.engines
            streams := w.streams
            mems := w.mems ++ [{ pd := R, handle := buffer }]
            prims := w.prims ++ [.reorder (if dir ≠ 0 then o.pd else R) (if dir ≠ 0 then R else o.pd)]
            trace := w.trace ++
              [.primitive_desc_destroy
                  (.reorder (if dir ≠ 0 then o.pd else R) (if dir ≠ 0 then R else o.pd)),
               .net_store k (w.prims.length + 1)]
            out := w.out } := by
  have h0 := hlib 0 (by omega)
  have h1 := hlib 1 (by omega)
  have h2 := hlib 2 (by omega)
  have h3 := hlib 3 (by omega)
  have h4 := hlib 4 (by omega)
  have h5 := hlib 5 (by omega)
  have hU1 : World.mem { w with calls := w.calls + 1 } U = some o := hU
  have hset : ∀ (c : Nat) (ps : List PrimDesc),
      (World.mem { calls := c, heap := w.heap, engines := w.engines, streams := w.streams,
                   mems := w.mems ++ [{ pd := R, handle := NULL }], prims := ps,
                   trace := w.trace, out := w.out } (w.mems.length + 1)).map
        (fun (o1 : MemObj) => ((), World.mk c w.heap w.engines w.streams
          ((w.mems ++ [MemObj.mk R NULL]).set (w.mems.length + 1 - 1)
            (MemObj.mk o1.pd buffer)) ps w.trace w.out))
      = some ((), World.mk c w.heap w.engines w.streams
          (w.mems ++ [MemObj.mk R buffer]) ps w.trace w.out) := by
    intro c ps
    simp [World.mem, NULL]
  have hcells : (2 : Int).toNat = 2 := rfl
  unfold prepare_reorder
  refine (bind_ret (unchecked_libcall h0 (by rw [hU1]; rfl))).trans ?_
  simp only [hne, Bool.not_false, if_true]
  refine (bind_ret (CHECK_libcall h1 rfl)).trans ?_
  by_cases hd : dir = 0
  · simp only [hd, ne_eq, not_true_eq_false, if_false]
    refine (bind_ret (CHECK_libcall h2 rfl)).trans ?_
    refine (bind_ret (CHECK_libcall h3 rfl)).trans ?_
    refine (bind_ret (CHECK_libcall h4 (hset _ _))).trans ?_
    refine (bind_ret (CHECK_libcall h5 rfl)).trans ?_
    refine (bind_ret (net_store_ok _ _ hk)).trans ?_
    dsimp only
    refine (bind_ret (prepare_arg_node_apply _ _ _)).trans ?_
    dsimp only
    refine (bind_ret (store_ok _ _ hk2)).trans ?_
    refine (bind_ret (set_arg_at_ok _ _ _ (get?_set_self _ hk2) halloc ?_)).trans ?_
    · simp
    dsimp only
    refine (bind_ret (set_arg_at_ok _ _ _ (get?_set_self _ ?_) halloc ?_)).trans ?_
    · simpa using hk2
    · simp
    simp [pure_apply, set_arg, sizeof_exec_arg, SIZE_MOD]
  · simp only [hd, ne_eq, not_false_eq_true, if_true]
    refine (bind_ret (CHECK_libcall h2 rfl)).trans ?_
    refine (bind_ret (CHECK_libcall h3 rfl)).trans ?_
    refine (bind_ret (CHECK_libcall h4 (hset _ _))).trans ?_
    refine (bind_ret (CHECK_libcall h5 rfl)).trans ?_
    refine (bind_ret (net_store_ok _ _ hk)).trans ?_
    dsimp only
    refine (bind_ret (prepare_arg_node_apply _ _ _)).trans ?_
    dsimp only
    refine (bind_ret (store_ok _ _ hk2)).trans ?_
    refine (bind_ret (set_arg_at_ok _ _ _ (get?_set_self _ hk2) halloc ?_)).trans ?_
    · simp
    dsimp only
    refine (bind_ret (set_arg_at_ok _ _ _ (get?_set_self _ ?_) halloc ?_)).trans ?_
    · simpa using hk2
    · simp
    simp [pure_apply, set_arg, sizeof_exec_arg, SIZE_MOD]

/-- What `prepare_reorder` hands back when the two descriptors are equal. -/
theorem prepare_reorder_skipped (env : Env) (w : World) (U : mkldnn_memory_t) (o : MemObj)
    (R : MemPd) (dir : Int) (buffer : Ptr) (k : Nat) (net : List (Option mkldnn_primitive_t))
    (net_args : List (Option args_t))
    (hlib : env.status w.calls = mkldnn_success)
    (hU : w.mem U = some o)
    (heq : mkldnn_memory_primitive_desc_equal o.pd R = true) :
    prepare_reorder env U R dir buffer k net net_args w
      = .ret (.ok { prim_memory := NULL, reorder := NULL, net_index := k, net := net,
                    net_args := net_args })
          { w with calls := w.calls + 1 } := by
  have hU1 : World.mem { w with calls := w.calls + 1 } U = some o := hU
  unfold prepare_reorder
  refine (bind_ret (unchecked_libcall hlib (by rw [hU1]; rfl))).trans ?_
  simp only [heq, Bool.not_true, if_false, Bool.false_eq_true]
  rfl

theorem unchecked_fail {α : Type} {f : M (Ret α)} {w w2 : World} {s : mkldnn_status_t}
    (h : f w = .ret (.fail s) w2) : unchecked f w = .ub := by
  simp [unchecked, bind_apply, h, undefined]

theorem libcall_invalid {α : Type} {env : Env} {eff : World → Option (α × World)} {w : World}
    (hs : env.status w.calls = mkldnn_success)
    (he : eff { w with calls := w.calls + 1 } = none) :
    libcall env eff w
      = .ret (.fail mkldnn_invalid_arguments) { w with calls := w.calls + 1 } := by
  simp [libcall, hs, he]

theorem store_ub {α : Type} {arr : List (Option α)} {i : Nat} (v : α) (w : World)
    (h : ¬ i < arr.length) : store arr i v w = .ub := by
  simp [store, h, undefined]

theorem net_store_ub {net : List (Option mkldnn_primitive_t)} {i : Nat}
    (p : mkldnn_primitive_t) (w : World) (h : ¬ i < net.length) :
    net_store net i p w = .ub := by
  simp [net_store, bind_apply, store_ub p w h]

theorem set_arg_at_null {net_args : List (Option args_t)} {i j : Nat} {node : args_t}
    (arg_idx : ArgSlot) (memory : mkldnn_memory_t) (w : World)
    (hn : net_args.get? i = some (some node)) (hp : node.args = NULL) :
    set_arg_at net_args i j arg_idx memory w = .ub := by
  simp [set_arg_at, bind_apply, load_ok w hn, hp, undefined]

/-- Every way `prepare_reorder` can end: undefined behaviour; `exit(2)` at the first checked
call that does not succeed; a return without a reorder; a return with the reorder
appended at `k`. -/
theorem prepare_reorder_outcome (env : Env) (w : World) (U : mkldnn_memory_t) (R : MemPd)
    (dir : Int) (buffer : Ptr) (k : Nat) (net : List (Option mkldnn_primitive_t))
    (net_args : List (Option args_t)) :
    prepare_reorder env U R dir buffer k net net_args w = .ub
    ∨ (∃ j w1, 1 ≤ j ∧ j < 6 ∧ (∀ i, i < j → env.status (w.calls + i) = mkldnn_success)
        ∧ env.status (w.calls + j) ≠ mkldnn_success
        ∧ prepare_reorder env U R dir buffer k net net_args w = .exited 2 w1
        ∧ w1.calls = w.calls + j + 1
        ∧ w1.out = w.out ++ [.error_returns (env.status (w.calls + j))]
        ∧ w1.trace = w.trace)
    ∨ (∃ o, w.mem U = some o ∧ mkldnn_memory_primitive_desc_equal o.pd R = true
        ∧ prepare_reorder env U R dir buffer k net net_args w
          = .ret (.ok { prim_memory := NULL, reorder := NULL, net_index := k, net := net,
                        net_args := net_args }) { w with calls := w.calls + 1 })
    ∨ (∃ o out w1 node, w.mem U = some o ∧ mkldnn_memory_primitive_desc_equal o.pd R = false
        ∧ k < net.length ∧ k < net_args.length
        ∧ prepare_reorder env U R dir buffer k net net_args w = .ret (.ok out) w1
        ∧ out.net = net.set k (some out.reorder)
        ∧ out.net_args = net_args.set k (some node)
        ∧ out.net_index = (k + 1) % UINT32_MOD) := by
  by_cases h0 : env.status w.calls = mkldnn_success
  swap
  · left
    unfold prepare_reorder
    exact bind_ub (unchecked_fail (libcall_fail h0))
  cases hU : w.mem U with
  | none =>
    left
    have hU1 : World.mem { w with calls := w.calls + 1 } U = none := hU
    unfold prepare_reorder
    exact bind_ub (unchecked_fail (libcall_invalid h0 (by rw [hU1]; rfl)))
  | some o =>
    cases hq : mkldnn_memory_primitive_desc_equal o.pd R with
    | true =>
      right; right; left
      exact ⟨o, rfl, hq, prepare_reorder_skipped env w U o R dir buffer k net net_args h0 hU hq⟩
    | false =>
      have hU1 : World.mem { w with calls := w.calls + 1 } U = some o := hU
      have hset : ∀ (c : Nat) (ps : List PrimDesc),
          (World.mem { calls := c, heap := w.heap, engines := w.engines, streams := w.streams,
                       mems := w.mems ++ [{ pd := R, handle := NULL }], prims := ps,
                       trace := w.trace, out := w.out } (w.mems.length + 1)).map
            (fun (o1 : MemObj) => ((), World.mk c w.heap w.engines w.streams
              ((w.mems ++ [MemObj.mk R NULL]).set (w.mems.length + 1 - 1)
                (MemObj.mk o1.pd buffer)) ps w.trace w.out))
          = some ((), World.mk c w.heap w.engines w.streams
              (w.mems ++ [MemObj.mk R buffer]) ps w.trace w.out) := by
        intro c ps
        simp [World.mem, NULL]
      by_cases hd : dir = 0 <;>
      (
        by_cases h1 : env.status (w.calls + 1) = mkldnn_success
        swap
        · right; left
          exact ⟨1, _, by omega, by omega,
            (by
              intro i hi
              have hi0 : i = 0 := by omega
              subst hi0
              exact h0),
            h1,
            (by
              unfold prepare_reorder
              refine (bind_ret (unchecked_libcall h0 (by rw [hU1]; rfl))).trans ?_
              simp only [hq, Bool.not_false, if_true]
              refine bind_exited (CHECK_fail (libcall_fail ?_) ?_) <;> exact h1),
            by rfl, by rfl, by rfl⟩
        by_cases h2 : env.status (w.calls + 2) = mkldnn_success
        swap
        · right; left
          exact ⟨2, _, by omega, by omega,
            (by
              intro i hi
              have hcase : i = 0 ∨ i = 1 := by omega
              rcases hcase with h | h <;> subst h
              · exact h0
              · exact h1),
            h2,
            (by
              unfold prepare_reorder
              refine (bind_ret (unchecked_libcall h0 (by rw [hU1]; rfl))).trans ?_
              simp only [hq, Bool.not_false, if_true]
              refine (bind_ret (CHECK_libcall h1 rfl)).trans ?_
              simp only [hd, ne_eq, not_true_eq_false, not_false_eq_true, if_true, if_false]
              refine bind_exited (CHECK_fail (libcall_fail ?_) ?_) <;> exact h2),
            by rfl, by rfl, by rfl⟩
        by_cases h3 : env.status (w.calls + 3) = mkldnn_success
        swap
        · right; left
          exact ⟨3, _, by omega, by omega,
            (by
              intro i hi
              have hcase : i = 0 ∨ i = 1 ∨ i = 2 := by omega
              rcases hcase with h | h | h <;> subst h
              · exact h0
              · exact h1
              · exact h2),
            h3,
            (by
              unfold prepare_reorder
              refine (bind_ret (unchecked_libcall h0 (by rw [hU1]; rfl))).trans ?_
              simp only [hq, Bool.not_false, if_true]
              refine (bind_ret (CHECK_libcall h1 rfl)).trans ?_
              simp only [hd, ne_eq, not_true_eq_false, not_false_eq_true, if_true, if_false]
              refine (bind_ret (CHECK_libcall h2 rfl)).trans ?_
              refine bind_exited (CHECK_fail (libcall_fail ?_) ?_) <;> exact h3),
            by rfl, by rfl, by rfl⟩
        by_cases h4 : env.status (w.calls + 4) = mkldnn_success
        swap
        · right; left
          exact ⟨4, _, by omega, by omega,
            (by
              intro i hi
              have hcase : i = 0 ∨ i = 1 ∨ i = 2 ∨ i = 3 := by omega
              rcases hcase with h | h | h | h <;> subst h
              · exact h0
              · exact h1
              · exact h2
              · exact h3),
            h4,
            (by
              unfold prepare_reorder
              refine (bind_ret (unchecked_libcall h0 (by rw [hU1]; rfl))).trans ?_
              simp only [hq, Bool.not_false, if_true]
              refine (bind_ret (CHECK_libcall h1 rfl)).trans ?_
              simp only [hd, ne_eq, not_true_eq_false, not_false_eq_true, if_true, if_false]
              refine (bind_ret (CHECK_libcall h2 rfl)).trans ?_
              refine (bind_ret (CHECK_libcall h3 rfl)).trans ?_
              refine bind_exited (CHECK_fail (libcall_fail ?_) ?_) <;> exact h4),
            by rfl, by rfl, by rfl⟩
        by_cases h5 : env.status (w.calls + 5) = mkldnn_success
        swap
        · right; left
          exact ⟨5, _, by omega, by omega,
            (by
              intro i hi
              have hcase : i = 0 ∨ i = 1 ∨ i = 2 ∨ i = 3 ∨ i = 4 := by omega
              rcases hcase with h | h | h | h | h <;> subst h
              · exact h0
              · exact h1
              · exact h2
              · exact h3
              · exact h4),
            h5,
            (by
              unfold prepare_reorder
              refine (bind_ret (unchecked_libcall h0 (by rw [hU1]; rfl))).trans ?_
              simp only [hq, Bool.not_false, if_true]
              refine (bind_ret (CHECK_libcall h1 rfl)).trans ?_
              simp only [hd, ne_eq, not_true_eq_false, not_false_eq_true, if_true, if_false]
              refine (bind_ret (CHECK_libcall h2 rfl)).trans ?_
              refine (bind_ret (CHECK_libcall h3 rfl)).trans ?_
              refine (bind_ret (CHECK_libcall h4 (hset _ _))).trans ?_
              refine bind_exited (CHECK_fail (libcall_fail ?_) ?_) <;> exact h5),
            by rfl, by rfl, by rfl⟩
        have hlib : ∀ i, i < 6 → env.status (w.calls + i) = mkldnn_success := by
          intro i hi
          have hcase : i = 0 ∨ i = 1 ∨ i = 2 ∨ i = 3 ∨ i = 4 ∨ i = 5 := by omega
          rcases hcase with h | h | h | h | h | h <;> subst h
          · exact h0
          · exact h1
          · exact h2
          · exact h3
          · exact h4
          · exact h5
        by_cases hk : k < net.length
        swap
        · left
          unfold prepare_reorder
          refine (bind_ret (unchecked_libcall h0 (by rw [hU1]; rfl))).trans ?_
          simp only [hq, Bool.not_false, if_true]
          refine (bind_ret (CHECK_libcall h1 rfl)).trans ?_
          simp only [hd, ne_eq, not_true_eq_false, not_false_eq_true, if_true, if_false]
          refine (bind_ret (CHECK_libcall h2 rfl)).trans ?_
          refine (bind_ret (CHECK_libcall h3 rfl)).trans ?_
          refine (bind_ret (CHECK_libcall h4 (hset _ _))).trans ?_
          refine (bind_ret (CHECK_libcall h5 rfl)).trans ?_
          exact bind_ub (net_store_ub _ _ hk)
        by_cases hk2 : k < net_args.length
        swap
        · left
          unfold prepare_reorder
          refine (bind_ret (unchecked_libcall h0 (by rw [hU1]; rfl))).trans ?_
          simp only [hq, Bool.not_false, if_true]
          refine (bind_ret (CHECK_libcall h1 rfl)).trans ?_
          simp only [hd, ne_eq, not_true_eq_false, not_false_eq_true, if_true, if_false]
          refine (bind_ret (CHECK_libcall h2 rfl)).trans ?_
          refine (bind_ret (CHECK_libcall h3 rfl)).trans ?_
          refine (bind_ret (CHECK_libcall h4 (hset _ _))).trans ?_
          refine (bind_ret (CHECK_libcall h5 rfl)).trans ?_
          refine (bind_ret (net_store_ok _ _ hk)).trans ?_
          refine (bind_ret (prepare_arg_node_apply _ _ _)).trans ?_
          exact bind_ub (store_ub _ _ hk2)
        by_cases halloc : env.alloc w.heap.length = NULL
        · left
          unfold prepare_reorder
          refine (bind_ret (unchecked_libcall h0 (by rw [hU1]; rfl))).trans ?_
          simp only [hq, Bool.not_false, if_true]
          refine (bind_ret (CHECK_libcall h1 rfl)).trans ?_
          simp only [hd, ne_eq, not_true_eq_false, not_false_eq_true, if_true, if_false]
          refine (bind_ret (CHECK_libcall h2 rfl)).trans ?_
          refine (bind_ret (CHECK_libcall h3 rfl)).trans ?_
          refine (bind_ret (CHECK_libcall h4 (hset _ _))).trans ?_
          refine (bind_ret (CHECK_libcall h5 rfl)).trans ?_
          refine (bind_ret (net_store_ok _ _ hk)).trans ?_
          dsimp only
          refine (bind_ret (prepare_arg_node_apply _ _ _)).trans ?_
          dsimp only
          refine (bind_ret (store_ok _ _ hk2)).trans ?_
          exact bind_ub (set_arg_at_null _ _ _ (get?_set_self _ hk2) halloc)
        · right; right; right
          exact ⟨o, _, _, _, rfl, hq, hk, hk2,
            prepare_reorder_created env w U o R dir buffer k net net_args hlib halloc hU hq hk hk2,
            rfl, rfl, rfl⟩
      )

theorem prim_fresh (w : World) : w.prim (w.prims.length + 1) = none := by
  simp [World.prim, NULL]

theorem mem_fresh (w : World) : w.mem (w.mems.length + 1) = none := by
  simp [World.mem, NULL]

theorem prim_appended (c : Nat) (h : List Alloc) (e s : Nat) (ms : List MemObj)
    (ps : List PrimDesc) (t : List Event) (o : List Msg) (pd : PrimDesc) :
    World.prim { calls := c, heap := h, engines := e, streams := s, mems := ms,
                 prims := ps ++ [pd], trace := t, out := o } (ps.length + 1) = some pd := by
  simp [World.prim, NULL]

theorem mem_appended (c : Nat) (h : List Alloc) (e s : Nat) (ms : List MemObj)
    (ps : List PrimDesc) (t : List Event) (o : List Msg) (m : MemObj) :
    World.mem { calls := c, heap := h, engines := e, streams := s, mems := ms ++ [m],
                prims := ps, trace := t, out := o } (ms.length + 1) = some m := by
  simp [World.mem, NULL]

/-! ## Claims about `prepare_reorder` -/

/-- C1: when the user memory `U` (a memory object `o` of the world) has a descriptor that
is not equal to the resolved descriptor `R`, and the library calls and the allocation of
the argument node succeed, `prepare_reorder` returns having written exactly one entry, at
position `k` (the initial `*net_index`, inside both arrays and below the largest
`uint32_t`): `net[k]` is a primitive that did not exist before and is the reorder between
the two descriptors in the direction asked for, `net_args[k]` has exactly two arguments,
`FROM` then `TO`, bound to `(U, I)` for a non-zero direction flag and to `(I, U)` for a zero
one, where `I` is a memory object that did not exist before, has descriptor `R` and data
handle `buffer`; `*prim_memory` is `I`, `*reorder` is not null and `*net_index` is
`k + 1`. -/
theorem prepare_reorder_mismatch_appends (env : Env) (w : World) (U : mkldnn_memory_t)
    (o : MemObj) (R : MemPd) (dir : Int) (buffer : Ptr) (k : Nat)
    (net : List (Option mkldnn_primitive_t)) (net_args : List (Option args_t))
    (hlib : ∀ i, i < 6 → env.status (w.calls + i) = mkldnn_success)
    (halloc : env.alloc w.heap.length ≠ NULL)
    (hU : w.mem U = some o)
    (hne : mkldnn_memory_primitive_desc_equal o.pd R = false)
    (hk : k < net.length) (hk2 : k < net_args.length) (hwrap : k + 1 < UINT32_MOD) :
    ∃ (out : reorder_out) (w1 : World) (node : args_t),
      prepare_reorder env U R dir buffer k net net_args w = .ret (.ok out) w1
      ∧ out.net = net.set k (some out.reorder)
      ∧ out.net_args = net_args.set k (some node)
      ∧ out.reorder ≠ NULL
      ∧ w.prim out.reorder = none
      ∧ w1.prim out.reorder = some (if dir ≠ 0 then .reorder o.pd R else .reorder R o.pd)
      ∧ out.prim_memory ≠ NULL
      ∧ w.mem out.prim_memory = none
      ∧ w1.mem out.prim_memory = some { pd := R, handle := buffer }
      ∧ node.nargs = 2
      ∧ node.cells =
          (if dir ≠ 0 then
            [some { arg := MKLDNN_ARG_FROM, memory := U },
             some { arg := MKLDNN_ARG_TO, memory := out.prim_memory }]
          else
            [some { arg := MKLDNN_ARG_FROM, memory := out.prim_memory },
             some { arg := MKLDNN_ARG_TO, memory := U }])
      ∧ out.net_index = k + 1 := by
  refine ⟨_, _, _,
    prepare_reorder_created env w U o R dir buffer k net net_args hlib halloc hU hne hk hk2,
    rfl, rfl, ?_, prim_fresh w, ?_, ?_, mem_fresh w, ?_, rfl, ?_, ?_⟩
  · simp [NULL]
  · rw [prim_appended]
    split <;> rfl
  · simp [NULL]
  · exact mem_appended _ _ _ _ _ _ _ _ _
  · split <;> simp_all
  · exact Nat.mod_eq_of_lt hwrap

/-- Witness of C1: a user memory in `nchw` against a blocked resolved layout, direction
user to operator, position `0` of a three-slot net. -/
theorem prepare_reorder_mismatch_appends_witness :
    ∃ (out : reorder_out) (w1 : World) (node : args_t),
      prepare_reorder (env_of true true true) 1 pd_blocked_src 1 8192 0 net3 net_args3
          world_one_memory = .ret (.ok out) w1
      ∧ out.net = net3.set 0 (some out.reorder)
      ∧ out.net_args = net_args3.set 0 (some node)
      ∧ out.reorder ≠ NULL
      ∧ world_one_memory.prim out.reorder = none
      ∧ w1.prim out.reorder
          = some (if (1 : Int) ≠ 0 then .reorder pd_user_src pd_blocked_src
                  else .reorder pd_blocked_src pd_user_src)
      ∧ out.prim_memory ≠ NULL
      ∧ world_one_memory.mem out.prim_memory = none
      ∧ w1.mem out.prim_memory = some { pd := pd_blocked_src, handle := 8192 }
      ∧ node.nargs = 2
      ∧ node.cells =
          (if (1 : Int) ≠ 0 then
            [some { arg := MKLDNN_ARG_FROM, memory := 1 },
             some { arg := MKLDNN_ARG_TO, memory := out.prim_memory }]
          else
            [some { arg := MKLDNN_ARG_FROM, memory := out.prim_memory },
             some { arg := MKLDNN_ARG_TO, memory := 1 }])
      ∧ out.net_index = 0 + 1 :=
  prepare_reorder_mismatch_appends (env_of true true true) world_one_memory 1
    { pd := pd_user_src, handle := 4096 } pd_blocked_src 1 8192 0 net3 net_args3
    (fun _ _ => rfl) (by decide) rfl (by decide) (by decide) (by decide) (by decide)

/-- C2: when the user memory's descriptor equals the resolved descriptor, `prepare_reorder`
creates no reorder and no internal memory (the memory objects, the primitives, the heap
and the trace of the world are as before), sets `*prim_memory` and `*reorder` to `NULL`,
leaves `*net_index`, `net` and `net_args` as they were and returns `mkldnn_success`. -/
theorem prepare_reorder_equal_is_noop (env : Env) (w : World) (U : mkldnn_memory_t)
    (o : MemObj) (R : MemPd) (dir : Int) (buffer : Ptr) (k : Nat)
    (net : List (Option mkldnn_primitive_t)) (net_args : List (Option args_t))
    (hlib : env.status w.calls = mkldnn_success)
    (hU : w.mem U = some o)
    (heq : mkldnn_memory_primitive_desc_equal o.pd R = true) :
    ∃ (r : Ret reorder_out) (w1 : World),
      prepare_reorder env U R dir buffer k net net_args w = .ret r w1
      ∧ r.status = mkldnn_success
      ∧ r = .ok { prim_memory := NULL, reorder := NULL, net_index := k, net := net,
                  net_args := net_args }
      ∧ w1.mems = w.mems ∧ w1.prims = w.prims ∧ w1.heap = w.heap ∧ w1.trace = w.trace
      ∧ w1.out = w.out :=
  ⟨_, _, prepare_reorder_skipped env w U o R dir buffer k net net_args hlib hU heq,
    rfl, rfl, rfl, rfl, rfl, rfl, rfl⟩

/-- Witness of C2: the user memory in `nchw` against the same `nchw` descriptor. -/
theorem prepare_reorder_equal_is_noop_witness :
    ∃ (r : Ret reorder_out) (w1 : World),
      prepare_reorder (env_of false false false) 1 pd_user_src 1 8192 2 net3 net_args3
          world_one_memory = .ret r w1
      ∧ r.status = mkldnn_success
      ∧ r = .ok { prim_memory := NULL, reorder := NULL, net_index := 2, net := net3,
                  net_args := net_args3 }
      ∧ w1.mems = world_one_memory.mems ∧ w1.prims = world_one_memory.prims
      ∧ w1.heap = world_one_memory.heap ∧ w1.trace = world_one_memory.trace
      ∧ w1.out = world_one_memory.out :=
  prepare_reorder_equal_is_noop (env_of false false false) world_one_memory 1
    { pd := pd_user_src, handle := 4096 } pd_user_src 1 8192 2 net3 net_args3
    rfl rfl (by decide)

/-- C3: whenever `prepare_reorder` returns, from any world and for any arguments, every
entry of `net` and `net_args` at an index other than the initial `*net_index` is what it
was before the call, the arrays keep their lengths, and `*net_index` (below the largest
`uint32_t`) has not decreased. -/
theorem prepare_reorder_frame (env : Env) (w : World) (U : mkldnn_memory_t) (R : MemPd)
    (dir : Int) (buffer : Ptr) (k : Nat) (net : List (Option mkldnn_primitive_t))
    (net_args : List (Option args_t)) (r : Ret reorder_out) (w1 : World)
    (hwrap : k + 1 < UINT32_MOD)
    (hret : prepare_reorder env U R dir buffer k net net_args w = .ret r w1) :
    ∃ out : reorder_out, r = .ok out
      ∧ (∀ i, i ≠ k → out.net.get? i = net.get? i ∧ out.net_args.get? i = net_args.get? i)
      ∧ out.net.length = net.length ∧ out.net_args.length = net_args.length
      ∧ k ≤ out.net_index := by
  rcases prepare_reorder_outcome env w U R dir buffer k net net_args with
    h | ⟨j, w2, _, _, _, _, h, _⟩ | ⟨o, _, _, h⟩ | ⟨o, out, w2, node, _, _, _, _, h, hn, ha, hi⟩
  · rw [h] at hret
    cases hret
  · rw [h] at hret
    cases hret
  · rw [h] at hret
    cases hret
    exact ⟨_, rfl, fun i _ => ⟨rfl, rfl⟩, rfl, rfl, Nat.le_refl _⟩
  · rw [h] at hret
    cases hret
    refine ⟨out, rfl, fun i hik => ⟨?_, ?_⟩, ?_, ?_, ?_⟩
    · rw [hn]
      exact get?_set_other _ _ (Ne.symm hik)
    · rw [ha]
      exact get?_set_other _ _ (Ne.symm hik)
    · rw [hn, List.length_set]
    · rw [ha, List.length_set]
    · rw [hi, Nat.mod_eq_of_lt hwrap]
      exact Nat.le_succ k

/-- Witness of C3: the call of the C1 witness returns, so the frame property applies. -/
theorem prepare_reorder_frame_witness :
    ∃ out : reorder_out,
      (.ok ⟨2, 1, 2, [none, some 1, none],
            [none, some ⟨2, 4096, [some ⟨MKLDNN_ARG_FROM, 2⟩, some ⟨MKLDNN_ARG_TO, 1⟩]⟩, none]⟩
        : Ret reorder_out) = .ok out
      ∧ (∀ i, i ≠ 1 → out.net.get? i = net3.get? i ∧ out.net_args.get? i = net_args3.get? i)
      ∧ out.net.length = net3.length ∧ out.net_args.length = net_args3.length
      ∧ 1 ≤ out.net_index :=
  prepare_reorder_frame (env_of true true true) world_one_memory 1 pd_blocked_src 0 8192 1
    net3 net_args3 _ _ (by decide) rfl

theorem mem_kept (w : World) (U : mkldnn_memory_t) (o m : MemObj) (c : Nat) (h : List Alloc)
    (ps : List PrimDesc) (t : List Event) (hU : w.mem U = some o) :
    World.mem { calls := c, heap := h, engines := w.engines, streams := w.streams,
                mems := w.mems ++ [m], prims := ps, trace := t, out := w.out } U = some o := by
  unfold World.mem at hU ⊢
  by_cases h0 : U = NULL
  · simp [h0] at hU
  · simp only [h0, if_false] at hU ⊢
    rw [List.get?_eq_getElem?] at hU ⊢
    rw [List.getElem?_append_left]
    · exact hU
    · by_contra hlt
      rw [List.getElem?_eq_none (Nat.le_of_not_lt hlt)] at hU
      cases hU

theorem prim_succ (w : World) (n : Nat) : w.prim (n + 1) = w.prims.get? n := by
  simp [World.prim, NULL]

theorem get?_append_mid {α : Type} (l : List α) (a : α) (r : List α) :
    (l ++ a :: r).get? l.length = some a := by
  induction l with
  | nil => rfl
  | cons x xs ih => exact ih

/-- C4, refuted as stated: two consecutive calls with the same mismatched operand on the
same net leave two reorder entries in the net, not one. -/
theorem prepare_reorder_twice_two_entries :
    ∃ (out : reorder_out) (w1 : World),
      prepare_reorder_twice (env_of true true true) 1 pd_blocked_src 1 8192 0 net3 net_args3
          world_one_memory = .ret (.ok out) w1
      ∧ out.net = [some 1, some 2, none]
      ∧ reorder_entries w1 out.net = 2
      ∧ reorder_entries w1 out.net ≠ 1 := by
  refine ⟨_, _, rfl, ?_, ?_, ?_⟩ <;> decide

/-- C4, amended: reorder insertion is not idempotent for a mismatched operand.  Two
consecutive calls of `prepare_reorder` with the same user memory, resolved descriptor,
direction and buffer on the same net append two reorder entries, two different new
primitives at positions `k` and `k + 1`, and leave `*net_index` at `k + 2`; when the
descriptors are equal both calls leave the net, its arguments and `*net_index` as they
were, so no reorder entry is added. -/
theorem prepare_reorder_twice_appends_each_time (env : Env) (w : World)
    (U : mkldnn_memory_t) (o : MemObj) (R : MemPd) (dir : Int) (buffer : Ptr) (k : Nat)
    (net : List (Option mkldnn_primitive_t)) (net_args : List (Option args_t))
    (hlib : ∀ i, i < 12 → env.status (w.calls + i) = mkldnn_success)
    (halloc : env.alloc w.heap.length ≠ NULL)
    (halloc2 : env.alloc (w.heap.length + 1) ≠ NULL)
    (hU : w.mem U = some o)
    (hk : k + 1 < net.length) (hk2 : k + 1 < net_args.length)
    (hwrap : k + 2 < UINT32_MOD) :
    (mkldnn_memory_primitive_desc_equal o.pd R = false →
      ∃ (out : reorder_out) (w2 : World) (r1 r2 : mkldnn_primitive_t),
        prepare_reorder_twice env U R dir buffer k net net_args w = .ret (.ok out) w2
        ∧ r1 ≠ r2
        ∧ out.net = (net.set k (some r1)).set (k + 1) (some r2)
        ∧ w.prim r1 = none ∧ w.prim r2 = none
        ∧ w2.prim r1 = some (.reorder (if dir ≠ 0 then o.pd else R) (if dir ≠ 0 then R else o.pd))
        ∧ w2.prim r2 = some (.reorder (if dir ≠ 0 then o.pd else R) (if dir ≠ 0 then R else o.pd))
        ∧ out.net_index = k + 2)
    ∧ (mkldnn_memory_primitive_desc_equal o.pd R = true →
      ∃ w2 : World,
        prepare_reorder_twice env U R dir buffer k net net_args w
          = .ret (.ok { prim_memory := NULL, reorder := NULL, net_index := k, net := net,
                        net_args := net_args }) w2
        ∧ w2.prims = w.prims ∧ w2.mems = w.mems) := by
  have hmod : (k + 1) % UINT32_MOD = k + 1 := Nat.mod_eq_of_lt (by omega)
  have hmod2 : (k + 1 + 1) % UINT32_MOD = k + 2 := Nat.mod_eq_of_lt (by omega)
  constructor
  · intro hne
    obtain ⟨out1, w1, h1, hc, hh, hm, hp, hn, hna, hi, hr⟩ :
        ∃ (out1 : reorder_out) (w1 : World),
          prepare_reorder env U R dir buffer k net net_args w = .ret (.ok out1) w1
          ∧ w1.calls = w.calls + 6
          ∧ w1.heap.length = w.heap.length + 1
          ∧ w1.mem U = some o
          ∧ w1.prims = w.prims ++
              [.reorder (if dir ≠ 0 then o.pd else R) (if dir ≠ 0 then R else o.pd)]
          ∧ out1.net = net.set k (some (w.prims.length + 1))
          ∧ out1.net_args.length = net_args.length
          ∧ out1.net_index = k + 1
          ∧ out1.reorder = w.prims.length + 1 :=
      ⟨_, _, prepare_reorder_created env w U o R dir buffer k net net_args
          (fun i hi => hlib i (by omega)) halloc hU hne (by omega) (by omega),
        rfl, by simp, mem_kept w U o _ _ _ _ _ hU, rfl, rfl, by simp, hmod, rfl⟩
    have h2 := prepare_reorder_created env w1 U o R dir buffer out1.net_index out1.net
      out1.net_args
      (fun i hi => by
        rw [hc, Nat.add_assoc]
        exact hlib (6 + i) (by omega))
      (by rw [hh]; exact halloc2) hm hne
      (by rw [hi, hn, List.length_set]; exact hk)
      (by rw [hi, hna]; exact hk2)
    refine ⟨_, _, w.prims.length + 1, w.prims.length + 1 + 1,
      (bind_ret (CHECK_ok h1)).trans h2, (Nat.lt_succ_self _).ne, ?_, prim_fresh w, ?_, ?_, ?_, ?_⟩
    · dsimp only
      rw [hn, hi, hp]
      simp
    · simp [World.prim, NULL]
    · rw [prim_succ]
      dsimp only
      rw [hp, List.append_assoc]
      exact get?_append_mid _ _ _
    · rw [prim_succ]
      dsimp only
      rw [hp]
      have hlen : (w.prims ++
          [PrimDesc.reorder (if dir ≠ 0 then o.pd else R) (if dir ≠ 0 then R else o.pd)]).length
          = w.prims.length + 1 := by simp
      rw [← hlen]
      exact get?_append_mid _ _ _
    · dsimp only
      rw [hi]
      exact hmod2
  · intro heq
    have h1 := prepare_reorder_skipped env w U o R dir buffer k net net_args
      (hlib 0 (by omega)) hU heq
    have h2 := prepare_reorder_skipped env { w with calls := w.calls + 1 } U o R dir buffer k
      net net_args (hlib 1 (by omega)) hU heq
    exact ⟨_, (bind_ret (CHECK_ok h1)).trans h2, rfl, rfl⟩

/-- Witness of the amended C4: the two calls of the counterexample, and the two calls on a
user memory whose descriptor already equals the resolved one. -/
theorem prepare_reorder_twice_appends_each_time_witness :
    (mkldnn_memory_primitive_desc_equal pd_user_src pd_blocked_src = false →
      ∃ (out : reorder_out) (w2 : World) (r1 r2 : mkldnn_primitive_t),
        prepare_reorder_twice (env_of true true true) 1 pd_blocked_src 1 8192 0 net3 net_args3
            world_one_memory = .ret (.ok out) w2
        ∧ r1 ≠ r2
        ∧ out.net = (net3.set 0 (some r1)).set (0 + 1) (some r2)
        ∧ world_one_memory.prim r1 = none ∧ world_one_memory.prim r2 = none
        ∧ w2.prim r1 = some (.reorder (if (1 : Int) ≠ 0 then pd_user_src else pd_blocked_src)
            (if (1 : Int) ≠ 0 then pd_blocked_src else pd_user_src))
        ∧ w2.prim r2 = some (.reorder (if (1 : Int) ≠ 0 then pd_user_src else pd_blocked_src)
            (if (1 : Int) ≠ 0 then pd_blocked_src else pd_user_src))
        ∧ out.net_index = 0 + 2)
    ∧ (mkldnn_memory_primitive_desc_equal pd_user_src pd_blocked_src = true →
      ∃ w2 : World,
        prepare_reorder_twice (env_of true true true) 1 pd_blocked_src 1 8192 0 net3 net_args3
            world_one_memory
          = .ret (.ok { prim_memory := NULL, reorder := NULL, net_index := 0, net := net3,
                        net_args := net_args3 }) w2
        ∧ w2.prims = world_one_memory.prims ∧ w2.mems = world_one_memory.mems) :=
  prepare_reorder_twice_appends_each_time (env_of true true true) world_one_memory 1
    { pd := pd_user_src, handle := 4096 } pd_blocked_src 1 8192 0 net3 net_args3
    (fun _ _ => rfl) (by decide) (by decide) rfl (by decide) (by decide) (by decide)

/-! ## `init_data_memory` evaluated -/

theorem get_handle_new (c : Nat) (h : List Alloc) (e s : Nat) (ms : List MemObj)
    (ps : List PrimDesc) (t : List Event) (o : List Msg) (m : MemObj) :
    (World.mem { calls := c, heap := h, engines := e, streams := s, mems := ms ++ [m],
                 prims := ps, trace := t, out := o } (ms.length + 1)).map
      (fun (o1 : MemObj) => (o1.handle, World.mk c h e s (ms ++ [m]) ps t o))
    = some (m.handle, World.mk c h e s (ms ++ [m]) ps t o) := by
  rw [mem_appended]
  rfl

theorem set_handle_new (c : Nat) (h : List Alloc) (e s : Nat) (ms : List MemObj)
    (ps : List PrimDesc) (t : List Event) (o : List Msg) (pd : MemPd) (p q : Ptr) :
    (World.mem { calls := c, heap := h, engines := e, streams := s,
                 mems := ms ++ [{ pd := pd, handle := p }], prims := ps, trace := t,
                 out := o } (ms.length + 1)).map
      (fun (o1 : MemObj) => ((), World.mk c h e s
        ((ms ++ [MemObj.mk pd p]).set (ms.length + 1 - 1) (MemObj.mk o1.pd q)) ps t o))
    = some ((), World.mk c h e s (ms ++ [MemObj.mk pd q]) ps t o) := by
  rw [mem_appended]
  simp

theorem CHECK_TRUE_ok (w : World) : CHECK_TRUE true w = .ret () w := rfl

theorem CHECK_TRUE_beq (p : Ptr) (w : World) : CHECK_TRUE (p == p) w = .ret () w := by
  simp [CHECK_TRUE, pure_apply]

/-- What `init_data_memory` hands back when its seven library calls succeed on
well-formed dimensions and a live engine. -/
theorem init_data_memory_ok (env : Env) (w : World) (dim : Nat) (dims : List Int)
    (user_fmt : mkldnn_memory_format_t) (data_type : mkldnn_data_type_t)
    (engine : mkldnn_engine_t) (data : Ptr)
    (hlib : ∀ i, i < 7 → env.status (w.calls + i) = mkldnn_success)
    (hdim : dim ≤ dims.length) (hnz : dim ≠ 0)
    (hpos : (dims.take dim).any (fun d => d ≤ 0) = false)
    (heng : engine ≠ NULL) :
    init_data_memory env dim dims user_fmt data_type engine data w
      = .ret (w.mems.length + 1)
          { calls := w.calls + 7
            heap := w.heap
            engines := w.engines
            streams := w.streams
            mems := w.mems ++
              [{ pd := { md := { dims := dims.take dim, data_type := data_type,
                                 format := user_fmt }, engine := engine }, handle := data }]
            prims := w.prims
            trace := w.trace ++
              [.primitive_desc_destroy (.memory
                { md := { dims := dims.take dim, data_type := data_type, format := user_fmt },
                  engine := engine })]
            out := w.out } := by
  have h0 := hlib 0 (by omega)
  have h1 := hlib 1 (by omega)
  have h2 := hlib 2 (by omega)
  have h3 := hlib 3 (by omega)
  have h4 := hlib 4 (by omega)
  have h5 := hlib 5 (by omega)
  have h6 := hlib 6 (by omega)
  unfold init_data_memory
  refine (bind_ret (?_ : _ = .ret
    ({ dims := dims.take dim, data_type := data_type, format := user_fmt }
      : mkldnn_memory_desc_t) { w with calls := w.calls + 1 })).trans ?_
  · unfold mkldnn_memory_desc_init
    rw [if_pos hdim]
    exact CHECK_libcall h0 (by simp [hnz, hpos])
  refine (bind_ret (CHECK_libcall h1 (by simp only [heng, if_false]; rfl))).trans ?_
  refine (bind_ret (CHECK_libcall h2 rfl)).trans ?_
  refine (bind_ret (CHECK_libcall h3 (get_handle_new _ _ _ _ _ _ _ _ _))).trans ?_
  refine (bind_ret (CHECK_TRUE_beq _ _)).trans ?_
  refine (bind_ret (CHECK_libcall h4 (set_handle_new _ _ _ _ _ _ _ _ _ _ _))).trans ?_
  refine (bind_ret (CHECK_libcall h5 (get_handle_new _ _ _ _ _ _ _ _ _))).trans ?_
  refine (bind_ret (CHECK_TRUE_beq _ _)).trans ?_
  refine (bind_ret (CHECK_libcall h6 rfl)).trans ?_
  rfl

/-- Every way `init_data_memory` can end: undefined behaviour (the dimension count
exceeds the array), `exit(2)` after `CHECK` has printed a status other than success, or a
return with the new memory object bound to `data`.  The exit of `CHECK_TRUE` is not among
them. -/
theorem init_data_memory_outcome (env : Env) (w : World) (dim : Nat) (dims : List Int)
    (user_fmt : mkldnn_memory_format_t) (data_type : mkldnn_data_type_t)
    (engine : mkldnn_engine_t) (data : Ptr) :
    init_data_memory env dim dims user_fmt data_type engine data w = .ub
    ∨ (∃ s w1, s ≠ mkldnn_success
        ∧ init_data_memory env dim dims user_fmt data_type engine data w = .exited 2 w1
        ∧ w1.out = w.out ++ [.error_returns s] ∧ w1.trace = w.trace)
    ∨ (∃ w1, init_data_memory env dim dims user_fmt data_type engine data w
          = .ret (w.mems.length + 1) w1
        ∧ w1.mem (w.mems.length + 1)
          = some { pd := { md := { dims := dims.take dim, data_type := data_type,
                                   format := user_fmt }, engine := engine }, handle := data }
        ∧ w1.out = w.out) := by
  by_cases hdim : dim ≤ dims.length
  swap
  · left
    unfold init_data_memory
    refine bind_ub ?_
    unfold mkldnn_memory_desc_init
    rw [if_neg hdim]
    rfl
  by_cases h0 : env.status (w.calls + 0) = mkldnn_success
  swap
  · right; left
    exact ⟨_, _, h0,
      (by
        unfold init_data_memory
        apply bind_exited
        unfold mkldnn_memory_desc_init
        rw [if_pos hdim]
        exact CHECK_fail (libcall_fail h0) h0),
      by rfl, by rfl⟩
  by_cases hv : dim = 0 ∨ (dims.take dim).any (fun d => d ≤ 0) = true
  · right; left
    exact ⟨mkldnn_invalid_arguments, _, by decide,
      (by
        unfold init_data_memory
        apply bind_exited
        unfold mkldnn_memory_desc_init
        rw [if_pos hdim]
        exact CHECK_fail (libcall_invalid h0 (by simp only [hv, if_true])) (by decide)),
      by rfl, by rfl⟩
  have hnz : dim ≠ 0 := fun h => hv (Or.inl h)
  have hpos : (dims.take dim).any (fun d => d ≤ 0) = false := by
    cases hb : (dims.take dim).any (fun d => d ≤ 0)
    · rfl
    · exact absurd (Or.inr hb) hv
  by_cases h1 : env.status (w.calls + 1) = mkldnn_success
  swap
  · right; left
    exact ⟨_, _, h1,
      (by
        unfold init_data_memory
        refine (bind_ret (?_ : _ = .ret
          ({ dims := dims.take dim, data_type := data_type, format := user_fmt }
            : mkldnn_memory_desc_t) { w with calls := w.calls + 1 })).trans ?_
        · unfold mkldnn_memory_desc_init
          rw [if_pos hdim]
          exact CHECK_libcall h0 (by simp [hnz, hpos])
        refine bind_exited (CHECK_fail (libcall_fail ?_) ?_) <;> exact h1),
      by rfl, by rfl⟩
  by_cases heng : engine = NULL
  · right; left
    exact ⟨mkldnn_invalid_arguments, _, by decide,
      (by
        unfold init_data_memory
        refine (bind_ret (?_ : _ = .ret
          ({ dims := dims.take dim, data_type := data_type, format := user_fmt }
            : mkldnn_memory_desc_t) { w with calls := w.calls + 1 })).trans ?_
        · unfold mkldnn_memory_desc_init
          rw [if_pos hdim]
          exact CHECK_libcall h0 (by simp [hnz, hpos])
        exact bind_exited (CHECK_fail (libcall_invalid h1 (by simp only [heng, if_true])) (by decide))),
      by rfl, by rfl⟩
  by_cases h2 : env.status (w.calls + 2) = mkldnn_success
  swap
  · right; left
    exact ⟨_, _, h2,
      (by
        unfold init_data_memory
        refine (bind_ret (?_ : _ = .ret
          ({ dims := dims.take dim, data_type := data_type, format := user_fmt }
            : mkldnn_memory_desc_t) { w with calls := w.calls + 1 })).trans ?_
        · unfold mkldnn_memory_desc_init
          rw [if_pos hdim]
          exact CHECK_libcall h0 (by simp [hnz, hpos])
        refine (bind_ret (CHECK_libcall h1 (by simp only [heng, if_false]; rfl))).trans ?_
        refine bind_exited (CHECK_fail (libcall_fail ?_) ?_) <;> exact h2),
      by rfl, by rfl⟩
  by_cases h3 : env.status (w.calls + 3) = mkldnn_success
  swap
  · right; left
    exact ⟨_, _, h3,
      (by
        unfold init_data_memory
        refine (bind_ret (?_ : _ = .ret
          ({ dims := dims.take dim, data_type := data_type, format := user_fmt }
            : mkldnn_memory_desc_t) { w with calls := w.calls + 1 })).trans ?_
        · unfold mkldnn_memory_desc_init
          rw [if_pos hdim]
          exact CHECK_libcall h0 (by simp [hnz, hpos])
        refine (bind_ret (CHECK_libcall h1 (by simp only [heng, if_false]; rfl))).trans ?_
        refine (bind_ret (CHECK_libcall h2 rfl)).trans ?_
        refine bind_exited (CHECK_fail (libcall_fail ?_) ?_) <;> exact h3),
      by rfl, by rfl⟩
  by_cases h4 : env.status (w.calls + 4) = mkldnn_success
  swap
  · right; left
    exact ⟨_, _, h4,
      (by
        unfold init_data_memory
        refine (bind_ret (?_ : _ = .ret
          ({ dims := dims.take dim, data_type := data_type, format := user_fmt }
            : mkldnn_memory_desc_t) { w with calls := w.calls + 1 })).trans ?_
        · unfold mkldnn_memory_desc_init
          rw [if_pos hdim]
          exact CHECK_libcall h0 (by simp [hnz, hpos])
        refine (bind_ret (CHECK_libcall h1 (by simp only [heng, if_false]; rfl))).trans ?_
        refine (bind_ret (CHECK_libcall h2 rfl)).trans ?_
        refine (bind_ret (CHECK_libcall h3 (get_handle_new _ _ _ _ _ _ _ _ _))).trans ?_
        refine (bind_ret (CHECK_TRUE_beq _ _)).trans ?_
        refine bind_exited (CHECK_fail (libcall_fail ?_) ?_) <;> exact h4),
      by rfl, by rfl⟩
  by_cases h5 : env.status (w.calls + 5) = mkldnn_success
  swap
  · right; left
    exact ⟨_, _, h5,
      (by
        unfold init_data_memory
        refine (bind_ret (?_ : _ = .ret
          ({ dims := dims.take dim, data_type := data_type, format := user_fmt }
            : mkldnn_memory_desc_t) { w with calls := w.calls + 1 })).trans ?_
        · unfold mkldnn_memory_desc_init
          rw [if_pos hdim]
          exact CHECK_libcall h0 (by simp [hnz, hpos])
        refine (bind_ret (CHECK_libcall h1 (by simp only [heng, if_false]; rfl))).trans ?_
        refine (bind_ret (CHECK_libcall h2 rfl)).trans ?_
        refine (bind_ret (CHECK_libcall h3 (get_handle_new _ _ _ _ _ _ _ _ _))).trans ?_
        refine (bind_ret (CHECK_TRUE_beq _ _)).trans ?_
        refine (bind_ret (CHECK_libcall h4 (set_handle_new _ _ _ _ _ _ _ _ _ _ _))).trans ?_
        refine bind_exited (CHECK_fail (libcall_fail ?_) ?_) <;> exact h5),
      by rfl, by rfl⟩
  by_cases h6 : env.status (w.calls + 6) = mkldnn_success
  swap
  · right; left
    exact ⟨_, _, h6,
      (by
        unfold init_data_memory
        refine (bind_ret (?_ : _ = .ret
          ({ dims := dims.take dim, data_type := data_type, format := user_fmt }
            : mkldnn_memory_desc_t) { w with calls := w.calls + 1 })).trans ?_
        · unfold mkldnn_memory_desc_init
          rw [if_pos hdim]
          exact CHECK_libcall h0 (by simp [hnz, hpos])
        refine (bind_ret (CHECK_libcall h1 (by simp only [heng, if_false]; rfl))).trans ?_
        refine (bind_ret (CHECK_libcall h2 rfl)).trans ?_
        refine (bind_ret (CHECK_libcall h3 (get_handle_new _ _ _ _ _ _ _ _ _))).trans ?_
        refine (bind_ret (CHECK_TRUE_beq _ _)).trans ?_
        refine (bind_ret (CHECK_libcall h4 (set_handle_new _ _ _ _ _ _ _ _ _ _ _))).trans ?_
        refine (bind_ret (CHECK_libcall h5 (get_handle_new _ _ _ _ _ _ _ _ _))).trans ?_
        refine (bind_ret (CHECK_TRUE_beq _ _)).trans ?_
        refine bind_exited (CHECK_fail (libcall_fail ?_) ?_) <;> exact h6),
      by rfl, by rfl⟩
  right; right
  refine ⟨_, init_data_memory_ok env w dim dims user_fmt data_type engine data ?_ hdim hnz hpos
    heng, mem_appended _ _ _ _ _ _ _ _ _, rfl⟩
  intro i hi
  have hcase : i = 0 ∨ i = 1 ∨ i = 2 ∨ i = 3 ∨ i = 4 ∨ i = 5 ∨ i = 6 := by omega
  rcases hcase with h | h | h | h | h | h | h <;> subst h
  · exact h0
  · exact h1
  · exact h2
  · exact h3
  · exact h4
  · exact h5
  · exact h6

theorem libcall_ok_inv {α : Type} {env : Env} {eff : World → Option (α × World)} {w w1 : World}
    {a : α} (h : libcall env eff w = .ret (.ok a) w1) :
    env.status w.calls = mkldnn_success ∧ eff { w with calls := w.calls + 1 } = some (a, w1) := by
  unfold libcall at h
  cases hs : env.status w.calls <;> rw [hs] at h <;> simp only at h
  · cases he : eff { w with calls := w.calls + 1 } with
    | none =>
      rw [he] at h
      cases h
    | some r =>
      obtain ⟨a1, w2⟩ := r
      rw [he] at h
      cases h
      exact ⟨rfl, rfl⟩
  all_goals cases h

/-- C9: a memory object created without a handle reports a null data handle, after
`set_data_handle(p)` the handle read back is exactly `p`, and so `init_data_memory`, for
every dimension array, layout, element type, engine and data pointer `p`, never fails a
`CHECK_TRUE` (whenever it exits, it is `exit(2)` after `CHECK` printed a status other than
success), the memory object it returns has data handle `p`, and it does return when its
seven library calls succeed on well-formed dimensions and a live engine. -/
theorem init_data_memory_handle (env : Env) (w : World) (dim : Nat) (dims : List Int)
    (user_fmt : mkldnn_memory_format_t) (data_type : mkldnn_data_type_t)
    (engine : mkldnn_engine_t) (p : Ptr) :
    (∀ (pd : MemPd) (m : mkldnn_memory_t) (w1 : World) (h : Ptr) (w2 : World),
        mkldnn_memory_create env pd NULL w = .ret (.ok m) w1 →
        mkldnn_memory_get_data_handle env m w1 = .ret (.ok h) w2 → h = NULL)
    ∧ (∀ (m : mkldnn_memory_t) (w1 : World) (h : Ptr) (w2 : World),
        mkldnn_memory_set_data_handle env m p w = .ret (.ok ()) w1 →
        mkldnn_memory_get_data_handle env m w1 = .ret (.ok h) w2 → h = p)
    ∧ (∀ (c : Nat) (w1 : World),
        init_data_memory env dim dims user_fmt data_type engine p w = .exited c w1 →
        c = 2 ∧ ∃ s, s ≠ mkldnn_success ∧ w1.out = w.out ++ [.error_returns s])
    ∧ (∀ (m : mkldnn_memory_t) (w1 : World),
        init_data_memory env dim dims user_fmt data_type engine p w = .ret m w1 →
        ∃ o, w1.mem m = some o ∧ o.handle = p)
    ∧ ((∀ i, i < 7 → env.status (w.calls + i) = mkldnn_success) → dim ≤ dims.length →
        dim ≠ 0 → (dims.take dim).any (fun d => d ≤ 0) = false → engine ≠ NULL →
        ∃ w1, init_data_memory env dim dims user_fmt data_type engine p w
          = .ret (w.mems.length + 1) w1) := by
  refine ⟨?_, ?_, ?_, ?_, ?_⟩
  · intro pd m w1 h w2 hc hg
    obtain ⟨_, he⟩ := libcall_ok_inv hc
    obtain ⟨_, hg2⟩ := libcall_ok_inv hg
    cases he
    rw [mem_appended] at hg2
    cases hg2
    rfl
  · intro m w1 h w2 hs hg
    obtain ⟨_, he⟩ := libcall_ok_inv hs
    obtain ⟨_, hg2⟩ := libcall_ok_inv hg
    cases hm : World.mem { w with calls := w.calls + 1 } m with
    | none =>
      rw [hm] at he
      cases he
    | some o =>
      rw [hm] at he
      cases he
      have hm0 : m ≠ NULL := by
        intro h0
        simp [World.mem, h0] at hm
      have hlt : m - 1 < w.mems.length := by
        by_contra hge
        simp only [World.mem, hm0, if_false] at hm
        rw [List.get?_eq_none.mpr (Nat.le_of_not_lt hge)] at hm
        cases hm
      have hread : World.mem
          { calls := w.calls + 1 + 1, heap := w.heap, engines := w.engines,
            streams := w.streams, mems := w.mems.set (m - 1) { o with handle := p },
            prims := w.prims, trace := w.trace, out := w.out } m
          = some { o with handle := p } := by
        simp only [World.mem, hm0, if_false]
        exact get?_set_self _ hlt
      rw [hread] at hg2
      cases hg2
      rfl
  · intro c w1 hx
    rcases init_data_memory_outcome env w dim dims user_fmt data_type engine p with
      h | ⟨s, w2, hs, h, ho, _⟩ | ⟨w2, h, _, _⟩
    · rw [h] at hx
      cases hx
    · rw [h] at hx
      cases hx
      exact ⟨rfl, s, hs, ho⟩
    · rw [h] at hx
      cases hx
  · intro m w1 hx
    rcases init_data_memory_outcome env w dim dims user_fmt data_type engine p with
      h | ⟨s, w2, hs, h, ho, _⟩ | ⟨w2, h, hm, _⟩
    · rw [h] at hx
      cases hx
    · rw [h] at hx
      cases hx
    · rw [h] at hx
      cases hx
      exact ⟨_, hm, rfl⟩
  · intro hlib hdim hnz hpos heng
    exact ⟨_, init_data_memory_ok env w dim dims user_fmt data_type engine p hlib hdim hnz
      hpos heng⟩

/-- Witness of C9: the user source memory of the example, created in a fresh world with
one engine, is returned as memory object `1` with the data handle `4096` it was given. -/
theorem init_data_memory_handle_witness :
    ∃ w1, init_data_memory (env_of true true true) 4 [8, 3, 227, 227] mkldnn_nchw mkldnn_f32 1
        4096 { World.init with engines := 1 } = .ret 1 w1
      ∧ ∃ o, w1.mem 1 = some o ∧ o.handle = 4096 := by
  have h := init_data_memory_handle (env_of true true true) { World.init with engines := 1 } 4
    [8, 3, 227, 227] mkldnn_nchw mkldnn_f32 1 4096
  obtain ⟨w1, hw⟩ := h.2.2.2.2 (fun _ _ => rfl) (by decide) (by decide) (by decide) (by decide)
  exact ⟨w1, hw, h.2.2.2.1 _ _ hw⟩


/-! ## Stepping through `simple_net` -/

theorem returns_bind {α β : Type} {P : β → World → Prop} {m : M α} {f : α → M β}
    {w w1 : World} {a : α} (h : m w = .ret a w1) (hp : (f a w1).returns P) :
    ((m >>= f) w).returns P := by
  rw [bind_ret h]
  exact hp

theorem returns_ret {α : Type} {P : α → World → Prop} {a : α} {w : World} :
    (Outcome.ret a w).returns P ↔ P a w := by
  unfold Outcome.returns
  exact Iff.rfl

theorem returns_pure {α : Type} {P : α → World → Prop} {a : α} {w : World} (h : P a w) :
    ((pure a : M α) w).returns P :=
  returns_ret.mpr h

theorem mismatch_of_mem {w : World} {U : mkldnn_memory_t} {o : MemObj} (R : MemPd)
    (hU : w.mem U = some o) :
    mismatch w U R = !mkldnn_memory_primitive_desc_equal o.pd R := by
  simp [mismatch, hU]

/-- Stepping over a checked call of `prepare_reorder` when every library call and
allocation succeeds: the run continues either without a reorder or with the reorder
appended. -/
theorem returns_prepare_reorder {β : Type} {P : β → World → Prop} {f : reorder_out → M β}
    (env : Env) (w : World) (U : mkldnn_memory_t) (o : MemObj) (R : MemPd) (dir : Int)
    (buffer : Ptr) (k : Nat) (net : List (Option mkldnn_primitive_t))
    (net_args : List (Option args_t))
    (hlib : ∀ i, env.status i = mkldnn_success) (halloc : ∀ i, env.alloc i ≠ NULL)
    (hU : w.mem U = some o) (hk : k < net.length) (hk2 : k < net_args.length)
    (heq : mismatch w U R = false →
      (f { prim_memory := NULL, reorder := NULL, net_index := k, net := net,
           net_args := net_args }
        (World.mk (w.calls + 1) w.heap w.engines w.streams w.mems w.prims w.trace
          w.out)).returns P)
    (hne : mismatch w U R = true →
      (f { prim_memory := w.mems.length + 1
           reorder := w.prims.length + 1
           net_index := (k + 1) % UINT32_MOD
           net := net.set k (some (w.prims.length + 1))
           net_args := net_args.set k (some
             { nargs := 2, args := env.alloc w.heap.length,
               cells := [some ⟨MKLDNN_ARG_FROM, if dir ≠ 0 then U else w.mems.length + 1⟩,
                         some ⟨MKLDNN_ARG_TO, if dir ≠ 0 then w.mems.length + 1 else U⟩] }) }
        (World.mk (w.calls + 6)
          (w.heap ++ [{ size := 32, alignment := 1, ptr := env.alloc w.heap.length }])
          w.engines w.streams (w.mems ++ [{ pd := R, handle := buffer }])
          (w.prims ++ [.reorder (if dir ≠ 0 then o.pd else R) (if dir ≠ 0 then R else o.pd)])
          (w.trace ++
            [.primitive_desc_destroy
                (.reorder (if dir ≠ 0 then o.pd else R) (if dir ≠ 0 then R else o.pd)),
             .net_store k (w.prims.length + 1)])
          w.out)).returns P) :
    ((CHECK (prepare_reorder env U R dir buffer k net net_args) >>= f) w).returns P := by
  cases hq : mkldnn_memory_primitive_desc_equal o.pd R with
  | true =>
    have hm : mismatch w U R = false := by rw [mismatch_of_mem R hU, hq]; rfl
    exact returns_bind (CHECK_ok
      (prepare_reorder_skipped env w U o R dir buffer k net net_args (hlib _) hU hq)) (heq hm)
  | false =>
    have hm : mismatch w U R = true := by rw [mismatch_of_mem R hU, hq]; rfl
    exact returns_bind (CHECK_ok
      (prepare_reorder_created env w U o R dir buffer k net net_args (fun i _ => hlib _)
        (halloc _) hU hq hk hk2)) (hne hm)

theorem CHECK_memory_desc_init (env : Env) (w : World) (ndims : Nat) (dims : List Int)
    (data_type : mkldnn_data_type_t) (format : mkldnn_memory_format_t)
    (hs : env.status w.calls = mkldnn_success) (hdim : ndims ≤ dims.length) (hnz : ndims ≠ 0)
    (hpos : (dims.take ndims).any (fun d => d ≤ 0) = false) :
    CHECK (mkldnn_memory_desc_init env ndims dims data_type format) w
      = .ret { dims := dims.take ndims, data_type := data_type, format := format }
          (World.mk (w.calls + 1) w.heap w.engines w.streams w.mems w.prims w.trace w.out) := by
  unfold mkldnn_memory_desc_init
  rw [if_pos hdim]
  exact CHECK_libcall hs (by simp [hnz, hpos])

/-- Stepping over "create a memory object, allocate its buffer, bind the buffer". -/
theorem returns_memory_with_buffer {β : Type} {P : β → World → Prop}
    {F : mkldnn_memory_t → Ptr → M β} (env : Env) (w : World) (pd : MemPd) (size : Nat)
    (hlib : ∀ i, env.status i = mkldnn_success)
    (hp : (F (w.mems.length + 1) (env.alloc w.heap.length)
      (World.mk (w.calls + 2)
        (w.heap ++ [{ size := size, alignment := 64, ptr := env.alloc w.heap.length }])
        w.engines w.streams
        (w.mems ++ [{ pd := pd, handle := env.alloc w.heap.length }]) w.prims w.trace
        w.out)).returns P) :
    ((CHECK (mkldnn_memory_create env pd NULL) >>= fun m =>
      aligned_malloc env size 64 >>= fun buf =>
      CHECK (mkldnn_memory_set_data_handle env m buf) >>= fun _ => F m buf) w).returns P := by
  refine returns_bind (CHECK_libcall (hlib _) rfl) ?_
  refine returns_bind rfl ?_
  refine returns_bind (CHECK_libcall (hlib _) (set_handle_new _ _ _ _ _ _ _ _ _ _ _)) ?_
  exact hp

theorem set_set_same {α : Type} (l : List α) (n : Nat) (a b : α) :
    (l.set n a).set n b = l.set n b := by
  induction l generalizing n with
  | nil => rfl
  | cons x xs ih =>
    cases n with
    | zero => rfl
    | succ k => simp [List.set, ih]

/-- One `set_arg` on the node just stored at `net_args[n]`. -/
theorem set_arg_step (net_args : List (Option args_t)) (n : Nat) (nargs : Int) (p : Ptr)
    (cells : List (Option mkldnn_exec_arg_t)) (j : Nat) (arg_idx : ArgSlot)
    (memory : mkldnn_memory_t) (w : World)
    (hn : n < net_args.length) (hp : p ≠ NULL) (hj : j < cells.length) :
    set_arg_at (net_args.set n (some (args_t.mk nargs p cells))) n j arg_idx memory w
      = .ret (net_args.set n (some (args_t.mk nargs p
          (cells.set j (some (mkldnn_exec_arg_t.mk arg_idx memory)))))) w := by
  refine (set_arg_at_ok _ _ _ (get?_set_self _ hn) hp hj).trans ?_
  rw [set_set_same]
  rfl

set_option maxHeartbeats 4000000 in
set_option maxRecDepth 100000 in
/-- The net `simple_net` assembles when every library call and every allocation
succeeds, for each outcome of the three layout comparisons. -/
theorem simple_net_build_facts (env : Env) (hlib : ∀ i, env.status i = mkldnn_success)
    (halloc : ∀ i, env.alloc i ≠ NULL) :
    (simple_net_build env World.init).returns
      (fun L w => ∃ a b c, BuildFacts env a b c L w) := by
  unfold simple_net_build
  dsimp only [World.init]
  refine returns_bind (CHECK_libcall (hlib _) rfl) ?_
  dsimp only [List.nil_append, List.cons_append, List.length_cons, List.length_nil,
    List.set_cons_zero, List.set_cons_succ, u32_inc, u32_sub, UINT32_MOD, Nat.reduceAdd,
    Nat.reduceMod, Nat.reducePow, Nat.reduceSub]
  refine returns_bind rfl ?_
  dsimp only [List.nil_append, List.cons_append, List.length_cons, List.length_nil,
    List.set_cons_zero, List.set_cons_succ, u32_inc, u32_sub, UINT32_MOD, Nat.reduceAdd,
    Nat.reduceMod, Nat.reducePow, Nat.reduceSub]
  refine returns_bind rfl ?_
  dsimp only [List.nil_append, List.cons_append, List.length_cons, List.length_nil,
    List.set_cons_zero, List.set_cons_succ, u32_inc, u32_sub, UINT32_MOD, Nat.reduceAdd,
    Nat.reduceMod, Nat.reducePow, Nat.reduceSub]
  refine returns_bind rfl ?_
  dsimp only [List.nil_append, List.cons_append, List.length_cons, List.length_nil,
    List.set_cons_zero, List.set_cons_succ, u32_inc, u32_sub, UINT32_MOD, Nat.reduceAdd,
    Nat.reduceMod, Nat.reducePow, Nat.reduceSub]
  refine returns_bind rfl ?_
  dsimp only [List.nil_append, List.cons_append, List.length_cons, List.length_nil,
    List.set_cons_zero, List.set_cons_succ, u32_inc, u32_sub, UINT32_MOD, Nat.reduceAdd,
    Nat.reduceMod, Nat.reducePow, Nat.reduceSub]
  refine returns_bind rfl ?_
  dsimp only [List.nil_append, List.cons_append, List.length_cons, List.length_nil,
    List.set_cons_zero, List.set_cons_succ, u32_inc, u32_sub, UINT32_MOD, Nat.reduceAdd,
    Nat.reduceMod, Nat.reducePow, Nat.reduceSub]
  refine returns_bind rfl ?_
  dsimp only [List.nil_append, List.cons_append, List.length_cons, List.length_nil,
    List.set_cons_zero, List.set_cons_succ, u32_inc, u32_sub, UINT32_MOD, Nat.reduceAdd,
    Nat.reduceMod, Nat.reducePow, Nat.reduceSub]
  refine returns_bind rfl ?_
  dsimp only [List.nil_append, List.cons_append, List.length_cons, List.length_nil,
    List.set_cons_zero, List.set_cons_succ, u32_inc, u32_sub, UINT32_MOD, Nat.reduceAdd,
    Nat.reduceMod, Nat.reducePow, Nat.reduceSub]
  refine returns_bind rfl ?_
  dsimp only [List.nil_append, List.cons_append, List.length_cons, List.length_nil,
    List.set_cons_zero, List.set_cons_succ, u32_inc, u32_sub, UINT32_MOD, Nat.reduceAdd,
    Nat.reduceMod, Nat.reducePow, Nat.reduceSub]
  refine returns_bind (init_data_memory_ok env _ _ _ _ _ _ _ (fun i _ => hlib _)
    (of_decide_eq_true rfl) (of_decide_eq_true rfl) (of_decide_eq_true rfl) (of_decide_eq_true rfl)) ?_
  dsimp only [List.nil_append, List.cons_append, List.length_cons, List.length_nil,
    List.set_cons_zero, List.set_cons_succ, u32_inc, u32_sub, UINT32_MOD, Nat.reduceAdd,
    Nat.reduceMod, Nat.reducePow, Nat.reduceSub]
  refine returns_bind (init_data_memory_ok env _ _ _ _ _ _ _ (fun i _ => hlib _)
    (of_decide_eq_true rfl) (of_decide_eq_true rfl) (of_decide_eq_true rfl) (of_decide_eq_true rfl)) ?_
  dsimp only [List.nil_append, List.cons_append, List.length_cons, List.length_nil,
    List.set_cons_zero, List.set_cons_succ, u32_inc, u32_sub, UINT32_MOD, Nat.reduceAdd,
    Nat.reduceMod, Nat.reducePow, Nat.reduceSub]
  refine returns_bind (init_data_memory_ok env _ _ _ _ _ _ _ (fun i _ => hlib _)
    (of_decide_eq_true rfl) (of_decide_eq_true rfl) (of_decide_eq_true rfl) (of_decide_eq_true rfl)) ?_
  dsimp only [List.nil_append, List.cons_append, List.length_cons, List.length_nil,
    List.set_cons_zero, List.set_cons_succ, u32_inc, u32_sub, UINT32_MOD, Nat.reduceAdd,
    Nat.reduceMod, Nat.reducePow, Nat.reduceSub]
  refine returns_bind (CHECK_memory_desc_init env _ _ _ _ _ (hlib _) (of_decide_eq_true rfl)
    (of_decide_eq_true rfl) (of_decide_eq_true rfl)) ?_
  dsimp only [List.nil_append, List.cons_append, List.length_cons, List.length_nil,
    List.set_cons_zero, List.set_cons_succ, u32_inc, u32_sub, UINT32_MOD, Nat.reduceAdd,
    Nat.reduceMod, Nat.reducePow, Nat.reduceSub]
  refine returns_bind (CHECK_memory_desc_init env _ _ _ _ _ (hlib _) (of_decide_eq_true rfl)
    (of_decide_eq_true rfl) (of_decide_eq_true rfl)) ?_
  dsimp only [List.nil_append, List.cons_append, List.length_cons, List.length_nil,
    List.set_cons_zero, List.set_cons_succ, u32_inc, u32_sub, UINT32_MOD, Nat.reduceAdd,
    Nat.reduceMod, Nat.reducePow, Nat.reduceSub]
  refine returns_bind (CHECK_memory_desc_init env _ _ _ _ _ (hlib _) (of_decide_eq_true rfl)
    (of_decide_eq_true rfl) (of_decide_eq_true rfl)) ?_
  dsimp only [List.nil_append, List.cons_append, List.length_cons, List.length_nil,
    List.set_cons_zero, List.set_cons_succ, u32_inc, u32_sub, UINT32_MOD, Nat.reduceAdd,
    Nat.reduceMod, Nat.reducePow, Nat.reduceSub]
  refine returns_bind (CHECK_memory_desc_init env _ _ _ _ _ (hlib _) (of_decide_eq_true rfl)
    (of_decide_eq_true rfl) (of_decide_eq_true rfl)) ?_
  dsimp only [List.nil_append, List.cons_append, List.length_cons, List.length_nil,
    List.set_cons_zero, List.set_cons_succ, u32_inc, u32_sub, UINT32_MOD, Nat.reduceAdd,
    Nat.reduceMod, Nat.reducePow, Nat.reduceSub]
  refine returns_bind (CHECK_libcall (hlib _) rfl) ?_
  dsimp only [List.nil_append, List.cons_append, List.length_cons, List.length_nil,
    List.set_cons_zero, List.set_cons_succ, u32_inc, u32_sub, UINT32_MOD, Nat.reduceAdd,
    Nat.reduceMod, Nat.reducePow, Nat.reduceSub]
  refine returns_bind (CHECK_libcall (hlib _) rfl) ?_
  dsimp only [List.nil_append, List.cons_append, List.length_cons, List.length_nil,
    List.set_cons_zero, List.set_cons_succ, u32_inc, u32_sub, UINT32_MOD, Nat.reduceAdd,
    Nat.reduceMod, Nat.reducePow, Nat.reduceSub]
  refine returns_memory_with_buffer env _ _ _ hlib ?_
  dsimp only [List.nil_append, List.cons_append, List.length_cons, List.length_nil,
    List.set_cons_zero, List.set_cons_succ, u32_inc, u32_sub, UINT32_MOD, Nat.reduceAdd,
    Nat.reduceMod, Nat.reducePow, Nat.reduceSub]
  refine returns_bind rfl ?_
  dsimp only [List.nil_append, List.cons_append, List.length_cons, List.length_nil,
    List.set_cons_zero, List.set_cons_succ, u32_inc, u32_sub, UINT32_MOD, Nat.reduceAdd,
    Nat.reduceMod, Nat.reducePow, Nat.reduceSub]
  refine returns_prepare_reorder env _ _ _ _ _ _ _ _ _ hlib halloc rfl (of_decide_eq_true rfl)
    (of_decide_eq_true rfl) (fun h1 => ?_) (fun h1 => ?_) <;>
  dsimp only <;>
  try simp only [List.nil_append, List.cons_append, List.length_cons, List.length_nil,
    List.length_set, List.length_replicate, List.set_cons_zero, List.set_cons_succ, u32_inc,
    u32_sub, UINT32_MOD, NULL, Nat.reduceAdd, Nat.reduceMod, Nat.reducePow, Nat.reduceSub,
    Nat.reduceEqDiff, ne_eq, not_false_eq_true, not_true_eq_false, if_true, if_false, one_ne_zero,
    Int.toNat_ofNat, Int.reduceToNat]
  all_goals
    refine returns_bind rfl ?_
    dsimp only [List.nil_append, List.cons_append, List.length_cons, List.length_nil,
      List.set_cons_zero, List.set_cons_succ, u32_inc, u32_sub, UINT32_MOD, Nat.reduceAdd,
      Nat.reduceMod, Nat.reducePow, Nat.reduceSub]
    refine returns_prepare_reorder env _ _ _ _ _ _ _ _ _ hlib halloc rfl (of_decide_eq_true rfl)
      (of_decide_eq_true rfl) (fun h2 => ?_) (fun h2 => ?_) <;>
    dsimp only <;>
    try simp only [List.nil_append, List.cons_append, List.length_cons, List.length_nil,
      List.length_set, List.length_replicate, List.set_cons_zero, List.set_cons_succ, u32_inc,
      u32_sub, UINT32_MOD, NULL, Nat.reduceAdd, Nat.reduceMod, Nat.reducePow, Nat.reduceSub,
      Nat.reduceEqDiff, ne_eq, not_false_eq_true, not_true_eq_false, if_true, if_false,
      one_ne_zero, Int.toNat_ofNat, Int.reduceToNat]
  all_goals
    refine returns_bind (CHECK_libcall (hlib _) rfl) ?_
    dsimp only [List.nil_append, List.cons_append, List.length_cons, List.length_nil,
      List.set_cons_zero, List.set_cons_succ, u32_inc, u32_sub, UINT32_MOD, Nat.reduceAdd,
      Nat.reduceMod, Nat.reducePow, Nat.reduceSub]
    refine returns_bind (net_store_ok _ _ (of_decide_eq_true rfl)) ?_
    dsimp only [List.nil_append, List.cons_append, List.length_cons, List.length_nil,
      List.set_cons_zero, List.set_cons_succ, u32_inc, u32_sub, UINT32_MOD, Nat.reduceAdd,
      Nat.reduceMod, Nat.reducePow, Nat.reduceSub]
    refine returns_bind rfl ?_
    dsimp only [List.nil_append, List.cons_append, List.length_cons, List.length_nil,
      List.set_cons_zero, List.set_cons_succ, u32_inc, u32_sub, UINT32_MOD, Nat.reduceAdd,
      Nat.reduceMod, Nat.reducePow, Nat.reduceSub]
    refine returns_bind (store_ok _ _ (of_decide_eq_true rfl)) ?_
    dsimp only [List.nil_append, List.cons_append, List.length_cons, List.length_nil,
      List.set_cons_zero, List.set_cons_succ, u32_inc, u32_sub, UINT32_MOD, Nat.reduceAdd,
      Nat.reduceMod, Nat.reducePow, Nat.reduceSub]
    refine returns_bind (set_arg_step _ _ _ _ _ _ _ _ _ (of_decide_eq_true rfl) (halloc _) (of_decide_eq_true rfl)) ?_
    dsimp only [List.nil_append, List.cons_append, List.length_cons, List.length_nil,
      List.set_cons_zero, List.set_cons_succ, u32_inc, u32_sub, UINT32_MOD, Nat.reduceAdd,
      Nat.reduceMod, Nat.reducePow, Nat.reduceSub]
    refine returns_bind (set_arg_step _ _ _ _ _ _ _ _ _ (of_decide_eq_true rfl) (halloc _) (of_decide_eq_true rfl)) ?_
    dsimp only [List.nil_append, List.cons_append, List.length_cons, List.length_nil,
      List.set_cons_zero, List.set_cons_succ, u32_inc, u32_sub, UINT32_MOD, Nat.reduceAdd,
      Nat.reduceMod, Nat.reducePow, Nat.reduceSub]
    refine returns_bind (set_arg_step _ _ _ _ _ _ _ _ _ (of_decide_eq_true rfl) (halloc _) (of_decide_eq_true rfl)) ?_
    dsimp only [List.nil_append, List.cons_append, List.length_cons, List.length_nil,
      List.set_cons_zero, List.set_cons_succ, u32_inc, u32_sub, UINT32_MOD, Nat.reduceAdd,
      Nat.reduceMod, Nat.reducePow, Nat.reduceSub]
    refine returns_bind (set_arg_step _ _ _ _ _ _ _ _ _ (of_decide_eq_true rfl) (halloc _) (of_decide_eq_true rfl)) ?_
    dsimp only [List.nil_append, List.cons_append, List.length_cons, List.length_nil,
      List.set_cons_zero, List.set_cons_succ, u32_inc, u32_sub, UINT32_MOD, Nat.reduceAdd,
      Nat.reduceMod, Nat.reducePow, Nat.reduceSub]
    refine returns_bind (CHECK_libcall (hlib _) rfl) ?_
    dsimp only [List.nil_append, List.cons_append, List.length_cons, List.length_nil,
      List.set_cons_zero, List.set_cons_succ, u32_inc, u32_sub, UINT32_MOD, Nat.reduceAdd,
      Nat.reduceMod, Nat.reducePow, Nat.reduceSub]
    refine returns_bind (CHECK_libcall (hlib _) rfl) ?_
    dsimp only [List.nil_append, List.cons_append, List.length_cons, List.length_nil,
      List.set_cons_zero, List.set_cons_succ, u32_inc, u32_sub, UINT32_MOD, Nat.reduceAdd,
      Nat.reduceMod, Nat.reducePow, Nat.reduceSub]
    refine returns_memory_with_buffer env _ _ _ hlib ?_
    dsimp only [List.nil_append, List.cons_append, List.length_cons, List.length_nil,
      List.set_cons_zero, List.set_cons_succ, u32_inc, u32_sub, UINT32_MOD, Nat.reduceAdd,
      Nat.reduceMod, Nat.reducePow, Nat.reduceSub]
    refine returns_bind (CHECK_libcall (hlib _) rfl) ?_
    dsimp only [List.nil_append, List.cons_append, List.length_cons, List.length_nil,
      List.set_cons_zero, List.set_cons_succ, u32_inc, u32_sub, UINT32_MOD, Nat.reduceAdd,
      Nat.reduceMod, Nat.reducePow, Nat.reduceSub]
    refine returns_bind (net_store_ok _ _ (of_decide_eq_true rfl)) ?_
    dsimp only [List.nil_append, List.cons_append, List.length_cons, List.length_nil,
      List.set_cons_zero, List.set_cons_succ, u32_inc, u32_sub, UINT32_MOD, Nat.reduceAdd,
      Nat.reduceMod, Nat.reducePow, Nat.reduceSub]
    refine returns_bind rfl ?_
    dsimp only [List.nil_append, List.cons_append, List.length_cons, List.length_nil,
      List.set_cons_zero, List.set_cons_succ, u32_inc, u32_sub, UINT32_MOD, Nat.reduceAdd,
      Nat.reduceMod, Nat.reducePow, Nat.reduceSub]
    refine returns_bind (store_ok _ _ (of_decide_eq_true rfl)) ?_
    dsimp only [List.nil_append, List.cons_append, List.length_cons, List.length_nil,
      List.set_cons_zero, List.set_cons_succ, u32_inc, u32_sub, UINT32_MOD, Nat.reduceAdd,
      Nat.reduceMod, Nat.reducePow, Nat.reduceSub]
    refine returns_bind (set_arg_step _ _ _ _ _ _ _ _ _ (of_decide_eq_true rfl) (halloc _) (of_decide_eq_true rfl)) ?_
    dsimp only [List.nil_append, List.cons_append, List.length_cons, List.length_nil,
      List.set_cons_zero, List.set_cons_succ, u32_inc, u32_sub, UINT32_MOD, Nat.reduceAdd,
      Nat.reduceMod, Nat.reducePow, Nat.reduceSub]
    refine returns_bind (set_arg_step _ _ _ _ _ _ _ _ _ (of_decide_eq_true rfl) (halloc _) (of_decide_eq_true rfl)) ?_
    dsimp only [List.nil_append, List.cons_append, List.length_cons, List.length_nil,
      List.set_cons_zero, List.set_cons_succ, u32_inc, u32_sub, UINT32_MOD, Nat.reduceAdd,
      Nat.reduceMod, Nat.reducePow, Nat.reduceSub]
    refine returns_bind (CHECK_libcall (hlib _) rfl) ?_
    dsimp only [List.nil_append, List.cons_append, List.length_cons, List.length_nil,
      List.set_cons_zero, List.set_cons_succ, u32_inc, u32_sub, UINT32_MOD, Nat.reduceAdd,
      Nat.reduceMod, Nat.reducePow, Nat.reduceSub]
    refine returns_bind (CHECK_libcall (hlib _) rfl) ?_
    dsimp only [List.nil_append, List.cons_append, List.length_cons, List.length_nil,
      List.set_cons_zero, List.set_cons_succ, u32_inc, u32_sub, UINT32_MOD, Nat.reduceAdd,
      Nat.reduceMod, Nat.reducePow, Nat.reduceSub]
    refine returns_memory_with_buffer env _ _ _ hlib ?_
    dsimp only [List.nil_append, List.cons_append, List.length_cons, List.length_nil,
      List.set_cons_zero, List.set_cons_succ, u32_inc, u32_sub, UINT32_MOD, Nat.reduceAdd,
      Nat.reduceMod, Nat.reducePow, Nat.reduceSub]
    refine returns_memory_with_buffer env _ _ _ hlib ?_
    dsimp only [List.nil_append, List.cons_append, List.length_cons, List.length_nil,
      List.set_cons_zero, List.set_cons_succ, u32_inc, u32_sub, UINT32_MOD, Nat.reduceAdd,
      Nat.reduceMod, Nat.reducePow, Nat.reduceSub]
    refine returns_bind (CHECK_libcall (hlib _) rfl) ?_
    dsimp only [List.nil_append, List.cons_append, List.length_cons, List.length_nil,
      List.set_cons_zero, List.set_cons_succ, u32_inc, u32_sub, UINT32_MOD, Nat.reduceAdd,
      Nat.reduceMod, Nat.reducePow, Nat.reduceSub]
    refine returns_bind (net_store_ok _ _ (of_decide_eq_true rfl)) ?_
    dsimp only [List.nil_append, List.cons_append, List.length_cons, List.length_nil,
      List.set_cons_zero, List.set_cons_succ, u32_inc, u32_sub, UINT32_MOD, Nat.reduceAdd,
      Nat.reduceMod, Nat.reducePow, Nat.reduceSub]
    refine returns_bind rfl ?_
    dsimp only [List.nil_append, List.cons_append, List.length_cons, List.length_nil,
      List.set_cons_zero, List.set_cons_succ, u32_inc, u32_sub, UINT32_MOD, Nat.reduceAdd,
      Nat.reduceMod, Nat.reducePow, Nat.reduceSub]
    refine returns_bind (store_ok _ _ (of_decide_eq_true rfl)) ?_
    dsimp only [List.nil_append, List.cons_append, List.length_cons, List.length_nil,
      List.set_cons_zero, List.set_cons_succ, u32_inc, u32_sub, UINT32_MOD, Nat.reduceAdd,
      Nat.reduceMod, Nat.reducePow, Nat.reduceSub]
    refine returns_bind (set_arg_step _ _ _ _ _ _ _ _ _ (of_decide_eq_true rfl) (halloc _) (of_decide_eq_true rfl)) ?_
    dsimp only [List.nil_append, List.cons_append, List.length_cons, List.length_nil,
      List.set_cons_zero, List.set_cons_succ, u32_inc, u32_sub, UINT32_MOD, Nat.reduceAdd,
      Nat.reduceMod, Nat.reducePow, Nat.reduceSub]
    refine returns_bind (set_arg_step _ _ _ _ _ _ _ _ _ (of_decide_eq_true rfl) (halloc _) (of_decide_eq_true rfl)) ?_
    dsimp only [List.nil_append, List.cons_append, List.length_cons, List.length_nil,
      List.set_cons_zero, List.set_cons_succ, u32_inc, u32_sub, UINT32_MOD, Nat.reduceAdd,
      Nat.reduceMod, Nat.reducePow, Nat.reduceSub]
    refine returns_bind (set_arg_step _ _ _ _ _ _ _ _ _ (of_decide_eq_true rfl) (halloc _) (of_decide_eq_true rfl)) ?_
    dsimp only [List.nil_append, List.cons_append, List.length_cons, List.length_nil,
      List.set_cons_zero, List.set_cons_succ, u32_inc, u32_sub, UINT32_MOD, Nat.reduceAdd,
      Nat.reduceMod, Nat.reducePow, Nat.reduceSub]
    refine returns_bind (CHECK_memory_desc_init env _ _ _ _ _ (hlib _) (of_decide_eq_true rfl)
      (of_decide_eq_true rfl) (of_decide_eq_true rfl)) ?_
    dsimp only [List.nil_append, List.cons_append, List.length_cons, List.length_nil,
      List.set_cons_zero, List.set_cons_succ, u32_inc, u32_sub, UINT32_MOD, Nat.reduceAdd,
      Nat.reduceMod, Nat.reducePow, Nat.reduceSub]
    refine returns_bind (init_data_memory_ok env _ _ _ _ _ _ _ (fun i _ => hlib _)
      (of_decide_eq_true rfl) (of_decide_eq_true rfl) (of_decide_eq_true rfl) (of_decide_eq_true rfl)) ?_
    dsimp only [List.nil_append, List.cons_append, List.length_cons, List.length_nil,
      List.set_cons_zero, List.set_cons_succ, u32_inc, u32_sub, UINT32_MOD, Nat.reduceAdd,
      Nat.reduceMod, Nat.reducePow, Nat.reduceSub]
    refine returns_bind (CHECK_libcall (hlib _) rfl) ?_
    dsimp only [List.nil_append, List.cons_append, List.length_cons, List.length_nil,
      List.set_cons_zero, List.set_cons_succ, u32_inc, u32_sub, UINT32_MOD, Nat.reduceAdd,
      Nat.reduceMod, Nat.reducePow, Nat.reduceSub]
    refine returns_bind (CHECK_libcall (hlib _) rfl) ?_
    dsimp only [List.nil_append, List.cons_append, List.length_cons, List.length_nil,
      List.set_cons_zero, List.set_cons_succ, u32_inc, u32_sub, UINT32_MOD, Nat.reduceAdd,
      Nat.reduceMod, Nat.reducePow, Nat.reduceSub]
    refine returns_memory_with_buffer env _ _ _ hlib ?_
    dsimp only [List.nil_append, List.cons_append, List.length_cons, List.length_nil,
      List.set_cons_zero, List.set_cons_succ, u32_inc, u32_sub, UINT32_MOD, Nat.reduceAdd,
      Nat.reduceMod, Nat.reducePow, Nat.reduceSub]
    refine returns_bind rfl ?_
    dsimp only [List.nil_append, List.cons_append, List.length_cons, List.length_nil,
      List.set_cons_zero, List.set_cons_succ, u32_inc, u32_sub, UINT32_MOD, Nat.reduceAdd,
      Nat.reduceMod, Nat.reducePow, Nat.reduceSub]
    refine returns_prepare_reorder env _ _ _ _ _ _ _ _ _ hlib halloc rfl (of_decide_eq_true rfl)
      (of_decide_eq_true rfl) (fun h3 => ?_) (fun h3 => ?_) <;>
    dsimp only <;>
    try simp only [List.nil_append, List.cons_append, List.length_cons, List.length_nil,
      List.length_set, List.length_replicate, List.set_cons_zero, List.set_cons_succ, u32_inc,
      u32_sub, UINT32_MOD, NULL, Nat.reduceAdd, Nat.reduceMod, Nat.reducePow, Nat.reduceSub,
      Nat.reduceEqDiff, ne_eq, not_false_eq_true, not_true_eq_false, if_true, if_false,
      one_ne_zero, Int.toNat_ofNat, Int.reduceToNat]
  all_goals
    refine returns_bind rfl ?_
    dsimp only [List.nil_append, List.cons_append, List.length_cons, List.length_nil,
      List.set_cons_zero, List.set_cons_succ, u32_inc, u32_sub, UINT32_MOD, Nat.reduceAdd,
      Nat.reduceMod, Nat.reducePow, Nat.reduceSub]
    refine returns_bind (CHECK_libcall (hlib _) rfl) ?_
    dsimp only [List.nil_append, List.cons_append, List.length_cons, List.length_nil,
      List.set_cons_zero, List.set_cons_succ, u32_inc, u32_sub, UINT32_MOD, Nat.reduceAdd,
      Nat.reduceMod, Nat.reducePow, Nat.reduceSub]
    refine returns_bind (net_store_ok _ _ (of_decide_eq_true rfl)) ?_
    dsimp only [List.nil_append, List.cons_append, List.length_cons, List.length_nil,
      List.set_cons_zero, List.set_cons_succ, u32_inc, u32_sub, UINT32_MOD, Nat.reduceAdd,
      Nat.reduceMod, Nat.reducePow, Nat.reduceSub]
    refine returns_bind rfl ?_
    dsimp only [List.nil_append, List.cons_append, List.length_cons, List.length_nil,
      List.set_cons_zero, List.set_cons_succ, u32_inc, u32_sub, UINT32_MOD, Nat.reduceAdd,
      Nat.reduceMod, Nat.reducePow, Nat.reduceSub]
    refine returns_bind (store_ok _ _ (of_decide_eq_true rfl)) ?_
    dsimp only [List.nil_append, List.cons_append, List.length_cons, List.length_nil,
      List.set_cons_zero, List.set_cons_succ, u32_inc, u32_sub, UINT32_MOD, Nat.reduceAdd,
      Nat.reduceMod, Nat.reducePow, Nat.reduceSub]
    refine returns_bind (set_arg_step _ _ _ _ _ _ _ _ _ (of_decide_eq_true rfl) (halloc _) (of_decide_eq_true rfl)) ?_
    dsimp only [List.nil_append, List.cons_append, List.length_cons, List.length_nil,
      List.set_cons_zero, List.set_cons_succ, u32_inc, u32_sub, UINT32_MOD, Nat.reduceAdd,
      Nat.reduceMod, Nat.reducePow, Nat.reduceSub]
    refine returns_bind (set_arg_step _ _ _ _ _ _ _ _ _ (of_decide_eq_true rfl) (halloc _) (of_decide_eq_true rfl)) ?_
    dsimp only [List.nil_append, List.cons_append, List.length_cons, List.length_nil,
      List.set_cons_zero, List.set_cons_succ, u32_inc, u32_sub, UINT32_MOD, Nat.reduceAdd,
      Nat.reduceMod, Nat.reducePow, Nat.reduceSub]
    refine returns_bind (set_arg_step _ _ _ _ _ _ _ _ _ (of_decide_eq_true rfl) (halloc _) (of_decide_eq_true rfl)) ?_
    dsimp only [List.nil_append, List.cons_append, List.length_cons, List.length_nil,
      List.set_cons_zero, List.set_cons_succ, u32_inc, u32_sub, UINT32_MOD, Nat.reduceAdd,
      Nat.reduceMod, Nat.reducePow, Nat.reduceSub]
  · refine returns_pure ⟨false, false, false, ?_⟩
    exact
      { src := h1
        weights := h2
        dst := h3
        ready := by
          intro i hi
          have hi : i < 4 := hi
          interval_cases i <;> exact ⟨_, _, _, rfl, rfl, halloc _, rfl, rfl⟩
        engine_ok := Nat.succ_ne_zero 0
        exec_order := fun _ => rfl
        exec_all := fun _ => rfl
        src_at := fun h => Bool.noConfusion h
        weights_at := fun h => Bool.noConfusion h
        dst_at := fun h => Bool.noConfusion h
        src_reorder_cells := fun h => Bool.noConfusion h
        weights_reorder_cells := fun h => Bool.noConfusion h
        dst_reorder_cells := fun h => Bool.noConfusion h
        n_eq := rfl
        net_len := rfl
        args_len := rfl
        net_eq := rfl
        net_rest := rfl
        conv_prim := rfl
        relu_prim := rfl
        lrn_prim := rfl
        pool_prim := rfl
        src_reorder := rfl
        weights_reorder := rfl
        dst_reorder := rfl
        src_null := rfl
        weights_null := rfl
        dst_null := rfl
        src_sel := rfl
        weights_sel := rfl
        dst_sel := rfl
        src_internal := rfl
        weights_internal := rfl
        dst_internal := rfl
        src_user := rfl
        weights_user := rfl
        dst_user := rfl
        conv_cells := rfl
        relu_cells := rfl
        lrn_cells := rfl
        pool_cells := rfl
        written := rfl
        written_at := rfl
        not_executed := rfl
        subs := rfl
        quiet := rfl
        heap_src := rfl
        heap_dst := rfl
        conv_dims := rfl
        conv_arrays := rfl
        pool_dst_dims := rfl
        pool_arrays := rfl
        conv_kind := rfl
        pool_kind := rfl
        conv_resolved := rfl
        pool_resolved := rfl
        executed_none := rfl
        ptrs_len := rfl
        dst_ne := rfl
        conv_at := rfl
        relu_at := rfl
        lrn_at := rfl
        pool_at := rfl
        args_rest := rfl }
  · refine returns_pure ⟨false, false, true, ?_⟩
    exact
      { src := h1
        weights := h2
        dst := h3
        ready := by
          intro i hi
          have hi : i < 5 := hi
          interval_cases i <;> exact ⟨_, _, _, rfl, rfl, halloc _, rfl, rfl⟩
        engine_ok := Nat.succ_ne_zero 0
        exec_order := fun _ => rfl
        exec_all := fun _ => rfl
        src_at := fun h => Bool.noConfusion h
        weights_at := fun h => Bool.noConfusion h
        dst_at := fun _ => rfl
        src_reorder_cells := fun h => Bool.noConfusion h
        weights_reorder_cells := fun h => Bool.noConfusion h
        dst_reorder_cells := fun _ => rfl
        n_eq := rfl
        net_len := rfl
        args_len := rfl
        net_eq := rfl
        net_rest := rfl
        conv_prim := rfl
        relu_prim := rfl
        lrn_prim := rfl
        pool_prim := rfl
        src_reorder := rfl
        weights_reorder := rfl
        dst_reorder := rfl
        src_null := rfl
        weights_null := rfl
        dst_null := rfl
        src_sel := rfl
        weights_sel := rfl
        dst_sel := rfl
        src_internal := rfl
        weights_internal := rfl
        dst_internal := rfl
        src_user := rfl
        weights_user := rfl
        dst_user := rfl
        conv_cells := rfl
        relu_cells := rfl
        lrn_cells := rfl
        pool_cells := rfl
        written := rfl
        written_at := rfl
        not_executed := rfl
        subs := rfl
        quiet := rfl
        heap_src := rfl
        heap_dst := rfl
        conv_dims := rfl
        conv_arrays := rfl
        pool_dst_dims := rfl
        pool_arrays := rfl
        conv_kind := rfl
        pool_kind := rfl
        conv_resolved := rfl
        pool_resolved := rfl
        executed_none := rfl
        ptrs_len := rfl
        dst_ne := rfl
        conv_at := rfl
        relu_at := rfl
        lrn_at := rfl
        pool_at := rfl
        args_rest := rfl }
  · refine returns_pure ⟨false, true, false, ?_⟩
    exact
      { src := h1
        weights := h2
        dst := h3
        ready := by
          intro i hi
          have hi : i < 5 := hi
          interval_cases i <;> exact ⟨_, _, _, rfl, rfl, halloc _, rfl, rfl⟩
        engine_ok := Nat.succ_ne_zero 0
        exec_order := fun _ => rfl
        exec_all := fun _ => rfl
        src_at := fun h => Bool.noConfusion h
        weights_at := fun _ => rfl
        dst_at := fun h => Bool.noConfusion h
        src_reorder_cells := fun h => Bool.noConfusion h
        weights_reorder_cells := fun _ => rfl
        dst_reorder_cells := fun h => Bool.noConfusion h
        n_eq := rfl
        net_len := rfl
        args_len := rfl
        net_eq := rfl
        net_rest := rfl
        conv_prim := rfl
        relu_prim := rfl
        lrn_prim := rfl
        pool_prim := rfl
        src_reorder := rfl
        weights_reorder := rfl
        dst_reorder := rfl
        src_null := rfl
        weights_null := rfl
        dst_null := rfl
        src_sel := rfl
        weights_sel := rfl
        dst_sel := rfl
        src_internal := rfl
        weights_internal := rfl
        dst_internal := rfl
        src_user := rfl
        weights_user := rfl
        dst_user := rfl
        conv_cells := rfl
        relu_cells := rfl
        lrn_cells := rfl
        pool_cells := rfl
        written := rfl
        written_at := rfl
        not_executed := rfl
        subs := rfl
        quiet := rfl
        heap_src := rfl
        heap_dst := rfl
        conv_dims := rfl
        conv_arrays := rfl
        pool_dst_dims := rfl
        pool_arrays := rfl
        conv_kind := rfl
        pool_kind := rfl
        conv_resolved := rfl
        pool_resolved := rfl
        executed_none := rfl
        ptrs_len := rfl
        dst_ne := rfl
        conv_at := rfl
        relu_at := rfl
        lrn_at := rfl
        pool_at := rfl
        args_rest := rfl }
  · refine returns_pure ⟨false, true, true, ?_⟩
    exact
      { src := h1
        weights := h2
        dst := h3
        ready := by
          intro i hi
          have hi : i < 6 := hi
          interval_cases i <;> exact ⟨_, _, _, rfl, rfl, halloc _, rfl, rfl⟩
        engine_ok := Nat.succ_ne_zero 0
        exec_order := fun _ => rfl
        exec_all := fun _ => rfl
        src_at := fun h => Bool.noConfusion h
        weights_at := fun _ => rfl
        dst_at := fun _ => rfl
        src_reorder_cells := fun h => Bool.noConfusion h
        weights_reorder_cells := fun _ => rfl
        dst_reorder_cells := fun _ => rfl
        n_eq := rfl
        net_len := rfl
        args_len := rfl
        net_eq := rfl
        net_rest := rfl
        conv_prim := rfl
        relu_prim := rfl
        lrn_prim := rfl
        pool_prim := rfl
        src_reorder := rfl
        weights_reorder := rfl
        dst_reorder := rfl
        src_null := rfl
        weights_null := rfl
        dst_null := rfl
        src_sel := rfl
        weights_sel := rfl
        dst_sel := rfl
        src_internal := rfl
        weights_internal := rfl
        dst_internal := rfl
        src_user := rfl
        weights_user := rfl
        dst_user := rfl
        conv_cells := rfl
        relu_cells := rfl
        lrn_cells := rfl
        pool_cells := rfl
        written := rfl
        written_at := rfl
        not_executed := rfl
        subs := rfl
        quiet := rfl
        heap_src := rfl
        heap_dst := rfl
        conv_dims := rfl
        conv_arrays := rfl
        pool_dst_dims := rfl
        pool_arrays := rfl
        conv_kind := rfl
        pool_kind := rfl
        conv_resolved := rfl
        pool_resolved := rfl
        executed_none := rfl
        ptrs_len := rfl
        dst_ne := rfl
        conv_at := rfl
        relu_at := rfl
        lrn_at := rfl
        pool_at := rfl
        args_rest := rfl }
  · refine returns_pure ⟨true, false, false, ?_⟩
    exact
      { src := h1
        weights := h2
        dst := h3
        ready := by
          intro i hi
          have hi : i < 5 := hi
          interval_cases i <;> exact ⟨_, _, _, rfl, rfl, halloc _, rfl, rfl⟩
        engine_ok := Nat.succ_ne_zero 0
        exec_order := fun _ => rfl
        exec_all := fun _ => rfl
        src_at := fun _ => rfl
        weights_at := fun h => Bool.noConfusion h
        dst_at := fun h => Bool.noConfusion h
        src_reorder_cells := fun _ => rfl
        weights_reorder_cells := fun h => Bool.noConfusion h
        dst_reorder_cells := fun h => Bool.noConfusion h
        n_eq := rfl
        net_len := rfl
        args_len := rfl
        net_eq := rfl
        net_rest := rfl
        conv_prim := rfl
        relu_prim := rfl
        lrn_prim := rfl
        pool_prim := rfl
        src_reorder := rfl
        weights_reorder := rfl
        dst_reorder := rfl
        src_null := rfl
        weights_null := rfl
        dst_null := rfl
        src_sel := rfl
        weights_sel := rfl
        dst_sel := rfl
        src_internal := rfl
        weights_internal := rfl
        dst_internal := rfl
        src_user := rfl
        weights_user := rfl
        dst_user := rfl
        conv_cells := rfl
        relu_cells := rfl
        lrn_cells := rfl
        pool_cells := rfl
        written := rfl
        written_at := rfl
        not_executed := rfl
        subs := rfl
        quiet := rfl
        heap_src := rfl
        heap_dst := rfl
        conv_dims := rfl
        conv_arrays := rfl
        pool_dst_dims := rfl
        pool_arrays := rfl
        conv_kind := rfl
        pool_kind := rfl
        conv_resolved := rfl
        pool_resolved := rfl
        executed_none := rfl
        ptrs_len := rfl
        dst_ne := rfl
        conv_at := rfl
        relu_at := rfl
        lrn_at := rfl
        pool_at := rfl
        args_rest := rfl }
  · refine returns_pure ⟨true, false, true, ?_⟩
    exact
      { src := h1
        weights := h2
        dst := h3
        ready := by
          intro i hi
          have hi : i < 6 := hi
          interval_cases i <;> exact ⟨_, _, _, rfl, rfl, halloc _, rfl, rfl⟩
        engine_ok := Nat.succ_ne_zero 0
        exec_order := fun _ => rfl
        exec_all := fun _ => rfl
        src_at := fun _ => rfl
        weights_at := fun h => Bool.noConfusion h
        dst_at := fun _ => rfl
        src_reorder_cells := fun _ => rfl
        weights_reorder_cells := fun h => Bool.noConfusion h
        dst_reorder_cells := fun _ => rfl
        n_eq := rfl
        net_len := rfl
        args_len := rfl
        net_eq := rfl
        net_rest := rfl
        conv_prim := rfl
        relu_prim := rfl
        lrn_prim := rfl
        pool_prim := rfl
        src_reorder := rfl
        weights_reorder := rfl
        dst_reorder := rfl
        src_null := rfl
        weights_null := rfl
        dst_null := rfl
        src_sel := rfl
        weights_sel := rfl
        dst_sel := rfl
        src_internal := rfl
        weights_internal := rfl
        dst_internal := rfl
        src_user := rfl
        weights_user := rfl
        dst_user := rfl
        conv_cells := rfl
        relu_cells := rfl
        lrn_cells := rfl
        pool_cells := rfl
        written := rfl
        written_at := rfl
        not_executed := rfl
        subs := rfl
        quiet := rfl
        heap_src := rfl
        heap_dst := rfl
        conv_dims := rfl
        conv_arrays := rfl
        pool_dst_dims := rfl
        pool_arrays := rfl
        conv_kind := rfl
        pool_kind := rfl
        conv_resolved := rfl
        pool_resolved := rfl
        executed_none := rfl
        ptrs_len := rfl
        dst_ne := rfl
        conv_at := rfl
        relu_at := rfl
        lrn_at := rfl
        pool_at := rfl
        args_rest := rfl }
  · refine returns_pure ⟨true, true, false, ?_⟩
    exact
      { src := h1
        weights := h2
        dst := h3
        ready := by
          intro i hi
          have hi : i < 6 := hi
          interval_cases i <;> exact ⟨_, _, _, rfl, rfl, halloc _, rfl, rfl⟩
        engine_ok := Nat.succ_ne_zero 0
        exec_order := fun _ => rfl
        exec_all := fun _ => rfl
        src_at := fun _ => rfl
        weights_at := fun _ => rfl
        dst_at := fun h => Bool.noConfusion h
        src_reorder_cells := fun _ => rfl
        weights_reorder_cells := fun _ => rfl
        dst_reorder_cells := fun h => Bool.noConfusion h
        n_eq := rfl
        net_len := rfl
        args_len := rfl
        net_eq := rfl
        net_rest := rfl
        conv_prim := rfl
        relu_prim := rfl
        lrn_prim := rfl
        pool_prim := rfl
        src_reorder := rfl
        weights_reorder := rfl
        dst_reorder := rfl
        src_null := rfl
        weights_null := rfl
        dst_null := rfl
        src_sel := rfl
        weights_sel := rfl
        dst_sel := rfl
        src_internal := rfl
        weights_internal := rfl
        dst_internal := rfl
        src_user := rfl
        weights_user := rfl
        dst_user := rfl
        conv_cells := rfl
        relu_cells := rfl
        lrn_cells := rfl
        pool_cells := rfl
        written := rfl
        written_at := rfl
        not_executed := rfl
        subs := rfl
        quiet := rfl
        heap_src := rfl
        heap_dst := rfl
        conv_dims := rfl
        conv_arrays := rfl
        pool_dst_dims := rfl
        pool_arrays := rfl
        conv_kind := rfl
        pool_kind := rfl
        conv_resolved := rfl
        pool_resolved := rfl
        executed_none := rfl
        ptrs_len := rfl
        dst_ne := rfl
        conv_at := rfl
        relu_at := rfl
        lrn_at := rfl
        pool_at := rfl
        args_rest := rfl }
  · refine returns_pure ⟨true, true, true, ?_⟩
    exact
      { src := h1
        weights := h2
        dst := h3
        ready := by
          intro i hi
          have hi : i < 7 := hi
          interval_cases i <;> exact ⟨_, _, _, rfl, rfl, halloc _, rfl, rfl⟩
        engine_ok := Nat.succ_ne_zero 0
        exec_order := fun _ => rfl
        exec_all := fun _ => rfl
        src_at := fun _ => rfl
        weights_at := fun _ => rfl
        dst_at := fun _ => rfl
        src_reorder_cells := fun _ => rfl
        weights_reorder_cells := fun _ => rfl
        dst_reorder_cells := fun _ => rfl
        n_eq := rfl
        net_len := rfl
        args_len := rfl
        net_eq := rfl
        net_rest := rfl
        conv_prim := rfl
        relu_prim := rfl
        lrn_prim := rfl
        pool_prim := rfl
        src_reorder := rfl
        weights_reorder := rfl
        dst_reorder := rfl
        src_null := rfl
        weights_null := rfl
        dst_null := rfl
        src_sel := rfl
        weights_sel := rfl
        dst_sel := rfl
        src_internal := rfl
        weights_internal := rfl
        dst_internal := rfl
        src_user := rfl
        weights_user := rfl
        dst_user := rfl
        conv_cells := rfl
        relu_cells := rfl
        lrn_cells := rfl
        pool_cells := rfl
        written := rfl
        written_at := rfl
        not_executed := rfl
        subs := rfl
        quiet := rfl
        heap_src := rfl
        heap_dst := rfl
        conv_dims := rfl
        conv_arrays := rfl
        pool_dst_dims := rfl
        pool_arrays := rfl
        conv_kind := rfl
        pool_kind := rfl
        conv_resolved := rfl
        pool_resolved := rfl
        executed_none := rfl
        ptrs_len := rfl
        dst_ne := rfl
        conv_at := rfl
        relu_at := rfl
        lrn_at := rfl
        pool_at := rfl
        args_rest := rfl }

/-! ## Consequences for outcomes -/

theorem returns_mono {α : Type} {P Q : α → World → Prop} {o : Outcome α}
    (h : o.returns P) (hPQ : ∀ a w, P a w → Q a w) : o.returns Q := by
  cases o with
  | ret a w => exact returns_ret.mpr (hPQ a w (returns_ret.mp h))
  | exited c w =>
    unfold Outcome.returns at h
    exact h.elim
  | ub =>
    unfold Outcome.returns at h
    exact h.elim

theorem returns_iff {α : Type} {P : α → World → Prop} {o : Outcome α} :
    o.returns P ↔ ∃ a w, o = .ret a w ∧ P a w := by
  cases o with
  | ret a w =>
    constructor
    · intro h
      exact ⟨a, w, rfl, returns_ret.mp h⟩
    · rintro ⟨a1, w1, h1, h2⟩
      cases h1
      exact returns_ret.mpr h2
  | exited c w =>
    constructor
    · intro h
      unfold Outcome.returns at h
      exact h.elim
    · rintro ⟨a1, w1, h1, _⟩
      cases h1
  | ub =>
    constructor
    · intro h
      unfold Outcome.returns at h
      exact h.elim
    · rintro ⟨a1, w1, h1, _⟩
      cases h1

theorem ignored_libcall {α : Type} {env : Env} {eff : World → Option (α × World)}
    {w w2 : World} {a : α} (hs : env.status w.calls = mkldnn_success)
    (he : eff { w with calls := w.calls + 1 } = some (a, w2)) :
    ignored (libcall env eff) w = .ret () w2 := by
  unfold ignored
  exact bind_ret (libcall_ok hs he)

/-! ## The execution loop, lines 446-451 -/

theorem indices_succ (i k : Nat) : indices i (k + 1) = i :: indices (i + 1) k := rfl

theorem for_each_cons (body : Nat → M Unit) (i : Nat) (rest : List Nat) :
    for_each body (i :: rest) = (body i >>= fun _ => for_each body rest) := rfl

/-- The stream loop executes the slots `i, ..., i + k - 1` in this order, each with its own
argument node, when these slots are ready. -/
theorem for_each_execute (env : Env) (hlib : ∀ i, env.status i = mkldnn_success) (L : Locals)
    (stream : mkldnn_stream_t) (hs : stream ≠ NULL) :
    ∀ (k i : Nat) (w : World),
      (∀ j, i ≤ j → j < i + k → ∃ p node args, L.net.get? j = some (some p) ∧
        L.net_args.get? j = some (some node) ∧ node.args ≠ NULL ∧
        all_written node.cells = some args ∧ (w.prim p).isSome = true) →
      for_each (fun i => do
          let p ← load L.net i
          let node ← load L.net_args i
          CHECK (mkldnn_primitive_execute env p stream node)) (indices i k) w
        = .ret () (World.mk (w.calls + k) w.heap w.engines w.streams w.mems w.prims
            (w.trace ++ (indices i k).filterMap (L.execute_event stream)) w.out) := by
  intro k
  induction k with
  | zero =>
    intro i w _
    show Outcome.ret () w = _
    simp [indices]
  | succ k ih =>
    intro i w h
    obtain ⟨p, node, args, hp, hn, hargs, hw, hprim⟩ := h i (Nat.le_refl _) (by omega)
    rw [indices_succ, for_each_cons]
    have hbody : (do
          let p ← load L.net i
          let node ← load L.net_args i
          CHECK (mkldnn_primitive_execute env p stream node) : M Unit) w
        = .ret () (World.mk (w.calls + 1) w.heap w.engines w.streams w.mems w.prims
            (w.trace ++ [Event.execute p stream node.nargs args]) w.out) := by
      refine (bind_ret (load_ok w hp)).trans ?_
      refine (bind_ret (load_ok w hn)).trans ?_
      unfold mkldnn_primitive_execute
      rw [if_neg hargs, hw]
      refine CHECK_libcall (hlib _) ?_
      have hs2 : decide (stream = NULL) = false := decide_eq_false hs
      have hprim2 : (World.prim
        { calls := w.calls + 1, heap := w.heap, engines := w.engines, streams := w.streams,
          mems := w.mems, prims := w.prims, trace := w.trace, out := w.out } p).isSome
          = true := hprim
      simp only [hprim2, hs2, Bool.not_false, Bool.and_self, if_true]
    refine (bind_ret hbody).trans ?_
    have hnext := ih (i + 1)
      (World.mk (w.calls + 1) w.heap w.engines w.streams w.mems w.prims
        (w.trace ++ [Event.execute p stream node.nargs args]) w.out)
      (fun j hj1 hj2 => h j (by omega) (by omega))
    rw [hnext]
    have hev : L.execute_event stream i = some (Event.execute p stream node.nargs args) := by
      unfold Locals.execute_event
      rw [hp, hn]
      simp [hw]
    have hcalls : w.calls + 1 + k = w.calls + (k + 1) := by omega
    rw [hcalls]
    simp only [List.filterMap_cons, hev, List.append_assoc, List.singleton_append]

/-- Lines 446-451: the stream is created and the slots `0 .. n-1` are executed in index
order. -/
theorem simple_net_execute_ok (env : Env) (hlib : ∀ i, env.status i = mkldnn_success)
    (L : Locals) (w : World) (he : L.engine ≠ NULL)
    (h : ∀ j, j < L.n → ∃ p node args, L.net.get? j = some (some p) ∧
        L.net_args.get? j = some (some node) ∧ node.args ≠ NULL ∧
        all_written node.cells = some args ∧ (w.prim p).isSome = true) :
    simple_net_execute env L w
      = .ret (w.streams + 1) (World.mk (w.calls + 1 + L.n) w.heap w.engines (w.streams + 1)
          w.mems w.prims
          (w.trace ++ (indices 0 L.n).filterMap (L.execute_event (w.streams + 1))) w.out) := by
  unfold simple_net_execute
  have hc : CHECK (mkldnn_stream_create env L.engine) w
      = .ret (w.streams + 1) (World.mk (w.calls + 1) w.heap w.engines (w.streams + 1)
          w.mems w.prims w.trace w.out) := by
    unfold mkldnn_stream_create
    refine CHECK_libcall (hlib _) ?_
    simp only [if_neg he]
  refine (bind_ret hc).trans ?_
  have hloop := for_each_execute env hlib L (w.streams + 1) (Nat.succ_ne_zero _) L.n 0
    (World.mk (w.calls + 1) w.heap w.engines (w.streams + 1) w.mems w.prims w.trace w.out)
    (fun j _ hj => h j (by omega))
  refine (bind_ret hloop).trans ?_
  rfl

/-! ## The clean-up, lines 453-505 -/

/-- The first clean-up loop frees the argument nodes of the slots `i, ..., i + k - 1` in
this order. -/
theorem for_each_free (L : Locals) :
    ∀ (k i : Nat) (w : World),
      (∀ j, i ≤ j → j < i + k → ∃ node, L.net_args.get? j = some (some node)) →
      for_each (fun i => do
          let node ← load L.net_args i
          free_arg_node node) (indices i k) w
        = .ret () (World.mk w.calls w.heap w.engines w.streams w.mems w.prims
            (w.trace ++ ((indices i k).filterMap L.node_ptr).map Event.free) w.out) := by
  intro k
  induction k with
  | zero =>
    intro i w _
    show Outcome.ret () w = _
    simp [indices]
  | succ k ih =>
    intro i w h
    obtain ⟨node, hn⟩ := h i (Nat.le_refl _) (by omega)
    rw [indices_succ, for_each_cons]
    have hbody : (do
          let node ← load L.net_args i
          free_arg_node node : M Unit) w
        = .ret () (World.mk w.calls w.heap w.engines w.streams w.mems w.prims
            (w.trace ++ [Event.free node.args]) w.out) :=
      (bind_ret (load_ok w hn)).trans rfl
    refine (bind_ret hbody).trans ?_
    have hnext := ih (i + 1)
      (World.mk w.calls w.heap w.engines w.streams w.mems w.prims
        (w.trace ++ [Event.free node.args]) w.out)
      (fun j hj1 hj2 => h j (by omega) (by omega))
    rw [hnext]
    have hev : L.node_ptr i = some node.args := by
      unfold Locals.node_ptr
      rw [hn]
    simp only [List.filterMap_cons, hev, List.map_cons, List.append_assoc,
      List.singleton_append]

/-- Lines 453-505: what the clean-up does, in order, when the library calls succeed and
the argument nodes of the slots `0 .. n-1` have been prepared. -/
theorem simple_net_cleanup_ok (env : Env) (hlib : ∀ i, env.status i = mkldnn_success)
    (L : Locals) (stream : mkldnn_stream_t) (w : World)
    (h : ∀ j, j < L.n → ∃ node, L.net_args.get? j = some (some node)) :
    simple_net_cleanup env L stream w
      = .ret () (World.mk (w.calls + 25) w.heap w.engines w.streams w.mems w.prims
          (w.trace ++ (L.node_ptrs.map Event.free ++
            [Event.primitive_desc_destroy (.op L.conv_pd),
             Event.primitive_desc_destroy (.op L.relu_pd),
             Event.primitive_desc_destroy (.op L.lrn_pd),
             Event.primitive_desc_destroy (.op L.pool_pd),
             Event.stream_destroy stream,
             Event.free L.net_src,
             Event.free L.net_dst,
             Event.memory_destroy L.conv_user_src_memory,
             Event.memory_destroy L.conv_user_weights_memory,
             Event.memory_destroy L.conv_user_bias_memory,
             Event.memory_destroy L.conv_internal_src_memory,
             Event.memory_destroy L.conv_internal_weights_memory,
             Event.memory_destroy L.conv_internal_dst_memory,
             Event.primitive_destroy L.conv_reorder_src,
             Event.primitive_destroy L.conv_reorder_weights,
             Event.primitive_destroy L.conv,
             Event.free L.conv_weights,
             Event.free L.conv_bias,
             Event.free L.conv_src_buffer,
             Event.free L.conv_weights_buffer,
             Event.free L.conv_dst_buffer,
             Event.memory_destroy L.relu_dst_memory,
             Event.primitive_destroy L.relu,
             Event.free L.relu_dst_buffer,
             Event.memory_destroy L.lrn_scratch_memory,
             Event.memory_destroy L.lrn_dst_memory,
             Event.primitive_destroy L.lrn,
             Event.free L.lrn_scratch_buffer,
             Event.free L.lrn_dst_buffer,
             Event.memory_destroy L.pool_user_dst_memory,
             Event.memory_destroy L.pool_internal_dst_memory,
             Event.memory_destroy L.pool_indices_memory,
             Event.primitive_destroy L.pool_reorder_dst,
             Event.primitive_destroy L.pool,
             Event.free L.pool_dst_buffer,
             Event.free L.pool_indices_buffer,
             Event.engine_destroy L.engine])) w.out) := by
  unfold simple_net_cleanup
  refine (bind_ret (for_each_free L L.n 0 w (fun j _ hj => h j (by omega)))).trans ?_
  dsimp only
  refine (bind_ret (CHECK_libcall (hlib _) rfl)).trans ?_
  dsimp only
  refine (bind_ret (CHECK_libcall (hlib _) rfl)).trans ?_
  dsimp only
  refine (bind_ret (CHECK_libcall (hlib _) rfl)).trans ?_
  dsimp only
  refine (bind_ret (CHECK_libcall (hlib _) rfl)).trans ?_
  dsimp only
  refine (bind_ret (ignored_libcall (hlib _) rfl)).trans ?_
  dsimp only
  refine (bind_ret rfl).trans ?_
  dsimp only
  refine (bind_ret rfl).trans ?_
  dsimp only
  refine (bind_ret (ignored_libcall (hlib _) rfl)).trans ?_
  dsimp only
  refine (bind_ret (ignored_libcall (hlib _) rfl)).trans ?_
  dsimp only
  refine (bind_ret (ignored_libcall (hlib _) rfl)).trans ?_
  dsimp only
  refine (bind_ret (ignored_libcall (hlib _) rfl)).trans ?_
  dsimp only
  refine (bind_ret (ignored_libcall (hlib _) rfl)).trans ?_
  dsimp only
  refine (bind_ret (ignored_libcall (hlib _) rfl)).trans ?_
  dsimp only
  refine (bind_ret (ignored_libcall (hlib _) rfl)).trans ?_
  dsimp only
  refine (bind_ret (ignored_libcall (hlib _) rfl)).trans ?_
  dsimp only
  refine (bind_ret (ignored_libcall (hlib _) rfl)).trans ?_
  dsimp only
  refine (bind_ret rfl).trans ?_
  dsimp only
  refine (bind_ret rfl).trans ?_
  dsimp only
  refine (bind_ret rfl).trans ?_
  dsimp only
  refine (bind_ret rfl).trans ?_
  dsimp only
  refine (bind_ret rfl).trans ?_
  dsimp only
  refine (bind_ret (ignored_libcall (hlib _) rfl)).trans ?_
  dsimp only
  refine (bind_ret (ignored_libcall (hlib _) rfl)).trans ?_
  dsimp only
  refine (bind_ret rfl).trans ?_
  dsimp only
  refine (bind_ret (ignored_libcall (hlib _) rfl)).trans ?_
  dsimp only
  refine (bind_ret (ignored_libcall (hlib _) rfl)).trans ?_
  dsimp only
  refine (bind_ret (ignored_libcall (hlib _) rfl)).trans ?_
  dsimp only
  refine (bind_ret rfl).trans ?_
  dsimp only
  refine (bind_ret rfl).trans ?_
  dsimp only
  refine (bind_ret (ignored_libcall (hlib _) rfl)).trans ?_
  dsimp only
  refine (bind_ret (ignored_libcall (hlib _) rfl)).trans ?_
  dsimp only
  refine (bind_ret (ignored_libcall (hlib _) rfl)).trans ?_
  dsimp only
  refine (bind_ret (ignored_libcall (hlib _) rfl)).trans ?_
  dsimp only
  refine (bind_ret (ignored_libcall (hlib _) rfl)).trans ?_
  dsimp only
  refine (bind_ret rfl).trans ?_
  dsimp only
  refine (bind_ret rfl).trans ?_
  dsimp only
  refine (ignored_libcall (hlib _) rfl).trans ?_
  simp only [Nat.add_assoc, Nat.reduceAdd, List.append_assoc, List.cons_append,
    List.nil_append, Locals.node_ptrs]

/-! ## The environments used as concrete inputs -/

theorem env_of_alloc (a b c : Bool) (i : Nat) : (env_of a b c).alloc i ≠ NULL := by
  show 4096 * (i + 1) ≠ 0
  omega

theorem mem_of_mem_pd {w : World} {m : mkldnn_memory_t} {u : MemPd}
    (h : w.mem_pd m = some u) : ∃ o, w.mem m = some o ∧ o.pd = u := by
  unfold World.mem_pd at h
  cases hm : w.mem m with
  | none => rw [hm] at h; cases h
  | some o =>
    rw [hm] at h
    exact ⟨o, rfl, Option.some.inj h⟩

theorem mismatch_of_mem_pd {w : World} {U : mkldnn_memory_t} {u : MemPd} (R : MemPd)
    (h : w.mem_pd U = some u) :
    mismatch w U R = !mkldnn_memory_primitive_desc_equal u R := by
  obtain ⟨o, ho, hpd⟩ := mem_of_mem_pd h
  rw [mismatch_of_mem R ho, hpd]

/-- In the environment `env_of a b c` the three layout comparisons answer `a`, `b`, `c`. -/
theorem facts_env_of {a b c a1 b1 c1 : Bool} {L : Locals} {w : World}
    (F : BuildFacts (env_of a b c) a1 b1 c1 L w) : a1 = a ∧ b1 = b ∧ c1 = c := by
  have hconv : L.conv_pd.resolved = layouts_of a b c L.conv_pd.desc L.engine := F.conv_resolved
  have hpool : L.pool_pd.resolved = layouts_of a b c L.pool_pd.desc L.engine := F.pool_resolved
  refine ⟨?_, ?_, ?_⟩
  · rw [← F.src]
    unfold Locals.src_mismatch
    rw [mismatch_of_mem_pd _ F.src_user]
    unfold mkldnn_primitive_desc_query_pd
    simp only [hconv, layouts_of, F.conv_kind]
    cases a <;> rfl
  · rw [← F.weights]
    unfold Locals.weights_mismatch
    rw [mismatch_of_mem_pd _ F.weights_user]
    unfold mkldnn_primitive_desc_query_pd
    simp only [hconv, layouts_of, F.conv_kind]
    cases b <;> rfl
  · rw [← F.dst]
    unfold Locals.dst_mismatch
    rw [mismatch_of_mem_pd _ F.dst_user]
    unfold mkldnn_primitive_desc_query_pd
    simp only [hpool, layouts_of, F.pool_kind]
    cases c <;> rfl

/-! ## The assembled net -/

/-- Each of the eight combinations of outcomes of the three layout comparisons occurs: in
the environment `env_of a b c` the comparisons answer `a`, `b` and `c`. -/
theorem simple_net_build_env_of (a b c : Bool) :
    (simple_net_build (env_of a b c) World.init).returns (fun L w =>
      L.src_mismatch w = a ∧ L.weights_mismatch w = b ∧ L.dst_mismatch w = c) := by
  have hstatus : ∀ i, (env_of a b c).status i = mkldnn_success := fun _ => rfl
  have hfacts := simple_net_build_facts (env_of a b c) hstatus (env_of_alloc a b c)
  refine returns_mono hfacts ?_
  rintro L w ⟨a1, b1, c1, F⟩
  obtain ⟨ha, hb, hc⟩ := facts_env_of F
  exact ⟨F.src.trans ha, F.weights.trans hb, F.dst.trans hc⟩

/-- C8: the constants of the example agree with the operator shapes.  With input 227, kernel
11, stride `CONV_STRIDE = 4` and pad `CONV_PAD = 0` the output size `(I - K + 2*P) / S + 1`
is `CONV_OH = CONV_OW = 55`; with input 55, window 3, stride `POOL_STRIDE = 2` and pad 0 it
is `POOL_OH = POOL_OW = 27`; the byte counts of `net_src` and `net_dst` are computed without
overflow and are `8*3*227*227*4 = 4946784` and `8*96*27*27*4 = 2239488`; and in a run of
`simple_net` (library calls and allocations succeeding) the first two allocations are
exactly these, returning `net_src` and `net_dst`, the convolution is described with the
dims `{8,3,227,227}`, `{96,3,11,11}`, `{96}`, `{8,96,55,55}`, strides `{4,4}` and padding
`{0,0}`, the pooling with destination dims `{8,96,27,27}`, strides `{2,2}`, kernel `{3,3}`
and padding `{0,0}`, and the user's destination memory has dims `{8,96,27,27}`. -/
theorem simple_net_shapes (env : Env) (hlib : ∀ i, env.status i = mkldnn_success)
    (halloc : ∀ i, env.alloc i ≠ NULL) :
    (CONV_IH - 11 + 2 * CONV_PAD) / CONV_STRIDE + 1 = CONV_OH
    ∧ (CONV_IW - 11 + 2 * CONV_PAD) / CONV_STRIDE + 1 = CONV_OW
    ∧ (CONV_OH - 3 + 2 * POOL_PAD) / POOL_STRIDE + 1 = POOL_OH
    ∧ (CONV_OW - 3 + 2 * POOL_PAD) / POOL_STRIDE + 1 = POOL_OW
    ∧ [CONV_IH, CONV_IW, CONV_STRIDE, CONV_PAD, CONV_OH, CONV_OW] = [227, 227, 4, 0, 55, 55]
    ∧ [POOL_STRIDE, POOL_PAD, POOL_OH, POOL_OW] = [2, 0, 27, 27]
    ∧ [BATCH, IC, OC] = [8, 3, 96]
    ∧ bytes_of BATCH IC CONV_IH CONV_IW = some 4946784
    ∧ bytes_of BATCH OC POOL_OH POOL_OW = some 2239488
    ∧ 4946784 = 8 * 3 * 227 * 227 * sizeof_float
    ∧ 2239488 = 8 * 96 * 27 * 27 * sizeof_float
    ∧ (simple_net_build env World.init).returns (fun L w =>
        w.heap.get? 0 = some { size := 4946784, alignment := 64, ptr := L.net_src }
        ∧ w.heap.get? 1 = some { size := 2239488, alignment := 64, ptr := L.net_dst }
        ∧ L.conv_pd.desc.mds.map (fun md => md.dims)
            = [[8, 3, 227, 227], [96, 3, 11, 11], [96], [8, 96, 55, 55]]
        ∧ L.conv_pd.desc.arrays = [[4, 4], [0, 0], [0, 0]]
        ∧ (L.pool_pd.desc.mds.get? 1).map (fun md => md.dims) = some [8, 96, 27, 27]
        ∧ L.pool_pd.desc.arrays = [[2, 2], [3, 3], [0, 0], [0, 0]]
        ∧ w.mem_pd L.pool_user_dst_memory
            = some { md := { dims := [8, 96, 27, 27], data_type := mkldnn_f32,
                             format := mkldnn_nchw }, engine := L.engine }) := by
  refine ⟨by decide, by decide, by decide, by decide, rfl, rfl, rfl, by decide, by decide,
    by decide, by decide, ?_⟩
  refine returns_mono (simple_net_build_facts env hlib halloc) ?_
  rintro L w ⟨a, b, c, F⟩
  exact ⟨F.heap_src, F.heap_dst, F.conv_dims, F.conv_arrays, F.pool_dst_dims, F.pool_arrays,
    F.dst_user⟩

/-! ## Executing the net -/

theorem execute_event_eq_some {L : Locals} {stream : mkldnn_stream_t} {i : Nat} {e : Event}
    (h : L.execute_event stream i = some e) :
    ∃ p nargs args, e = Event.execute p stream nargs args := by
  unfold Locals.execute_event at h
  split at h
  · rename_i p node _ _
    cases hw : all_written node.cells with
    | none => rw [hw] at h; cases h
    | some args =>
      rw [hw] at h
      exact ⟨p, node.nargs, args, (Option.some.inj h).symm⟩
  · cases h

theorem executions_execute_events (L : Locals) (stream : mkldnn_stream_t) (l : List Nat) :
    executions (l.filterMap (L.execute_event stream)) = l.filterMap (L.execute_event stream)
    ∧ written_order (l.filterMap (L.execute_event stream)) = [] := by
  induction l with
  | nil => exact ⟨rfl, rfl⟩
  | cons i rest ih =>
    cases h : L.execute_event stream i with
    | none =>
      rw [List.filterMap_cons_none h]
      exact ih
    | some e =>
      obtain ⟨p, nargs, args, he⟩ := execute_event_eq_some h
      subst he
      rw [List.filterMap_cons_some h]
      refine ⟨?_, ?_⟩
      · show Event.execute p stream nargs args ::
          executions (rest.filterMap (L.execute_event stream)) = _
        rw [ih.1]
      · show written_order (rest.filterMap (L.execute_event stream)) = _
        exact ih.2

theorem executions_append (s t : List Event) :
    executions (s ++ t) = executions s ++ executions t :=
  List.filter_append s t

theorem written_order_append (s t : List Event) :
    written_order (s ++ t) = written_order s ++ written_order t :=
  List.filterMap_append s t _

theorem executed_order_append (s t : List Event) :
    executed_order (s ++ t) = executed_order s ++ executed_order t :=
  List.filterMap_append s t _

/-- What a run of `simple_net` has written and executed once the stream loop is over. -/
theorem simple_net_orders (env : Env) (hlib : ∀ i, env.status i = mkldnn_success)
    (halloc : ∀ i, env.alloc i ≠ NULL) :
    (simple_net_build env World.init).returns (fun L w =>
      ∃ a b c, BuildFacts env a b c L w ∧
      (simple_net_execute env L w).returns (fun stream w1 =>
        executions w1.trace = (indices 0 L.n).filterMap (L.execute_event stream)
        ∧ (executions w1.trace).length = L.n
        ∧ executed_order w1.trace =
            (if a then [L.conv_reorder_src] else []) ++
            (if b then [L.conv_reorder_weights] else []) ++
            [L.conv, L.relu, L.lrn, L.pool] ++
            (if c then [L.pool_reorder_dst] else [])
        ∧ written_order w1.trace =
            (if a then [L.conv_reorder_src] else []) ++
            (if b then [L.conv_reorder_weights] else []) ++
            [L.conv, L.relu, L.lrn] ++
            (if c then [L.pool_reorder_dst] else []) ++ [L.pool])) := by
  refine returns_mono (simple_net_build_facts env hlib halloc) ?_
  rintro L w ⟨a, b, c, F⟩
  refine ⟨a, b, c, F, ?_⟩
  rw [simple_net_execute_ok env hlib L w F.engine_ok F.ready]
  refine returns_ret.mpr ?_
  dsimp only
  have hev := executions_execute_events L (w.streams + 1) (indices 0 L.n)
  refine ⟨?_, ?_, ?_, ?_⟩
  · rw [executions_append, F.not_executed, hev.1]
    rfl
  · rw [executions_append, F.not_executed, hev.1]
    exact F.exec_all _
  · rw [executed_order_append, F.executed_none, F.exec_order]
    rfl
  · rw [written_order_append, hev.2, F.written, List.append_nil]

/-- C6 (counterexample): in the environment `env_of false false true` (every call succeeds;
only the pooling destination needs a reorder) the stream loop executes conv, relu, lrn,
pool, dst reorder, while the entries were written into `net` in the order conv, relu, lrn,
dst reorder, pool: the execution order is not the order of construction. -/
theorem execution_order_differs_from_written_order :
    (simple_net_build (env_of false false true) World.init).returns (fun L w =>
      (simple_net_execute (env_of false false true) L w).returns (fun _ w1 =>
        executed_order w1.trace = [L.conv, L.relu, L.lrn, L.pool, L.pool_reorder_dst]
        ∧ written_order w1.trace = [L.conv, L.relu, L.lrn, L.pool_reorder_dst, L.pool]
        ∧ executed_order w1.trace ≠ written_order w1.trace)) := by
  have hstatus : ∀ i, (env_of false false true).status i = mkldnn_success := fun _ => rfl
  refine returns_mono (simple_net_orders _ hstatus (env_of_alloc _ _ _)) ?_
  rintro L w ⟨a, b, c, F, h⟩
  obtain ⟨ha, hb, hc⟩ := facts_env_of F
  subst ha hb hc
  refine returns_mono h ?_
  rintro stream w1 ⟨_, _, hex, hwr⟩
  refine ⟨hex, hwr, ?_⟩
  rw [hex, hwr]
  intro heq
  have hne := F.dst_ne
  have h2 : L.pool_reorder_dst = L.pool := by
    have h3 := List.cons.inj (List.cons.inj (List.cons.inj (List.cons.inj heq).2).2).2
    exact (List.cons.inj h3.2).1
  rw [h2] at hne
  simp at hne

/-- C6 (amended): when the library calls and allocations succeed, the stream loop calls
`mkldnn_primitive_execute` exactly once for each slot `i = 0 .. n-1`, in index order, with
`net[i]` and its own `net_args[i]`; the primitives executed are, in order, the src reorder
(if any), the weights reorder (if any), conv, relu, lrn, pool, the dst reorder (if any).
The entries were written into `net` in the same order except that the dst reorder (if any)
was written before pool, into the slot after the one reserved for pool; so the execution
order equals the order of construction exactly when the pooling destination needs no
reorder. -/
theorem simple_net_execution_order (env : Env) (hlib : ∀ i, env.status i = mkldnn_success)
    (halloc : ∀ i, env.alloc i ≠ NULL) :
    (simple_net_build env World.init).returns (fun L w =>
      (simple_net_execute env L w).returns (fun stream w1 =>
        executions w1.trace = (indices 0 L.n).filterMap (L.execute_event stream)
        ∧ (executions w1.trace).length = L.n
        ∧ executed_order w1.trace =
            (if L.src_mismatch w then [L.conv_reorder_src] else []) ++
            (if L.weights_mismatch w then [L.conv_reorder_weights] else []) ++
            [L.conv, L.relu, L.lrn, L.pool] ++
            (if L.dst_mismatch w then [L.pool_reorder_dst] else [])
        ∧ written_order w1.trace =
            (if L.src_mismatch w then [L.conv_reorder_src] else []) ++
            (if L.weights_mismatch w then [L.conv_reorder_weights] else []) ++
            [L.conv, L.relu, L.lrn] ++
            (if L.dst_mismatch w then [L.pool_reorder_dst] else []) ++ [L.pool]
        ∧ (executed_order w1.trace = written_order w1.trace ↔ L.dst_mismatch w = false))) := by
  refine returns_mono (simple_net_orders env hlib halloc) ?_
  rintro L w ⟨a, b, c, F, h⟩
  refine returns_mono h ?_
  rintro stream w1 ⟨h1, h2, hex, hwr⟩
  rw [F.src, F.weights, F.dst]
  refine ⟨h1, h2, hex, hwr, ?_⟩
  rw [hex, hwr]
  have hne := F.dst_ne
  cases c with
  | false => simp
  | true =>
    simp only [if_true, List.append_assoc, List.cons_append, List.nil_append,
      List.append_cancel_left_eq, Bool.true_eq_false, iff_false]
    intro heq
    have h3 := (List.cons.inj (List.cons.inj (List.cons.inj heq).2).2).2
    have h4 : L.pool_reorder_dst = L.pool := (List.cons.inj (List.cons.inj h3).2).1
    rw [h4] at hne
    simp at hne

/-! ## The teardown -/

theorem nondecreasing_chain : ∀ l : List Nat, nondecreasing l = true → l.Chain' (· ≤ ·)
  | [], _ => List.chain'_nil
  | [a], _ => List.chain'_singleton a
  | a :: b :: rest, h => by
    simp only [nondecreasing, Bool.and_eq_true, decide_eq_true_eq] at h
    exact List.chain'_cons.mpr ⟨h.1, nondecreasing_chain (b :: rest) h.2⟩

/-- A trace in which the stream is destroyed before some memory object is not in the
order of section 5 of the spec. -/
theorem not_in_teardown_order (nodes : List Ptr) (t : List Event) (s : mkldnn_stream_t)
    (m : mkldnn_memory_t) (h : [Event.stream_destroy s, Event.memory_destroy m].Sublist t) :
    in_teardown_order nodes t = false := by
  cases hnd : in_teardown_order nodes t with
  | false => rfl
  | true =>
    exfalso
    unfold in_teardown_order at hnd
    have hp := List.chain'_iff_pairwise.mp (nondecreasing_chain _ hnd)
    have hs := h.filterMap (teardown_class nodes)
    have h64 := hp.sublist hs
    simp [teardown_class] at h64

theorem ready_node {L : Locals} {w : World}
    (h : ∀ i, i < L.n → ∃ p node args, L.net.get? i = some (some p) ∧
      L.net_args.get? i = some (some node) ∧ node.args ≠ NULL ∧
      all_written node.cells = some args ∧ (w.prim p).isSome = true) :
    ∀ j, j < L.n → ∃ node, L.net_args.get? j = some (some node) := by
  intro j hj
  obtain ⟨_, node, _, _, hn, _⟩ := h j hj
  exact ⟨node, hn⟩

/-- C11 (counterexample): in the run of `simple_net` in the environment
`env_of false false false` the events of the clean-up are not in the order "net entries,
primitives, operator descriptors, memory objects, buffers, stream, engine": the stream is
destroyed before the memory objects (and the operator descriptors before the
primitives). -/
theorem teardown_not_in_spec_order :
    (simple_net_build (env_of false false false) World.init).returns (fun L w =>
      (simple_net_execute (env_of false false false) L w).returns (fun stream w1 =>
        (simple_net_cleanup (env_of false false false) L stream w1).returns (fun _ w2 =>
          in_teardown_order L.node_ptrs (w2.trace.drop w1.trace.length) = false))) := by
  have hstatus : ∀ i, (env_of false false false).status i = mkldnn_success := fun _ => rfl
  refine returns_mono (simple_net_build_facts _ hstatus (env_of_alloc _ _ _)) ?_
  rintro L w ⟨a, b, c, F⟩
  rw [simple_net_execute_ok _ hstatus L w F.engine_ok F.ready]
  refine returns_ret.mpr ?_
  rw [simple_net_cleanup_ok _ hstatus L _ _ (ready_node F.ready)]
  refine returns_ret.mpr ?_
  dsimp only
  rw [List.drop_left]
  refine not_in_teardown_order _ _ (w.streams + 1) L.conv_user_src_memory ?_
  refine List.sublist_append_of_sublist_right ?_
  exact .cons _ (.cons _ (.cons _ (.cons _ (.cons₂ _ (.cons _ (.cons _ (.cons₂ _
    (List.nil_sublist _))))))))

/-- C11 (amended): when the library calls and allocations succeed, the clean-up of
`simple_net` does, in this order: free the `n` argument nodes of the net entries (slot
order); destroy the four operator descriptors (conv, relu, lrn, pool); destroy the stream;
free the user buffers `net_src` and `net_dst`; then stage by stage destroy the stage's
memory objects, then its primitives, then free its buffers (conv, relu, lrn, pool); and
destroy the engine last.  So the operator descriptors and the stream go before every
primitive and memory object, and memory objects, primitives and buffers alternate. -/
theorem simple_net_teardown (env : Env) (hlib : ∀ i, env.status i = mkldnn_success)
    (halloc : ∀ i, env.alloc i ≠ NULL) :
    (simple_net_build env World.init).returns (fun L w =>
      (simple_net_execute env L w).returns (fun stream w1 =>
        (simple_net_cleanup env L stream w1).returns (fun _ w2 =>
          L.node_ptrs.length = L.n
          ∧ w2.trace = w1.trace ++ (L.node_ptrs.map Event.free ++
            [Event.primitive_desc_destroy (.op L.conv_pd),
             Event.primitive_desc_destroy (.op L.relu_pd),
             Event.primitive_desc_destroy (.op L.lrn_pd),
             Event.primitive_desc_destroy (.op L.pool_pd),
             Event.stream_destroy stream,
             Event.free L.net_src,
             Event.free L.net_dst,
             Event.memory_destroy L.conv_user_src_memory,
             Event.memory_destroy L.conv_user_weights_memory,
             Event.memory_destroy L.conv_user_bias_memory,
             Event.memory_destroy L.conv_internal_src_memory,
             Event.memory_destroy L.conv_internal_weights_memory,
             Event.memory_destroy L.conv_internal_dst_memory,
             Event.primitive_destroy L.conv_reorder_src,
             Event.primitive_destroy L.conv_reorder_weights,
             Event.primitive_destroy L.conv,
             Event.free L.conv_weights,
             Event.free L.conv_bias,
             Event.free L.conv_src_buffer,
             Event.free L.conv_weights_buffer,
             Event.free L.conv_dst_buffer,
             Event.memory_destroy L.relu_dst_memory,
             Event.primitive_destroy L.relu,
             Event.free L.relu_dst_buffer,
             Event.memory_destroy L.lrn_scratch_memory,
             Event.memory_destroy L.lrn_dst_memory,
             Event.primitive_destroy L.lrn,
             Event.free L.lrn_scratch_buffer,
             Event.free L.lrn_dst_buffer,
             Event.memory_destroy L.pool_user_dst_memory,
             Event.memory_destroy L.pool_internal_dst_memory,
             Event.memory_destroy L.pool_indices_memory,
             Event.primitive_destroy L.pool_reorder_dst,
             Event.primitive_destroy L.pool,
             Event.free L.pool_dst_buffer,
             Event.free L.pool_indices_buffer,
             Event.engine_destroy L.engine])))) := by
  refine returns_mono (simple_net_build_facts env hlib halloc) ?_
  rintro L w ⟨a, b, c, F⟩
  rw [simple_net_execute_ok env hlib L w F.engine_ok F.ready]
  refine returns_ret.mpr ?_
  rw [simple_net_cleanup_ok env hlib L _ _ (ready_node F.ready)]
  refine returns_ret.mpr ?_
  exact ⟨F.ptrs_len, rfl⟩

/-! ## Indices stay inside the arrays -/

theorem prim_ne_null {w : World} {p : mkldnn_primitive_t} {d : PrimDesc}
    (h : w.prim p = some d) : p ≠ NULL := by
  intro hp
  rw [hp] at h
  cases h

/-- C12: in a run of `simple_net` whose library calls and allocations succeed, for every
outcome of the three layout comparisons: `net` and `net_args` have 10 slots; the indices
written into `net` are `0, 1, ...` up to the lrn entry, then (iff the pooling destination
needs a reorder) the reserved position after pool's, then pool's, all below 10; only the
slots `0 .. n-1` of `net` and `net_args` are written; `n` is at most 7, so every index read
by the execution and clean-up loops is below 10 and neither loop reads an unwritten slot
(both run to their end); and at `n -= pool_reorder_dst ? 2 : 1` the counter is at least the
amount subtracted, so the `uint32_t` does not wrap around. -/
theorem simple_net_indices_in_bounds (env : Env) (hlib : ∀ i, env.status i = mkldnn_success)
    (halloc : ∀ i, env.alloc i ≠ NULL) :
    (simple_net_build env World.init).returns (fun L w =>
      L.net.length = 10 ∧ L.net_args.length = 10
      ∧ written_indices w.trace =
          indices 0 ((L.src_mismatch w).toNat + (L.weights_mismatch w).toNat + 3) ++
          (if L.dst_mismatch w then
            [(L.src_mismatch w).toNat + (L.weights_mismatch w).toNat + 4] else []) ++
          [(L.src_mismatch w).toNat + (L.weights_mismatch w).toNat + 3]
      ∧ (∀ i ∈ written_indices w.trace, i < 10)
      ∧ L.net.drop L.n = List.replicate (10 - L.n) none
      ∧ L.net_args.drop L.n = List.replicate (10 - L.n) none
      ∧ L.n ≤ 7
      ∧ (∀ i ∈ indices 0 L.n, i < 10)
      ∧ (L.pool_reorder_dst ≠ NULL ↔ L.dst_mismatch w = true)
      ∧ (∃ n0 d, counter_subs w.trace = [(n0, d)]
          ∧ d = (if L.pool_reorder_dst ≠ NULL then 2 else 1)
          ∧ d ≤ n0 ∧ u32_sub n0 d = n0 - d)
      ∧ (simple_net_execute env L w).returns (fun stream w1 =>
          (simple_net_cleanup env L stream w1).returns (fun _ _ => True))) := by
  refine returns_mono (simple_net_build_facts env hlib halloc) ?_
  rintro L w ⟨a, b, c, F⟩
  rw [F.src, F.weights, F.dst]
  have hnull : L.pool_reorder_dst ≠ NULL ↔ c = true := by
    constructor
    · intro h
      cases c with
      | true => rfl
      | false => exact absurd F.dst_null h
    · intro h
      have h1 := F.dst_reorder
      rw [if_pos h, F.dst_user] at h1
      exact prim_ne_null h1
  refine ⟨F.net_len, F.args_len, F.written_at, ?_, F.net_rest, F.args_rest, ?_, ?_, hnull,
    ?_, ?_⟩
  · rw [F.written_at]
    cases a <;> cases b <;> cases c <;> decide
  · rw [F.n_eq]
    cases a <;> cases b <;> cases c <;> decide
  · rw [F.n_eq]
    cases a <;> cases b <;> cases c <;> decide
  · refine ⟨_, _, F.subs, ?_, ?_⟩
    · cases c with
      | true => rw [if_pos (hnull.mpr rfl)]; rfl
      | false =>
        have h0 : ¬ L.pool_reorder_dst ≠ NULL := fun h => Bool.noConfusion (hnull.mp h)
        rw [if_neg h0]
        rfl
    · cases a <;> cases b <;> cases c <;> decide
  · rw [simple_net_execute_ok env hlib L w F.engine_ok F.ready]
    refine returns_ret.mpr ?_
    rw [simple_net_cleanup_ok env hlib L _ _ (ready_node F.ready)]
    exact returns_ret.mpr trivial

/-! ## The theorems above at concrete environments -/

theorem simple_net_shapes_witness :
    (∀ i, (env_of false false false).status i = mkldnn_success)
    ∧ (∀ i, (env_of false false false).alloc i ≠ NULL)
    ∧ ((CONV_IH - 11 + 2 * CONV_PAD) / CONV_STRIDE + 1 = CONV_OH
    ∧ (CONV_IW - 11 + 2 * CONV_PAD) / CONV_STRIDE + 1 = CONV_OW
    ∧ (CONV_OH - 3 + 2 * POOL_PAD) / POOL_STRIDE + 1 = POOL_OH
    ∧ (CONV_OW - 3 + 2 * POOL_PAD) / POOL_STRIDE + 1 = POOL_OW
    ∧ [CONV_IH, CONV_IW, CONV_STRIDE, CONV_PAD, CONV_OH, CONV_OW] = [227, 227, 4, 0, 55, 55]
    ∧ [POOL_STRIDE, POOL_PAD, POOL_OH, POOL_OW] = [2, 0, 27, 27]
    ∧ [BATCH, IC, OC] = [8, 3, 96]
    ∧ bytes_of BATCH IC CONV_IH CONV_IW = some 4946784
    ∧ bytes_of BATCH OC POOL_OH POOL_OW = some 2239488
    ∧ 4946784 = 8 * 3 * 227 * 227 * sizeof_float
    ∧ 2239488 = 8 * 96 * 27 * 27 * sizeof_float
    ∧ (simple_net_build (env_of false false false) World.init).returns (fun L w =>
        w.heap.get? 0 = some { size := 4946784, alignment := 64, ptr := L.net_src }
        ∧ w.heap.get? 1 = some { size := 2239488, alignment := 64, ptr := L.net_dst }
        ∧ L.conv_pd.desc.mds.map (fun md => md.dims)
            = [[8, 3, 227, 227], [96, 3, 11, 11], [96], [8, 96, 55, 55]]
        ∧ L.conv_pd.desc.arrays = [[4, 4], [0, 0], [0, 0]]
        ∧ (L.pool_pd.desc.mds.get? 1).map (fun md => md.dims) = some [8, 96, 27, 27]
        ∧ L.pool_pd.desc.arrays = [[2, 2], [3, 3], [0, 0], [0, 0]]
        ∧ w.mem_pd L.pool_user_dst_memory
            = some { md := { dims := [8, 96, 27, 27], data_type := mkldnn_f32,
                             format := mkldnn_nchw }, engine := L.engine })) :=
  ⟨fun _ => rfl, env_of_alloc false false false,
    simple_net_shapes (env_of false false false) (fun _ => rfl) (env_of_alloc false false false)⟩

theorem simple_net_execution_order_witness :
    (∀ i, (env_of true true true).status i = mkldnn_success)
    ∧ (∀ i, (env_of true true true).alloc i ≠ NULL)
    ∧ ((simple_net_build (env_of true true true) World.init).returns (fun L w =>
      (simple_net_execute (env_of true true true) L w).returns (fun stream w1 =>
        executions w1.trace = (indices 0 L.n).filterMap (L.execute_event stream)
        ∧ (executions w1.trace).length = L.n
        ∧ executed_order w1.trace =
            (if L.src_mismatch w then [L.conv_reorder_src] else []) ++
            (if L.weights_mismatch w then [L.conv_reorder_weights] else []) ++
            [L.conv, L.relu, L.lrn, L.pool] ++
            (if L.dst_mismatch w then [L.pool_reorder_dst] else [])
        ∧ written_order w1.trace =
            (if L.src_mismatch w then [L.conv_reorder_src] else []) ++
            (if L.weights_mismatch w then [L.conv_reorder_weights] else []) ++
            [L.conv, L.relu, L.lrn] ++
            (if L.dst_mismatch w then [L.pool_reorder_dst] else []) ++ [L.pool]
        ∧ (executed_order w1.trace = written_order w1.trace ↔ L.dst_mismatch w = false)))) :=
  ⟨fun _ => rfl, env_of_alloc true true true,
    simple_net_execution_order (env_of true true true) (fun _ => rfl) (env_of_alloc true true true)⟩

theorem simple_net_teardown_witness :
    (∀ i, (env_of true false true).status i = mkldnn_success)
    ∧ (∀ i, (env_of true false true).alloc i ≠ NULL)
    ∧ ((simple_net_build (env_of true false true) World.init).returns (fun L w =>
      (simple_net_execute (env_of true false true) L w).returns (fun stream w1 =>
        (simple_net_cleanup (env_of true false true) L stream w1).returns (fun _ w2 =>
          L.node_ptrs.length = L.n
          ∧ w2.trace = w1.trace ++ (L.node_ptrs.map Event.free ++
            [Event.primitive_desc_destroy (.op L.conv_pd),
             Event.primitive_desc_destroy (.op L.relu_pd),
             Event.primitive_desc_destroy (.op L.lrn_pd),
             Event.primitive_desc_destroy (.op L.pool_pd),
             Event.stream_destroy stream,
             Event.free L.net_src,
             Event.free L.net_dst,
             Event.memory_destroy L.conv_user_src_memory,
             Event.memory_destroy L.conv_user_weights_memory,
             Event.memory_destroy L.conv_user_bias_memory,
             Event.memory_destroy L.conv_internal_src_memory,
             Event.memory_destroy L.conv_internal_weights_memory,
             Event.memory_destroy L.conv_internal_dst_memory,
             Event.primitive_destroy L.conv_reorder_src,
             Event.primitive_destroy L.conv_reorder_weights,
             Event.primitive_destroy L.conv,
             Event.free L.conv_weights,
             Event.free L.conv_bias,
             Event.free L.conv_src_buffer,
             Event.free L.conv_weights_buffer,
             Event.free L.conv_dst_buffer,
             Event.memory_destroy L.relu_dst_memory,
             Event.primitive_destroy L.relu,
             Event.free L.relu_dst_buffer,
             Event.memory_destroy L.lrn_scratch_memory,
             Event.memory_destroy L.lrn_dst_memory,
             Event.primitive_destroy L.lrn,
             Event.free L.lrn_scratch_buffer,
             Event.free L.lrn_dst_buffer,
             Event.memory_destroy L.pool_user_dst_memory,
             Event.memory_destroy L.pool_internal_dst_memory,
             Event.memory_destroy L.pool_indices_memory,
             Event.primitive_destroy L.pool_reorder_dst,
             Event.primitive_destroy L.pool,
             Event.free L.pool_dst_buffer,
             Event.free L.pool_indices_buffer,
             Event.engine_destroy L.engine]))))) :=
  ⟨fun _ => rfl, env_of_alloc true false true,
    simple_net_teardown (env_of true false true) (fun _ => rfl) (env_of_alloc true false true)⟩

theorem simple_net_indices_in_bounds_witness :
    (∀ i, (env_of true true true).status i = mkldnn_success)
    ∧ (∀ i, (env_of true true true).alloc i ≠ NULL)
    ∧ ((simple_net_build (env_of true true true) World.init).returns (fun L w =>
      L.net.length = 10 ∧ L.net_args.length = 10
      ∧ written_indices w.trace =
          indices 0 ((L.src_mismatch w).toNat + (L.weights_mismatch w).toNat + 3) ++
          (if L.dst_mismatch w then
            [(L.src_mismatch w).toNat + (L.weights_mismatch w).toNat + 4] else []) ++
          [(L.src_mismatch w).toNat + (L.weights_mismatch w).toNat + 3]
      ∧ (∀ i ∈ written_indices w.trace, i < 10)
      ∧ L.net.drop L.n = List.replicate (10 - L.n) none
      ∧ L.net_args.drop L.n = List.replicate (10 - L.n) none
      ∧ L.n ≤ 7
      ∧ (∀ i ∈ indices 0 L.n, i < 10)
      ∧ (L.pool_reorder_dst ≠ NULL ↔ L.dst_mismatch w = true)
      ∧ (∃ n0 d, counter_subs w.trace = [(n0, d)]
          ∧ d = (if L.pool_reorder_dst ≠ NULL then 2 else 1)
          ∧ d ≤ n0 ∧ u32_sub n0 d = n0 - d)
      ∧ (simple_net_execute (env_of true true true) L w).returns (fun stream w1 =>
          (simple_net_cleanup (env_of true true true) L stream w1).returns (fun _ _ => True)))) :=
  ⟨fun _ => rfl, env_of_alloc true true true,
    simple_net_indices_in_bounds (env_of true true true) (fun _ => rfl) (env_of_alloc true true true)⟩

/-! ## Failures: what the checking macros make of them -/

theorem checked_pure {α : Type} (q : Bool) (a : α) : Checked q (pure a : M α) := by
  intro w
  exact ⟨rfl, fun _ => rfl⟩

theorem checked_undefined {α : Type} (q : Bool) : Checked q (undefined : M α) := by
  intro w
  exact trivial

theorem checked_bind {α β : Type} {q : Bool} {m : M α} {f : α → M β}
    (hm : Checked q m) (hf : ∀ a, Checked q (f a)) : Checked q (m >>= f) := by
  intro w
  have h1 := hm w
  cases hmw : m w with
  | ret a w1 =>
    rw [bind_ret hmw]
    rw [hmw] at h1
    have h2 := hf a w1
    cases hfa : f a w1 with
    | ret b w2 =>
      rw [hfa] at h2
      exact ⟨h2.1.trans h1.1, fun hq => (h2.2 hq).trans (h1.2 hq)⟩
    | exited c w2 =>
      rw [hfa] at h2
      obtain ⟨hc, ⟨msg, hout, hmsg⟩, hex⟩ := h2
      exact ⟨hc, ⟨msg, by rw [hout, h1.1], hmsg⟩, fun hq => (hex hq).trans (h1.2 hq)⟩
    | ub => exact trivial
  | exited c w1 =>
    rw [bind_exited hmw]
    rw [hmw] at h1
    exact h1
  | ub =>
    rw [bind_ub hmw]
    exact trivial

theorem checked_ite {α : Type} {q : Bool} {c : Prop} [Decidable c] {a b : M α}
    (ha : Checked q a) (hb : Checked q b) : Checked q (if c then a else b) := by
  by_cases h : c
  · rw [if_pos h]
    exact ha
  · rw [if_neg h]
    exact hb

theorem executions_snoc (t : List Event) (e : Event) (he : executions [e] = []) :
    executions (t ++ [e]) = executions t := by
  rw [executions_append, he, List.append_nil]

theorem checked_emit (q : Bool) (e : Event) (he : executions [e] = []) :
    Checked q (emit e) := by
  intro w
  exact ⟨rfl, fun _ => executions_snoc _ _ he⟩

theorem checked_free (q : Bool) (p : Ptr) : Checked q (_free p) :=
  checked_emit q _ rfl

theorem checked_aligned_malloc (q : Bool) (env : Env) (size alignment : Nat) :
    Checked q (aligned_malloc env size alignment) := by
  intro w
  exact ⟨rfl, fun _ => rfl⟩

theorem checked_defined {α : Type} (q : Bool) (o : Option α) : Checked q (defined o) := by
  cases o with
  | none => exact checked_undefined q
  | some a => exact checked_pure q a

theorem checked_load {α : Type} (q : Bool) (arr : List (Option α)) (i : Nat) :
    Checked q (load arr i) := by
  unfold load
  split
  · exact checked_pure q _
  · exact checked_undefined q

theorem checked_store {α : Type} (q : Bool) (arr : List (Option α)) (i : Nat) (v : α) :
    Checked q (store arr i v) := by
  unfold store
  exact checked_ite (checked_pure q _) (checked_undefined q)

theorem checked_net_store (q : Bool) (net : List (Option mkldnn_primitive_t)) (i : Nat)
    (p : mkldnn_primitive_t) : Checked q (net_store net i p) := by
  unfold net_store
  exact checked_bind (checked_store q _ _ _) fun _ =>
    checked_bind (checked_emit q _ rfl) fun _ => checked_pure q _

theorem checked_set_arg_at (q : Bool) (net_args : List (Option args_t)) (i j : Nat)
    (arg_idx : ArgSlot) (memory : mkldnn_memory_t) :
    Checked q (set_arg_at net_args i j arg_idx memory) := by
  unfold set_arg_at
  exact checked_bind (checked_load q _ _) fun _ =>
    checked_ite (checked_undefined q)
      (checked_bind (checked_store q _ _ _) fun _ => checked_store q _ _ _)

theorem checked_prepare_arg_node (q : Bool) (env : Env) (nargs : Int) :
    Checked q (prepare_arg_node env nargs) := by
  unfold prepare_arg_node malloc
  exact checked_bind (checked_aligned_malloc q _ _ _) fun _ => checked_pure q _

theorem checked_free_arg_node (q : Bool) (node : args_t) : Checked q (free_arg_node node) :=
  checked_free q _

/-- A library call never terminates the process, and prints nothing. -/
theorem checked_libcall {α : Type} {q : Bool} {env : Env} {eff : World → Option (α × World)}
    (h : ∀ w a w2, eff w = some (a, w2) →
      w2.out = w.out ∧ (q = true → executions w2.trace = executions w.trace)) :
    Checked q (libcall env eff) := by
  intro w
  by_cases hs : env.status w.calls = mkldnn_success
  · cases he : eff { w with calls := w.calls + 1 } with
    | none =>
      rw [libcall_invalid hs he]
      exact ⟨rfl, fun _ => rfl⟩
    | some r =>
      obtain ⟨a, w2⟩ := r
      rw [libcall_ok hs he]
      have h2 := h { w with calls := w.calls + 1 } a w2 he
      exact h2
  · rw [libcall_fail hs]
    exact ⟨rfl, fun _ => rfl⟩

/-- `CHECK(f)`: a failing status is printed and the process exits with code 2. -/
theorem checked_CHECK {α : Type} {q : Bool} {f : M (Ret α)} (hf : Checked q f) :
    Checked q (CHECK f) := by
  unfold CHECK
  refine checked_bind hf fun r => ?_
  by_cases hr : r.status = mkldnn_success
  · rw [if_neg (not_not.mpr hr)]
    cases r with
    | ok a => exact checked_pure q a
    | fail s => exact checked_undefined q
  · rw [if_pos hr]
    intro w
    refine ⟨rfl, ⟨_, rfl, ?_⟩, fun _ => rfl⟩
    intro h
    exact hr (Msg.error_returns.inj h)

theorem checked_CHECK_TRUE (q : Bool) (b : Bool) : Checked q (CHECK_TRUE b) := by
  unfold CHECK_TRUE
  cases b with
  | true => exact checked_pure q ()
  | false =>
    intro w
    exact ⟨rfl, ⟨_, rfl, fun h => Msg.noConfusion h⟩, fun _ => rfl⟩

theorem checked_unchecked {α : Type} {q : Bool} {f : M (Ret α)} (hf : Checked q f) :
    Checked q (unchecked f) := by
  unfold unchecked
  refine checked_bind hf fun r => ?_
  cases r with
  | ok a => exact checked_pure q a
  | fail s => exact checked_undefined q

theorem checked_ignored {α : Type} {q : Bool} {f : M (Ret α)} (hf : Checked q f) :
    Checked q (ignored f) := by
  unfold ignored
  exact checked_bind hf fun _ => checked_pure q ()

theorem checked_for_each {q : Bool} {body : Nat → M Unit} (hb : ∀ i, Checked q (body i)) :
    ∀ l, Checked q (for_each body l)
  | [] => checked_pure q ()
  | i :: rest => checked_bind (hb i) fun _ => checked_for_each hb rest

/-! ### The library entry points keep the discipline -/

theorem checked_engine_create (q : Bool) (env : Env) : Checked q (mkldnn_engine_create env) :=
  checked_libcall fun w a w2 h => by
    cases h
    exact ⟨rfl, fun _ => rfl⟩

theorem checked_memory_desc_init (q : Bool) (env : Env) (ndims : Nat) (dims : List Int)
    (data_type : mkldnn_data_type_t) (format : mkldnn_memory_format_t) :
    Checked q (mkldnn_memory_desc_init env ndims dims data_type format) := by
  unfold mkldnn_memory_desc_init
  refine checked_ite (checked_libcall fun w a w2 h => ?_) (checked_undefined q)
  split at h
  · cases h
  · cases h
    exact ⟨rfl, fun _ => rfl⟩

theorem checked_memory_primitive_desc_create (q : Bool) (env : Env)
    (md : mkldnn_memory_desc_t) (engine : mkldnn_engine_t) :
    Checked q (mkldnn_memory_primitive_desc_create env md engine) :=
  checked_libcall fun w a w2 h => by
    split at h
    · cases h
    · cases h
      exact ⟨rfl, fun _ => rfl⟩

theorem checked_memory_create (q : Bool) (env : Env) (pd : MemPd) (handle : Ptr) :
    Checked q (mkldnn_memory_create env pd handle) :=
  checked_libcall fun w a w2 h => by
    cases h
    exact ⟨rfl, fun _ => rfl⟩

theorem checked_memory_get_data_handle (q : Bool) (env : Env) (memory : mkldnn_memory_t) :
    Checked q (mkldnn_memory_get_data_handle env memory) :=
  checked_libcall fun w a w2 h => by
    cases hm : w.mem memory with
    | none => rw [hm] at h; cases h
    | some o =>
      rw [hm] at h
      cases h
      exact ⟨rfl, fun _ => rfl⟩

theorem checked_memory_set_data_handle (q : Bool) (env : Env) (memory : mkldnn_memory_t)
    (handle : Ptr) : Checked q (mkldnn_memory_set_data_handle env memory handle) :=
  checked_libcall fun w a w2 h => by
    cases hm : w.mem memory with
    | none => rw [hm] at h; cases h
    | some o =>
      rw [hm] at h
      cases h
      exact ⟨rfl, fun _ => rfl⟩

theorem checked_memory_get_primitive_desc (q : Bool) (env : Env) (memory : mkldnn_memory_t) :
    Checked q (mkldnn_memory_get_primitive_desc env memory) :=
  checked_libcall fun w a w2 h => by
    cases hm : w.mem memory with
    | none => rw [hm] at h; cases h
    | some o =>
      rw [hm] at h
      cases h
      exact ⟨rfl, fun _ => rfl⟩

theorem checked_reorder_primitive_desc_create (q : Bool) (env : Env) (input output : MemPd) :
    Checked q (mkldnn_reorder_primitive_desc_create env input output) :=
  checked_libcall fun w a w2 h => by
    cases h
    exact ⟨rfl, fun _ => rfl⟩

theorem checked_primitive_desc_create (q : Bool) (env : Env) (desc : OpDesc)
    (engine : mkldnn_engine_t) : Checked q (mkldnn_primitive_desc_create env desc engine) :=
  checked_libcall fun w a w2 h => by
    split at h
    · cases h
    · cases h
      exact ⟨rfl, fun _ => rfl⟩

theorem checked_primitive_create (q : Bool) (env : Env) (pd : PrimDesc) :
    Checked q (mkldnn_primitive_create env pd) :=
  checked_libcall fun w a w2 h => by
    cases h
    exact ⟨rfl, fun _ => rfl⟩

theorem checked_primitive_desc_destroy (q : Bool) (env : Env) (pd : PrimDesc) :
    Checked q (mkldnn_primitive_desc_destroy env pd) :=
  checked_libcall fun w a w2 h => by
    cases h
    exact ⟨rfl, fun _ => executions_snoc _ _ rfl⟩

theorem checked_convolution_forward_desc_init (q : Bool) (env : Env) (alg : AlgKind)
    (src_md weights_md bias_md dst_md : mkldnn_memory_desc_t)
    (strides padding_l padding_r : List Int) :
    Checked q (mkldnn_convolution_forward_desc_init env alg src_md weights_md bias_md dst_md
      strides padding_l padding_r) :=
  checked_libcall fun w a w2 h => by
    cases h
    exact ⟨rfl, fun _ => rfl⟩

theorem checked_eltwise_forward_desc_init (q : Bool) (env : Env) (alg : AlgKind)
    (data_md : mkldnn_memory_desc_t) (alpha beta : DecLit) :
    Checked q (mkldnn_eltwise_forward_desc_init env alg data_md alpha beta) :=
  checked_libcall fun w a w2 h => by
    cases h
    exact ⟨rfl, fun _ => rfl⟩

theorem checked_lrn_forward_desc_init (q : Bool) (env : Env) (alg : AlgKind)
    (data_md : mkldnn_memory_desc_t) (local_size : Nat) (alpha beta k : DecLit) :
    Checked q (mkldnn_lrn_forward_desc_init env alg data_md local_size alpha beta k) :=
  checked_libcall fun w a w2 h => by
    cases h
    exact ⟨rfl, fun _ => rfl⟩

theorem checked_pooling_forward_desc_init (q : Bool) (env : Env) (alg : AlgKind)
    (src_md dst_md : mkldnn_memory_desc_t) (strides kernel padding_l padding_r : List Int) :
    Checked q (mkldnn_pooling_forward_desc_init env alg src_md dst_md strides kernel
      padding_l padding_r) :=
  checked_libcall fun w a w2 h => by
    cases h
    exact ⟨rfl, fun _ => rfl⟩

theorem checked_stream_create (q : Bool) (env : Env) (engine : mkldnn_engine_t) :
    Checked q (mkldnn_stream_create env engine) :=
  checked_libcall fun w a w2 h => by
    split at h
    · cases h
    · cases h
      exact ⟨rfl, fun _ => rfl⟩

theorem checked_primitive_execute (env : Env) (p : mkldnn_primitive_t)
    (stream : mkldnn_stream_t) (node : args_t) :
    Checked false (mkldnn_primitive_execute env p stream node) := by
  unfold mkldnn_primitive_execute
  refine checked_ite (checked_undefined _) ?_
  split
  · exact checked_undefined _
  · refine checked_libcall fun w a w2 h => ?_
    split at h
    · cases h
      exact ⟨rfl, fun hq => Bool.noConfusion hq⟩
    · cases h

theorem checked_stream_destroy (q : Bool) (env : Env) (s : mkldnn_stream_t) :
    Checked q (mkldnn_stream_destroy env s) :=
  checked_libcall fun w a w2 h => by
    cases h
    exact ⟨rfl, fun _ => executions_snoc _ _ rfl⟩

theorem checked_memory_destroy (q : Bool) (env : Env) (m : mkldnn_memory_t) :
    Checked q (mkldnn_memory_destroy env m) :=
  checked_libcall fun w a w2 h => by
    cases h
    exact ⟨rfl, fun _ => executions_snoc _ _ rfl⟩

theorem checked_primitive_destroy (q : Bool) (env : Env) (p : mkldnn_primitive_t) :
    Checked q (mkldnn_primitive_destroy env p) :=
  checked_libcall fun w a w2 h => by
    cases h
    exact ⟨rfl, fun _ => executions_snoc _ _ rfl⟩

theorem checked_engine_destroy (q : Bool) (env : Env) (e : mkldnn_engine_t) :
    Checked q (mkldnn_engine_destroy env e) :=
  checked_libcall fun w a w2 h => by
    cases h
    exact ⟨rfl, fun _ => executions_snoc _ _ rfl⟩

/-! ### The functions of the example keep the discipline -/

theorem checked_init_data_memory (q : Bool) (env : Env) (dim : Nat) (dims : List Int)
    (user_fmt : mkldnn_memory_format_t) (data_type : mkldnn_data_type_t)
    (engine : mkldnn_engine_t) (data : Ptr) :
    Checked q (init_data_memory env dim dims user_fmt data_type engine data) := by
  unfold init_data_memory
  exact
    checked_bind (checked_CHECK (checked_memory_desc_init q _ _ _ _ _)) fun _ =>
    checked_bind (checked_CHECK (checked_memory_primitive_desc_create q _ _ _)) fun _ =>
    checked_bind (checked_CHECK (checked_memory_create q _ _ _)) fun _ =>
    checked_bind (checked_CHECK (checked_memory_get_data_handle q _ _)) fun _ =>
    checked_bind (checked_CHECK_TRUE q _) fun _ =>
    checked_bind (checked_CHECK (checked_memory_set_data_handle q _ _ _)) fun _ =>
    checked_bind (checked_CHECK (checked_memory_get_data_handle q _ _)) fun _ =>
    checked_bind (checked_CHECK_TRUE q _) fun _ =>
    checked_bind (checked_CHECK (checked_primitive_desc_destroy q _ _)) fun _ =>
    checked_pure q _

theorem checked_prepare_reorder (q : Bool) (env : Env) (user_memory : mkldnn_memory_t)
    (prim_memory_pd : MemPd) (dir_is_user_to_prim : Int) (buffer : Ptr) (net_index : Nat)
    (net : List (Option mkldnn_primitive_t)) (net_args : List (Option args_t)) :
    Checked q (prepare_reorder env user_memory prim_memory_pd dir_is_user_to_prim buffer
      net_index net net_args) := by
  unfold prepare_reorder
  dsimp only
  repeat' first
    | with_reducible exact checked_pure q _
    | with_reducible refine checked_bind ?_ (fun _ => ?_)
    | with_reducible refine checked_ite ?_ ?_
    | with_reducible exact checked_unchecked (checked_memory_get_primitive_desc q _ _)
    | with_reducible exact checked_net_store q _ _ _
    | with_reducible exact checked_prepare_arg_node q _ _
    | with_reducible exact checked_store q _ _ _
    | with_reducible exact checked_set_arg_at q _ _ _ _ _
    | with_reducible exact checked_CHECK (checked_memory_create q _ _ _)
    | with_reducible exact checked_CHECK (checked_reorder_primitive_desc_create q _ _ _)
    | with_reducible exact checked_CHECK (checked_primitive_create q _ _)
    | with_reducible exact checked_CHECK (checked_memory_set_data_handle q _ _ _)
    | with_reducible exact checked_CHECK (checked_primitive_desc_destroy q _ _)

theorem checked_simple_net_build (q : Bool) (env : Env) : Checked q (simple_net_build env) := by
  unfold simple_net_build
  dsimp only
  repeat' first
    | with_reducible exact checked_pure q _
    | with_reducible refine checked_bind ?_ (fun _ => ?_)
    | with_reducible exact checked_CHECK (checked_prepare_reorder q _ _ _ _ _ _ _ _)
    | with_reducible exact checked_init_data_memory q _ _ _ _ _ _ _
    | with_reducible exact checked_defined q _
    | with_reducible exact checked_aligned_malloc q _ _ _
    | with_reducible exact checked_net_store q _ _ _
    | with_reducible exact checked_prepare_arg_node q _ _
    | with_reducible exact checked_store q _ _ _
    | with_reducible exact checked_set_arg_at q _ _ _ _ _
    | exact checked_emit q _ rfl
    | with_reducible exact checked_CHECK (checked_engine_create q _)
    | with_reducible exact checked_CHECK (checked_memory_desc_init q _ _ _ _ _)
    | with_reducible exact
        checked_CHECK (checked_convolution_forward_desc_init q _ _ _ _ _ _ _ _ _)
    | with_reducible exact checked_CHECK (checked_eltwise_forward_desc_init q _ _ _ _ _)
    | with_reducible exact checked_CHECK (checked_lrn_forward_desc_init q _ _ _ _ _ _ _)
    | with_reducible exact checked_CHECK (checked_pooling_forward_desc_init q _ _ _ _ _ _ _ _)
    | with_reducible exact checked_CHECK (checked_primitive_desc_create q _ _ _)
    | with_reducible exact checked_CHECK (checked_memory_create q _ _ _)
    | with_reducible exact checked_CHECK (checked_memory_set_data_handle q _ _ _)
    | with_reducible exact checked_CHECK (checked_primitive_create q _ _)

theorem checked_simple_net_execute (env : Env) (L : Locals) :
    Checked false (simple_net_execute env L) := by
  unfold simple_net_execute
  refine checked_bind (checked_CHECK (checked_stream_create _ _ _)) fun stream => ?_
  refine checked_bind (checked_for_each (fun i => ?_) _) fun _ => checked_pure _ _
  exact checked_bind (checked_load _ _ _) fun _ =>
    checked_bind (checked_load _ _ _) fun _ =>
    checked_CHECK (checked_primitive_execute _ _ _ _)

theorem checked_simple_net_cleanup (q : Bool) (env : Env) (L : Locals)
    (stream : mkldnn_stream_t) : Checked q (simple_net_cleanup env L stream) := by
  unfold simple_net_cleanup
  refine checked_bind (checked_for_each (fun _ =>
    checked_bind (checked_load q _ _) fun _ => checked_free_arg_node q _) _) (fun _ => ?_)
  repeat' first
    | with_reducible exact checked_pure q _
    | with_reducible refine checked_bind ?_ (fun _ => ?_)
    | with_reducible exact checked_CHECK (checked_primitive_desc_destroy q _ _)
    | with_reducible exact checked_free q _
    | with_reducible exact checked_ignored (checked_stream_destroy q _ _)
    | with_reducible exact checked_ignored (checked_memory_destroy q _ _)
    | with_reducible exact checked_ignored (checked_primitive_destroy q _ _)
    | with_reducible exact checked_ignored (checked_engine_destroy q _ _)

theorem checked_weaken {α : Type} {m : M α} (h : Checked true m) : Checked false m := by
  intro w
  have h1 := h w
  cases hm : m w with
  | ret a w1 =>
    rw [hm] at h1
    exact ⟨h1.1, fun hq => Bool.noConfusion hq⟩
  | exited c w1 =>
    rw [hm] at h1
    exact ⟨h1.1, h1.2.1, fun hq => Bool.noConfusion hq⟩
  | ub => exact trivial

theorem checked_simple_net (env : Env) : Checked false (simple_net env) := by
  unfold simple_net
  exact checked_bind (checked_simple_net_build false env) fun _ =>
    checked_bind (checked_simple_net_execute env _) fun _ =>
    checked_bind (checked_simple_net_cleanup false env _ _) fun _ => checked_pure _ _

theorem bind_ret_inv {α β : Type} {m : M α} {f : α → M β} {w w2 : World} {b : β}
    (h : (m >>= f) w = .ret b w2) : ∃ a w1, m w = .ret a w1 ∧ f a w1 = .ret b w2 := by
  cases hm : m w with
  | ret a w1 =>
    rw [bind_ret hm] at h
    exact ⟨a, w1, rfl, h⟩
  | exited c w1 =>
    rw [bind_exited hm] at h
    cases h
  | ub =>
    rw [bind_ub hm] at h
    cases h

theorem libcall_returns {α : Type} (env : Env) (eff : World → Option (α × World))
    (w : World) : ∃ r w1, libcall env eff w = .ret r w1 := by
  by_cases hs : env.status w.calls = mkldnn_success
  · cases he : eff { w with calls := w.calls + 1 } with
    | none => exact ⟨_, _, libcall_invalid hs he⟩
    | some p =>
      obtain ⟨a, w2⟩ := p
      exact ⟨_, _, libcall_ok hs he⟩
  · exact ⟨_, _, libcall_fail hs⟩

/-- C10 (counterexample): a failing library call terminates the process instead of being
returned.  In `prepare_reorder`, when `mkldnn_memory_create` (library call number 8 of the
world `world_one_memory`, in which 7 calls have been made) answers
`mkldnn_out_of_memory`, the outcome is `exit(2)` after the status has been printed; in
`simple_net`, when the first call, `mkldnn_engine_create`, answers `mkldnn_runtime_error`,
the outcome is `exit(2)` as well.  Neither function returns the failing status. -/
theorem failing_call_exits :
    prepare_reorder (env_failing true false false 8 mkldnn_out_of_memory) 1 pd_blocked_src 1
        8192 0 net3 net_args3 world_one_memory
      = .exited 2 { world_one_memory with
          calls := 9, out := [Msg.error_returns mkldnn_out_of_memory] }
    ∧ simple_net (env_failing false false false 0 mkldnn_runtime_error) World.init
      = .exited 2 { World.init with
          calls := 1, out := [Msg.error_returns mkldnn_runtime_error] } :=
  ⟨rfl, rfl⟩

/-! ## Stepping through a run whose first failing library call is number `j` -/

theorem bind_assoc_M {α β γ : Type} (m : M α) (g : α → M β) (f : β → M γ) :
    (m >>= g) >>= f = m >>= fun a => g a >>= f := by
  funext w
  show M.bind (M.bind m g) f w = M.bind m (fun a => M.bind (g a) f) w
  unfold M.bind
  cases m w <;> rfl

theorem CHECK_bind {α β : Type} (m : M (Ret α)) (f : α → M β) (w : World) :
    (CHECK m >>= f) w = (m >>= fun r => CHECK (pure r) >>= f) w := by
  cases h : m w with
  | ret r w1 =>
    rw [bind_ret h]
    have h1 : CHECK m w = CHECK (pure r) w1 := by
      unfold CHECK
      rw [bind_ret h]
      rfl
    cases h2 : CHECK (pure r : M (Ret α)) w1 with
    | ret a w2 => rw [bind_ret (h1.trans h2), bind_ret h2]
    | exited c w2 => rw [bind_exited (h1.trans h2), bind_exited h2]
    | ub => rw [bind_ub (h1.trans h2), bind_ub h2]
  | exited c w1 =>
    have h1 : CHECK m w = .exited c w1 := by
      unfold CHECK
      exact bind_exited h
    rw [bind_exited h1, bind_exited h]
  | ub =>
    have h1 : CHECK m w = .ub := by
      unfold CHECK
      exact bind_ub h
    rw [bind_ub h1, bind_ub h]

theorem step_ret {α β : Type} {G : Outcome β → Prop} {m : M α} {f : α → M β}
    {w w1 : World} {a : α} (h : m w = .ret a w1) (hp : G (f a w1)) : G ((m >>= f) w) := by
  rw [bind_ret h]
  exact hp

/-- Stepping over a checked library call in a run whose first failing call is `j`: when
the call is `j` the process exits there, otherwise the call succeeds and the run goes
on. -/
theorem step_call {α β : Type} {G : Outcome β → Prop} {env : Env} {j c : Nat}
    {eff : World → Option (α × World)} {f : α → M β} {w w2 : World} {a : α}
    (hpre : ∀ i, i < j → env.status i = mkldnn_success)
    (hj : env.status j ≠ mkldnn_success)
    (hc : c ≤ j) (hcw : w.calls = c)
    (hstop : ∀ w1 : World, w1.calls = j + 1 →
      w1.out = w.out ++ [Msg.error_returns (env.status j)] →
      c < w1.calls → w1.calls ≤ c + 1 → G (.exited 2 w1))
    (he : eff { w with calls := w.calls + 1 } = some (a, w2))
    (hcont : c + 1 ≤ j → G (f a w2)) :
    G ((CHECK (libcall env eff) >>= f) w) := by
  rcases Nat.lt_or_ge c j with h | h
  · have hs : env.status w.calls = mkldnn_success := by
      rw [hcw]
      exact hpre c h
    rw [bind_ret (CHECK_libcall hs he)]
    exact hcont h
  · have hjc : j = c := Nat.le_antisymm h hc
    have hs : env.status w.calls ≠ mkldnn_success := by
      rw [hcw, ← hjc]
      exact hj
    rw [bind_exited (CHECK_fail (libcall_fail hs) hs)]
    refine hstop _ ?_ ?_ ?_ ?_
    · show w.calls + 1 = j + 1
      omega
    · show w.out ++ [Msg.error_returns (env.status w.calls)] = _
      rw [hcw, hjc]
    · show c < w.calls + 1
      omega
    · show w.calls + 1 ≤ c + 1
      omega

/-- Stepping over a checked `mkldnn_memory_desc_init`. -/
theorem step_desc_init {β : Type} {G : Outcome β → Prop} {env : Env} {j c : Nat}
    {f : mkldnn_memory_desc_t → M β} {w : World} (ndims : Nat) (dims : List Int)
    (data_type : mkldnn_data_type_t) (format : mkldnn_memory_format_t)
    (hpre : ∀ i, i < j → env.status i = mkldnn_success)
    (hj : env.status j ≠ mkldnn_success)
    (hc : c ≤ j) (hcw : w.calls = c)
    (hstop : ∀ w1 : World, w1.calls = j + 1 →
      w1.out = w.out ++ [Msg.error_returns (env.status j)] →
      c < w1.calls → w1.calls ≤ c + 1 → G (.exited 2 w1))
    (hdim : ndims ≤ dims.length) (hnz : ndims ≠ 0)
    (hpos : (dims.take ndims).any (fun d => d ≤ 0) = false)
    (hcont : c + 1 ≤ j →
      G (f { dims := dims.take ndims, data_type := data_type, format := format }
        (World.mk (w.calls + 1) w.heap w.engines w.streams w.mems w.prims w.trace w.out))) :
    G ((CHECK (mkldnn_memory_desc_init env ndims dims data_type format) >>= f) w) := by
  unfold mkldnn_memory_desc_init
  rw [if_pos hdim]
  exact step_call hpre hj hc hcw hstop (by simp [hnz, hpos]) hcont

/-- Stepping over "create a memory object, allocate its buffer, bind the buffer". -/
theorem step_memory_with_buffer {β : Type} {G : Outcome β → Prop} {env : Env} {j c : Nat}
    {F : mkldnn_memory_t → Ptr → M β} {w : World} (pd : MemPd) (size : Nat)
    (hpre : ∀ i, i < j → env.status i = mkldnn_success)
    (hj : env.status j ≠ mkldnn_success)
    (hc : c ≤ j) (hcw : w.calls = c)
    (hstop : ∀ w1 : World, w1.calls = j + 1 →
      w1.out = w.out ++ [Msg.error_returns (env.status j)] →
      c < w1.calls → w1.calls ≤ c + 2 → G (.exited 2 w1))
    (hcont : c + 2 ≤ j → G (F (w.mems.length + 1) (env.alloc w.heap.length)
      (World.mk (w.calls + 2)
        (w.heap ++ [{ size := size, alignment := 64, ptr := env.alloc w.heap.length }])
        w.engines w.streams
        (w.mems ++ [{ pd := pd, handle := env.alloc w.heap.length }]) w.prims w.trace
        w.out))) :
    G ((CHECK (mkldnn_memory_create env pd NULL) >>= fun m =>
      aligned_malloc env size 64 >>= fun buf =>
      CHECK (mkldnn_memory_set_data_handle env m buf) >>= fun _ => F m buf) w) := by
  refine step_call hpre hj hc hcw
    (fun w1 h1 h2 h3 h4 => hstop w1 h1 h2 h3 (by omega)) rfl (fun hc1 => ?_)
  refine step_ret rfl ?_
  refine step_call hpre hj hc1 (by rw [← hcw])
    (fun w1 h1 h2 h3 h4 => hstop w1 h1 h2 (by omega) h4)
    (set_handle_new _ _ _ _ _ _ _ _ _ _ _) (fun hc2 => ?_)
  exact hcont hc2

/-- Stepping over `init_data_memory` (seven checked library calls). -/
theorem step_init_data_memory {β : Type} {G : Outcome β → Prop} {env : Env} {j c : Nat}
    {f : mkldnn_memory_t → M β} {w : World} (dim : Nat) (dims : List Int)
    (user_fmt : mkldnn_memory_format_t) (data_type : mkldnn_data_type_t)
    (engine : mkldnn_engine_t) (data : Ptr)
    (hpre : ∀ i, i < j → env.status i = mkldnn_success)
    (hj : env.status j ≠ mkldnn_success)
    (hc : c ≤ j) (hcw : w.calls = c)
    (hstop : ∀ w1 : World, w1.calls = j + 1 →
      w1.out = w.out ++ [Msg.error_returns (env.status j)] →
      c < w1.calls → w1.calls ≤ c + 7 → G (.exited 2 w1))
    (hdim : dim ≤ dims.length) (hnz : dim ≠ 0)
    (hpos : (dims.take dim).any (fun d => d ≤ 0) = false)
    (heng : engine ≠ NULL)
    (hcont : c + 7 ≤ j → G (f (w.mems.length + 1)
      { calls := w.calls + 7
        heap := w.heap
        engines := w.engines
        streams := w.streams
        mems := w.mems ++
          [{ pd := { md := { dims := dims.take dim, data_type := data_type,
                             format := user_fmt }, engine := engine }, handle := data }]
        prims := w.prims
        trace := w.trace ++
          [.primitive_desc_destroy (.memory
            { md := { dims := dims.take dim, data_type := data_type, format := user_fmt },
              engine := engine })]
        out := w.out })) :
    G ((init_data_memory env dim dims user_fmt data_type engine data >>= f) w) := by
  by_cases h7 : c + 7 ≤ j
  · refine step_ret (init_data_memory_ok env w dim dims user_fmt data_type engine data
      (fun i hi => ?_) hdim hnz hpos heng) (hcont h7)
    rw [hcw]
    exact hpre _ (by omega)
  · unfold init_data_memory
    simp only [bind_assoc_M]
    refine step_desc_init dim dims data_type user_fmt hpre hj hc hcw
      (fun w1 h1 h2 h3 h4 => hstop w1 h1 h2 h3 (by omega)) hdim hnz hpos (fun hc1 => ?_)
    refine step_call hpre hj hc1 (by rw [← hcw])
      (fun w1 h1 h2 h3 h4 => hstop w1 h1 h2 (by omega) (by omega))
      (by simp only [heng, if_false]; rfl) (fun hc2 => ?_)
    refine step_call hpre hj hc2 (by rw [← hcw])
      (fun w1 h1 h2 h3 h4 => hstop w1 h1 h2 (by omega) (by omega)) rfl (fun hc3 => ?_)
    refine step_call hpre hj hc3 (by rw [← hcw])
      (fun w1 h1 h2 h3 h4 => hstop w1 h1 h2 (by omega) (by omega))
      (get_handle_new _ _ _ _ _ _ _ _ _) (fun hc4 => ?_)
    refine step_ret (CHECK_TRUE_beq _ _) ?_
    refine step_call hpre hj hc4 (by rw [← hcw])
      (fun w1 h1 h2 h3 h4 => hstop w1 h1 h2 (by omega) (by omega))
      (set_handle_new _ _ _ _ _ _ _ _ _ _ _) (fun hc5 => ?_)
    refine step_call hpre hj hc5 (by rw [← hcw])
      (fun w1 h1 h2 h3 h4 => hstop w1 h1 h2 (by omega) (by omega))
      (get_handle_new _ _ _ _ _ _ _ _ _) (fun hc6 => ?_)
    refine step_ret (CHECK_TRUE_beq _ _) ?_
    refine step_call hpre hj hc6 (by rw [← hcw])
      (fun w1 h1 h2 h3 h4 => hstop w1 h1 h2 (by omega) (by omega)) rfl (fun hc7 => ?_)
    exact absurd hc7 h7

/-- Stepping over a checked call of `prepare_reorder`: the behaviour is undefined when the
unchecked first call is the failing one; otherwise the run goes on without a reorder, goes
on with the reorder appended, or the process exits at one of the five checked calls. -/
theorem step_prepare_reorder {β : Type} {G : Outcome β → Prop} {env : Env} {j c : Nat}
    {f : reorder_out → M β} (w : World) (U : mkldnn_memory_t) (o : MemObj) (R : MemPd)
    (dir : Int) (buffer : Ptr) (k : Nat) (net : List (Option mkldnn_primitive_t))
    (net_args : List (Option args_t))
    (hpre : ∀ i, i < j → env.status i = mkldnn_success)
    (hj : env.status j ≠ mkldnn_success)
    (hc : c ≤ j) (hcw : w.calls = c) (halloc : ∀ i, env.alloc i ≠ NULL)
    (hU : w.mem U = some o) (hk : k < net.length) (hk2 : k < net_args.length)
    (hub : j = c → G .ub)
    (hstop : ∀ w1 : World, w1.calls = j + 1 →
      w1.out = w.out ++ [Msg.error_returns (env.status j)] →
      c < w1.calls → w1.calls ≤ c + 6 → G (.exited 2 w1))
    (heq : mismatch w U R = false → c + 1 ≤ j →
      G (f { prim_memory := NULL, reorder := NULL, net_index := k, net := net,
             net_args := net_args }
        (World.mk (w.calls + 1) w.heap w.engines w.streams w.mems w.prims w.trace w.out)))
    (hne : mismatch w U R = true → c + 6 ≤ j →
      G (f { prim_memory := w.mems.length + 1
             reorder := w.prims.length + 1
             net_index := (k + 1) % UINT32_MOD
             net := net.set k (some (w.prims.length + 1))
             net_args := net_args.set k (some
               { nargs := 2, args := env.alloc w.heap.length,
                 cells := [some ⟨MKLDNN_ARG_FROM, if dir ≠ 0 then U else w.mems.length + 1⟩,
                           some ⟨MKLDNN_ARG_TO, if dir ≠ 0 then w.mems.length + 1 else U⟩] }) }
        (World.mk (w.calls + 6)
          (w.heap ++ [{ size := 32, alignment := 1, ptr := env.alloc w.heap.length }])
          w.engines w.streams (w.mems ++ [{ pd := R, handle := buffer }])
          (w.prims ++ [.reorder (if dir ≠ 0 then o.pd else R) (if dir ≠ 0 then R else o.pd)])
          (w.trace ++
            [.primitive_desc_destroy
                (.reorder (if dir ≠ 0 then o.pd else R) (if dir ≠ 0 then R else o.pd)),
             .net_store k (w.prims.length + 1)])
          w.out))) :
    G ((CHECK (prepare_reorder env U R dir buffer k net net_args) >>= f) w) := by
  rcases Nat.lt_or_ge c j with h | h
  swap
  · have hjc : j = c := Nat.le_antisymm h hc
    have hs : env.status w.calls ≠ mkldnn_success := by
      rw [hcw, ← hjc]
      exact hj
    have hp : prepare_reorder env U R dir buffer k net net_args w = .ub := by
      unfold prepare_reorder
      exact bind_ub (unchecked_fail (libcall_fail hs))
    have hp2 : CHECK (prepare_reorder env U R dir buffer k net net_args) w = .ub := by
      unfold CHECK
      exact bind_ub hp
    rw [bind_ub hp2]
    exact hub hjc
  have h0 : env.status w.calls = mkldnn_success := by
    rw [hcw]
    exact hpre c h
  cases hq : mkldnn_memory_primitive_desc_equal o.pd R with
  | true =>
    have hm : mismatch w U R = false := by rw [mismatch_of_mem R hU, hq]; rfl
    exact step_ret (CHECK_ok
      (prepare_reorder_skipped env w U o R dir buffer k net net_args h0 hU hq)) (heq hm h)
  | false =>
    have hm : mismatch w U R = true := by rw [mismatch_of_mem R hU, hq]; rfl
    by_cases h6 : c + 6 ≤ j
    · refine step_ret (CHECK_ok
        (prepare_reorder_created env w U o R dir buffer k net net_args (fun i hi => ?_)
          (halloc _) hU hq hk hk2)) (hne hm h6)
      rw [hcw]
      exact hpre _ (by omega)
    · have hU1 : World.mem { w with calls := w.calls + 1 } U = some o := hU
      rw [CHECK_bind]
      unfold prepare_reorder
      simp only [bind_assoc_M]
      refine step_ret (unchecked_libcall h0 (by rw [hU1]; rfl)) ?_
      simp only [hq, Bool.not_false, if_true, bind_assoc_M]
      refine step_call hpre hj h (by rw [← hcw])
        (fun w1 h1 h2 h3 h4 => hstop w1 h1 h2 (by omega) (by omega)) rfl (fun hc2 => ?_)
      by_cases hd : dir = 0 <;>
      (
        simp only [hd, ne_eq, not_true_eq_false, not_false_eq_true, if_true, if_false,
          bind_assoc_M]
        refine step_call hpre hj hc2 (by rw [← hcw])
          (fun w1 h1 h2 h3 h4 => hstop w1 h1 h2 (by omega) (by omega)) rfl (fun hc3 => ?_)
        refine step_call hpre hj hc3 (by rw [← hcw])
          (fun w1 h1 h2 h3 h4 => hstop w1 h1 h2 (by omega) (by omega)) rfl (fun hc4 => ?_)
        refine step_call hpre hj hc4 (by rw [← hcw])
          (fun w1 h1 h2 h3 h4 => hstop w1 h1 h2 (by omega) (by omega))
          (set_handle_new _ _ _ _ _ _ _ _ _ _ _) (fun hc5 => ?_)
        refine step_call hpre hj hc5 (by rw [← hcw])
          (fun w1 h1 h2 h3 h4 => hstop w1 h1 h2 (by omega) (by omega)) rfl (fun hc6 => ?_)
        exact absurd hc6 h6
      )

/-! ### How the build ends when call `j` is the first to fail -/

theorem stops_exited {α : Type} {env : Env} {j : Nat} {P : World → Prop} {w : World}
    (h1 : w.calls = j + 1) (h2 : w.out = [Msg.error_returns (env.status j)]) (h3 : P w) :
    (Outcome.exited 2 w : Outcome α).stops env j P := by
  unfold Outcome.stops
  exact ⟨rfl, h1, h2, h3⟩

theorem stops_iff {α : Type} {env : Env} {j : Nat} {P : World → Prop} {o : Outcome α} :
    o.stops env j P ↔ ∃ w, o = .exited 2 w ∧ w.calls = j + 1
      ∧ w.out = [Msg.error_returns (env.status j)] ∧ P w := by
  cases o with
  | ret a w =>
    unfold Outcome.stops
    constructor
    · intro h
      exact h.elim
    · rintro ⟨w1, h1, _⟩
      cases h1
  | exited c w =>
    unfold Outcome.stops
    constructor
    · rintro ⟨h1, h2, h3, h4⟩
      subst h1
      exact ⟨w, rfl, h2, h3, h4⟩
    · rintro ⟨w1, h1, h2, h3, h4⟩
      cases h1
      exact ⟨rfl, h2, h3, h4⟩
  | ub =>
    unfold Outcome.stops
    constructor
    · intro h
      exact h.elim
    · rintro ⟨w1, h1, _⟩
      cases h1

theorem bo_stop (env : Env) (j c n : Nat) (out0 : List Msg) (hout0 : out0 = [])
    (hb : c + n ≤ 74) :
    ∀ w1 : World, w1.calls = j + 1 →
      w1.out = out0 ++ [Msg.error_returns (env.status j)] →
      c < w1.calls → w1.calls ≤ c + n → BuildOutcome env j (.exited 2 w1) := by
  intro w1 h1 h2 _ h4
  subst hout0
  exact Or.inl (stops_exited h1 h2 (by omega))

theorem bo_ub (env : Env) (j c : Nat)
    (hmem : c = 30 ∨ c = 31 ∨ c = 36 ∨ c = 57 ∨ c = 62 ∨ c = 67) :
    j = c → BuildOutcome env j .ub := by
  intro h
  subst h
  exact Or.inr (Or.inl ⟨rfl, hmem⟩)

theorem bo_ret (env : Env) (j : Nat) {L : Locals} {w : World} (hc : w.calls ≤ j)
    (hF : ∃ a b c, BuildFacts env a b c L w ∧
      w.calls = 59 + 5 * (a.toNat + b.toNat + c.toNat)) :
    BuildOutcome env j ((pure L : M Locals) w) :=
  Or.inr (Or.inr (returns_pure ⟨hc, hF⟩))

set_option maxHeartbeats 4000000 in
set_option maxRecDepth 100000 in
/-- Lines 160-442 in a run whose first failing library call is number `j` (every
allocation succeeding): the process exits at call `j`, or the behaviour is undefined
because call `j` is an unchecked `mkldnn_memory_get_primitive_desc`, or the net is
assembled before call `j` is reached. -/
theorem simple_net_build_outcome (env : Env) (halloc : ∀ i, env.alloc i ≠ NULL) (j : Nat)
    (hpre : ∀ i, i < j → env.status i = mkldnn_success)
    (hj : env.status j ≠ mkldnn_success) :
    BuildOutcome env j (simple_net_build env World.init) := by
  have hc : 0 ≤ j := Nat.zero_le j
  unfold simple_net_build
  dsimp only [World.init]
  refine step_call hpre hj hc rfl (bo_stop env j _ 1 _ rfl (of_decide_eq_true rfl)) rfl
    (fun hc => ?_)
  dsimp only [List.nil_append, List.cons_append, List.length_cons, List.length_nil,
    List.set_cons_zero, List.set_cons_succ, u32_inc, u32_sub, UINT32_MOD, Nat.reduceAdd,
    Nat.reduceMod, Nat.reducePow, Nat.reduceSub]
  dsimp only [Nat.reduceAdd] at hc
  refine step_ret rfl ?_
  dsimp only [List.nil_append, List.cons_append, List.length_cons, List.length_nil,
    List.set_cons_zero, List.set_cons_succ, u32_inc, u32_sub, UINT32_MOD, Nat.reduceAdd,
    Nat.reduceMod, Nat.reducePow, Nat.reduceSub]
  refine step_ret rfl ?_
  dsimp only [List.nil_append, List.cons_append, List.length_cons, List.length_nil,
    List.set_cons_zero, List.set_cons_succ, u32_inc, u32_sub, UINT32_MOD, Nat.reduceAdd,
    Nat.reduceMod, Nat.reducePow, Nat.reduceSub]
  refine step_ret rfl ?_
  dsimp only [List.nil_append, List.cons_append, List.length_cons, List.length_nil,
    List.set_cons_zero, List.set_cons_succ, u32_inc, u32_sub, UINT32_MOD, Nat.reduceAdd,
    Nat.reduceMod, Nat.reducePow, Nat.reduceSub]
  refine step_ret rfl ?_
  dsimp only [List.nil_append, List.cons_append, List.length_cons, List.length_nil,
    List.set_cons_zero, List.set_cons_succ, u32_inc, u32_sub, UINT32_MOD, Nat.reduceAdd,
    Nat.reduceMod, Nat.reducePow, Nat.reduceSub]
  refine step_ret rfl ?_
  dsimp only [List.nil_append, List.cons_append, List.length_cons, List.length_nil,
    List.set_cons_zero, List.set_cons_succ, u32_inc, u32_sub, UINT32_MOD, Nat.reduceAdd,
    Nat.reduceMod, Nat.reducePow, Nat.reduceSub]
  refine step_ret rfl ?_
  dsimp only [List.nil_append, List.cons_append, List.length_cons, List.length_nil,
    List.set_cons_zero, List.set_cons_succ, u32_inc, u32_sub, UINT32_MOD, Nat.reduceAdd,
    Nat.reduceMod, Nat.reducePow, Nat.reduceSub]
  refine step_ret rfl ?_
  dsimp only [List.nil_append, List.cons_append, List.length_cons, List.length_nil,
    List.set_cons_zero, List.set_cons_succ, u32_inc, u32_sub, UINT32_MOD, Nat.reduceAdd,
    Nat.reduceMod, Nat.reducePow, Nat.reduceSub]
  refine step_ret rfl ?_
  dsimp only [List.nil_append, List.cons_append, List.length_cons, List.length_nil,
    List.set_cons_zero, List.set_cons_succ, u32_inc, u32_sub, UINT32_MOD, Nat.reduceAdd,
    Nat.reduceMod, Nat.reducePow, Nat.reduceSub]
  refine step_init_data_memory _ _ _ _ _ _ hpre hj hc rfl (bo_stop env j _ 7 _ rfl (of_decide_eq_true rfl))
    (of_decide_eq_true rfl) (of_decide_eq_true rfl) (of_decide_eq_true rfl) (of_decide_eq_true rfl) (fun hc => ?_)
  dsimp only [List.nil_append, List.cons_append, List.length_cons, List.length_nil,
    List.set_cons_zero, List.set_cons_succ, u32_inc, u32_sub, UINT32_MOD, Nat.reduceAdd,
    Nat.reduceMod, Nat.reducePow, Nat.reduceSub]
  dsimp only [Nat.reduceAdd] at hc
  refine step_init_data_memory _ _ _ _ _ _ hpre hj hc rfl (bo_stop env j _ 7 _ rfl (of_decide_eq_true rfl))
    (of_decide_eq_true rfl) (of_decide_eq_true rfl) (of_decide_eq_true rfl) (of_decide_eq_true rfl) (fun hc => ?_)
  dsimp only [List.nil_append, List.cons_append, List.length_cons, List.length_nil,
    List.set_cons_zero, List.set_cons_succ, u32_inc, u32_sub, UINT32_MOD, Nat.reduceAdd,
    Nat.reduceMod, Nat.reducePow, Nat.reduceSub]
  dsimp only [Nat.reduceAdd] at hc
  refine step_init_data_memory _ _ _ _ _ _ hpre hj hc rfl (bo_stop env j _ 7 _ rfl (of_decide_eq_true rfl))
    (of_decide_eq_true rfl) (of_decide_eq_true rfl) (of_decide_eq_true rfl) (of_decide_eq_true rfl) (fun hc => ?_)
  dsimp only [List.nil_append, List.cons_append, List.length_cons, List.length_nil,
    List.set_cons_zero, List.set_cons_succ, u32_inc, u32_sub, UINT32_MOD, Nat.reduceAdd,
    Nat.reduceMod, Nat.reducePow, Nat.reduceSub]
  dsimp only [Nat.reduceAdd] at hc
  refine step_desc_init _ _ _ _ hpre hj hc rfl (bo_stop env j _ 1 _ rfl (of_decide_eq_true rfl))
    (of_decide_eq_true rfl) (of_decide_eq_true rfl) (of_decide_eq_true rfl) (fun hc => ?_)
  dsimp only [List.nil_append, List.cons_append, List.length_cons, List.length_nil,
    List.set_cons_zero, List.set_cons_succ, u32_inc, u32_sub, UINT32_MOD, Nat.reduceAdd,
    Nat.reduceMod, Nat.reducePow, Nat.reduceSub]
  dsimp only [Nat.reduceAdd] at hc
  refine step_desc_init _ _ _ _ hpre hj hc rfl (bo_stop env j _ 1 _ rfl (of_decide_eq_true rfl))
    (of_decide_eq_true rfl) (of_decide_eq_true rfl) (of_decide_eq_true rfl) (fun hc => ?_)
  dsimp only [List.nil_append, List.cons_append, List.length_cons, List.length_nil,
    List.set_cons_zero, List.set_cons_succ, u32_inc, u32_sub, UINT32_MOD, Nat.reduceAdd,
    Nat.reduceMod, Nat.reducePow, Nat.reduceSub]
  dsimp only [Nat.reduceAdd] at hc
  refine step_desc_init _ _ _ _ hpre hj hc rfl (bo_stop env j _ 1 _ rfl (of_decide_eq_true rfl))
    (of_decide_eq_true rfl) (of_decide_eq_true rfl) (of_decide_eq_true rfl) (fun hc => ?_)
  dsimp only [List.nil_append, List.cons_append, List.length_cons, List.length_nil,
    List.set_cons_zero, List.set_cons_succ, u32_inc, u32_sub, UINT32_MOD, Nat.reduceAdd,
    Nat.reduceMod, Nat.reducePow, Nat.reduceSub]
  dsimp only [Nat.reduceAdd] at hc
  refine step_desc_init _ _ _ _ hpre hj hc rfl (bo_stop env j _ 1 _ rfl (of_decide_eq_true rfl))
    (of_decide_eq_true rfl) (of_decide_eq_true rfl) (of_decide_eq_true rfl) (fun hc => ?_)
  dsimp only [List.nil_append, List.cons_append, List.length_cons, List.length_nil,
    List.set_cons_zero, List.set_cons_succ, u32_inc, u32_sub, UINT32_MOD, Nat.reduceAdd,
    Nat.reduceMod, Nat.reducePow, Nat.reduceSub]
  dsimp only [Nat.reduceAdd] at hc
  refine step_call hpre hj hc rfl (bo_stop env j _ 1 _ rfl (of_decide_eq_true rfl)) rfl
    (fun hc => ?_)
  dsimp only [List.nil_append, List.cons_append, List.length_cons, List.length_nil,
    List.set_cons_zero, List.set_cons_succ, u32_inc, u32_sub, UINT32_MOD, Nat.reduceAdd,
    Nat.reduceMod, Nat.reducePow, Nat.reduceSub]
  dsimp only [Nat.reduceAdd] at hc
  refine step_call hpre hj hc rfl (bo_stop env j _ 1 _ rfl (of_decide_eq_true rfl)) rfl
    (fun hc => ?_)
  dsimp only [List.nil_append, List.cons_append, List.length_cons, List.length_nil,
    List.set_cons_zero, List.set_cons_succ, u32_inc, u32_sub, UINT32_MOD, Nat.reduceAdd,
    Nat.reduceMod, Nat.reducePow, Nat.reduceSub]
  dsimp only [Nat.reduceAdd] at hc
  refine step_memory_with_buffer _ _ hpre hj hc rfl (bo_stop env j _ 2 _ rfl (of_decide_eq_true rfl))
    (fun hc => ?_)
  dsimp only [List.nil_append, List.cons_append, List.length_cons, List.length_nil,
    List.set_cons_zero, List.set_cons_succ, u32_inc, u32_sub, UINT32_MOD, Nat.reduceAdd,
    Nat.reduceMod, Nat.reducePow, Nat.reduceSub]
  dsimp only [Nat.reduceAdd] at hc
  refine step_ret rfl ?_
  dsimp only [List.nil_append, List.cons_append, List.length_cons, List.length_nil,
    List.set_cons_zero, List.set_cons_succ, u32_inc, u32_sub, UINT32_MOD, Nat.reduceAdd,
    Nat.reduceMod, Nat.reducePow, Nat.reduceSub]
  refine step_prepare_reorder _ _ _ _ _ _ _ _ _ hpre hj hc rfl halloc rfl (of_decide_eq_true rfl)
    (of_decide_eq_true rfl) (bo_ub env j _ (of_decide_eq_true rfl)) (bo_stop env j _ 6 _ rfl (of_decide_eq_true rfl))
    (fun h1 hc => ?_) (fun h1 hc => ?_) <;>
  dsimp only <;>
  (try dsimp only [Nat.reduceAdd] at hc) <;>
  try simp only [List.nil_append, List.cons_append, List.length_cons, List.length_nil,
    List.length_set, List.length_replicate, List.set_cons_zero, List.set_cons_succ, u32_inc,
    u32_sub, UINT32_MOD, NULL, Nat.reduceAdd, Nat.reduceMod, Nat.reducePow, Nat.reduceSub,
    Nat.reduceEqDiff, ne_eq, not_false_eq_true, not_true_eq_false, if_true, if_false, one_ne_zero,
    Int.toNat_ofNat, Int.reduceToNat]
  all_goals
    refine step_ret rfl ?_
    dsimp only [List.nil_append, List.cons_append, List.length_cons, List.length_nil,
      List.set_cons_zero, List.set_cons_succ, u32_inc, u32_sub, UINT32_MOD, Nat.reduceAdd,
      Nat.reduceMod, Nat.reducePow, Nat.reduceSub]
    refine step_prepare_reorder _ _ _ _ _ _ _ _ _ hpre hj hc rfl halloc rfl (of_decide_eq_true rfl)
      (of_decide_eq_true rfl) (bo_ub env j _ (of_decide_eq_true rfl)) (bo_stop env j _ 6 _ rfl (of_decide_eq_true rfl))
      (fun h2 hc => ?_) (fun h2 hc => ?_) <;>
    dsimp only <;>
    (try dsimp only [Nat.reduceAdd] at hc) <;>
    try simp only [List.nil_append, List.cons_append, List.length_cons, List.length_nil,
      List.length_set, List.length_replicate, List.set_cons_zero, List.set_cons_succ, u32_inc,
      u32_sub, UINT32_MOD, NULL, Nat.reduceAdd, Nat.reduceMod, Nat.reducePow, Nat.reduceSub,
      Nat.reduceEqDiff, ne_eq, not_false_eq_true, not_true_eq_false, if_true, if_false,
      one_ne_zero, Int.toNat_ofNat, Int.reduceToNat]
  all_goals
    refine step_call hpre hj hc rfl (bo_stop env j _ 1 _ rfl (of_decide_eq_true rfl)) rfl
      (fun hc => ?_)
    dsimp only [List.nil_append, List.cons_append, List.length_cons, List.length_nil,
      List.set_cons_zero, List.set_cons_succ, u32_inc, u32_sub, UINT32_MOD, Nat.reduceAdd,
      Nat.reduceMod, Nat.reducePow, Nat.reduceSub]
    dsimp only [Nat.reduceAdd] at hc
    refine step_ret (net_store_ok _ _ (of_decide_eq_true rfl)) ?_
    dsimp only [List.nil_append, List.cons_append, List.length_cons, List.length_nil,
      List.set_cons_zero, List.set_cons_succ, u32_inc, u32_sub, UINT32_MOD, Nat.reduceAdd,
      Nat.reduceMod, Nat.reducePow, Nat.reduceSub]
    refine step_ret rfl ?_
    dsimp only [List.nil_append, List.cons_append, List.length_cons, List.length_nil,
      List.set_cons_zero, List.set_cons_succ, u32_inc, u32_sub, UINT32_MOD, Nat.reduceAdd,
      Nat.reduceMod, Nat.reducePow, Nat.reduceSub]
    refine step_ret (store_ok _ _ (of_decide_eq_true rfl)) ?_
    dsimp only [List.nil_append, List.cons_append, List.length_cons, List.length_nil,
      List.set_cons_zero, List.set_cons_succ, u32_inc, u32_sub, UINT32_MOD, Nat.reduceAdd,
      Nat.reduceMod, Nat.reducePow, Nat.reduceSub]
    refine step_ret (set_arg_step _ _ _ _ _ _ _ _ _ (of_decide_eq_true rfl) (halloc _)
      (of_decide_eq_true rfl)) ?_
    dsimp only [List.nil_append, List.cons_append, List.length_cons, List.length_nil,
      List.set_cons_zero, List.set_cons_succ, u32_inc, u32_sub, UINT32_MOD, Nat.reduceAdd,
      Nat.reduceMod, Nat.reducePow, Nat.reduceSub]
    refine step_ret (set_arg_step _ _ _ _ _ _ _ _ _ (of_decide_eq_true rfl) (halloc _)
      (of_decide_eq_true rfl)) ?_
    dsimp only [List.nil_append, List.cons_append, List.length_cons, List.length_nil,
      List.set_cons_zero, List.set_cons_succ, u32_inc, u32_sub, UINT32_MOD, Nat.reduceAdd,
      Nat.reduceMod, Nat.reducePow, Nat.reduceSub]
    refine step_ret (set_arg_step _ _ _ _ _ _ _ _ _ (of_decide_eq_true rfl) (halloc _)
      (of_decide_eq_true rfl)) ?_
    dsimp only [List.nil_append, List.cons_append, List.length_cons, List.length_nil,
      List.set_cons_zero, List.set_cons_succ, u32_inc, u32_sub, UINT32_MOD, Nat.reduceAdd,
      Nat.reduceMod, Nat.reducePow, Nat.reduceSub]
    refine step_ret (set_arg_step _ _ _ _ _ _ _ _ _ (of_decide_eq_true rfl) (halloc _)
      (of_decide_eq_true rfl)) ?_
    dsimp only [List.nil_append, List.cons_append, List.length_cons, List.length_nil,
      List.set_cons_zero, List.set_cons_succ, u32_inc, u32_sub, UINT32_MOD, Nat.reduceAdd,
      Nat.reduceMod, Nat.reducePow, Nat.reduceSub]
    refine step_call hpre hj hc rfl (bo_stop env j _ 1 _ rfl (of_decide_eq_true rfl)) rfl
      (fun hc => ?_)
    dsimp only [List.nil_append, List.cons_append, List.length_cons, List.length_nil,
      List.set_cons_zero, List.set_cons_succ, u32_inc, u32_sub, UINT32_MOD, Nat.reduceAdd,
      Nat.reduceMod, Nat.reducePow, Nat.reduceSub]
    dsimp only [Nat.reduceAdd] at hc
    refine step_call hpre hj hc rfl (bo_stop env j _ 1 _ rfl (of_decide_eq_true rfl)) rfl
      (fun hc => ?_)
    dsimp only [List.nil_append, List.cons_append, List.length_cons, List.length_nil,
      List.set_cons_zero, List.set_cons_succ, u32_inc, u32_sub, UINT32_MOD, Nat.reduceAdd,
      Nat.reduceMod, Nat.reducePow, Nat.reduceSub]
    dsimp only [Nat.reduceAdd] at hc
    refine step_memory_with_buffer _ _ hpre hj hc rfl (bo_stop env j _ 2 _ rfl (of_decide_eq_true rfl))
      (fun hc => ?_)
    dsimp only [List.nil_append, List.cons_append, List.length_cons, List.length_nil,
      List.set_cons_zero, List.set_cons_succ, u32_inc, u32_sub, UINT32_MOD, Nat.reduceAdd,
      Nat.reduceMod, Nat.reducePow, Nat.reduceSub]
    dsimp only [Nat.reduceAdd] at hc
    refine step_call hpre hj hc rfl (bo_stop env j _ 1 _ rfl (of_decide_eq_true rfl)) rfl
      (fun hc => ?_)
    dsimp only [List.nil_append, List.cons_append, List.length_cons, List.length_nil,
      List.set_cons_zero, List.set_cons_succ, u32_inc, u32_sub, UINT32_MOD, Nat.reduceAdd,
      Nat.reduceMod, Nat.reducePow, Nat.reduceSub]
    dsimp only [Nat.reduceAdd] at hc
    refine step_ret (net_store_ok _ _ (of_decide_eq_true rfl)) ?_
    dsimp only [List.nil_append, List.cons_append, List.length_cons, List.length_nil,
      List.set_cons_zero, List.set_cons_succ, u32_inc, u32_sub, UINT32_MOD, Nat.reduceAdd,
      Nat.reduceMod, Nat.reducePow, Nat.reduceSub]
    refine step_ret rfl ?_
    dsimp only [List.nil_append, List.cons_append, List.length_cons, List.length_nil,
      List.set_cons_zero, List.set_cons_succ, u32_inc, u32_sub, UINT32_MOD, Nat.reduceAdd,
      Nat.reduceMod, Nat.reducePow, Nat.reduceSub]
    refine step_ret (store_ok _ _ (of_decide_eq_true rfl)) ?_
    dsimp only [List.nil_append, List.cons_append, List.length_cons, List.length_nil,
      List.set_cons_zero, List.set_cons_succ, u32_inc, u32_sub, UINT32_MOD, Nat.reduceAdd,
      Nat.reduceMod, Nat.reducePow, Nat.reduceSub]
    refine step_ret (set_arg_step _ _ _ _ _ _ _ _ _ (of_decide_eq_true rfl) (halloc _)
      (of_decide_eq_true rfl)) ?_
    dsimp only [List.nil_append, List.cons_append, List.length_cons, List.length_nil,
      List.set_cons_zero, List.set_cons_succ, u32_inc, u32_sub, UINT32_MOD, Nat.reduceAdd,
      Nat.reduceMod, Nat.reducePow, Nat.reduceSub]
    refine step_ret (set_arg_step _ _ _ _ _ _ _ _ _ (of_decide_eq_true rfl) (halloc _)
      (of_decide_eq_true rfl)) ?_
    dsimp only [List.nil_append, List.cons_append, List.length_cons, List.length_nil,
      List.set_cons_zero, List.set_cons_succ, u32_inc, u32_sub, UINT32_MOD, Nat.reduceAdd,
      Nat.reduceMod, Nat.reducePow, Nat.reduceSub]
    refine step_call hpre hj hc rfl (bo_stop env j _ 1 _ rfl (of_decide_eq_true rfl)) rfl
      (fun hc => ?_)
    dsimp only [List.nil_append, List.cons_append, List.length_cons, List.length_nil,
      List.set_cons_zero, List.set_cons_succ, u32_inc, u32_sub, UINT32_MOD, Nat.reduceAdd,
      Nat.reduceMod, Nat.reducePow, Nat.reduceSub]
    dsimp only [Nat.reduceAdd] at hc
    refine step_call hpre hj hc rfl (bo_stop env j _ 1 _ rfl (of_decide_eq_true rfl)) rfl
      (fun hc => ?_)
    dsimp only [List.nil_append, List.cons_append, List.length_cons, List.length_nil,
      List.set_cons_zero, List.set_cons_succ, u32_inc, u32_sub, UINT32_MOD, Nat.reduceAdd,
      Nat.reduceMod, Nat.reducePow, Nat.reduceSub]
    dsimp only [Nat.reduceAdd] at hc
    refine step_memory_with_buffer _ _ hpre hj hc rfl (bo_stop env j _ 2 _ rfl (of_decide_eq_true rfl))
      (fun hc => ?_)
    dsimp only [List.nil_append, List.cons_append, List.length_cons, List.length_nil,
      List.set_cons_zero, List.set_cons_succ, u32_inc, u32_sub, UINT32_MOD, Nat.reduceAdd,
      Nat.reduceMod, Nat.reducePow, Nat.reduceSub]
    dsimp only [Nat.reduceAdd] at hc
    refine step_memory_with_buffer _ _ hpre hj hc rfl (bo_stop env j _ 2 _ rfl (of_decide_eq_true rfl))
      (fun hc => ?_)
    dsimp only [List.nil_append, List.cons_append, List.length_cons, List.length_nil,
      List.set_cons_zero, List.set_cons_succ, u32_inc, u32_sub, UINT32_MOD, Nat.reduceAdd,
      Nat.reduceMod, Nat.reducePow, Nat.reduceSub]
    dsimp only [Nat.reduceAdd] at hc
    refine step_call hpre hj hc rfl (bo_stop env j _ 1 _ rfl (of_decide_eq_true rfl)) rfl
      (fun hc => ?_)
    dsimp only [List.nil_append, List.cons_append, List.length_cons, List.length_nil,
      List.set_cons_zero, List.set_cons_succ, u32_inc, u32_sub, UINT32_MOD, Nat.reduceAdd,
      Nat.reduceMod, Nat.reducePow, Nat.reduceSub]
    dsimp only [Nat.reduceAdd] at hc
    refine step_ret (net_store_ok _ _ (of_decide_eq_true rfl)) ?_
    dsimp only [List.nil_append, List.cons_append, List.length_cons, List.length_nil,
      List.set_cons_zero, List.set_cons_succ, u32_inc, u32_sub, UINT32_MOD, Nat.reduceAdd,
      Nat.reduceMod, Nat.reducePow, Nat.reduceSub]
    refine step_ret rfl ?_
    dsimp only [List.nil_append, List.cons_append, List.length_cons, List.length_nil,
      List.set_cons_zero, List.set_cons_succ, u32_inc, u32_sub, UINT32_MOD, Nat.reduceAdd,
      Nat.reduceMod, Nat.reducePow, Nat.reduceSub]
    refine step_ret (store_ok _ _ (of_decide_eq_true rfl)) ?_
    dsimp only [List.nil_append, List.cons_append, List.length_cons, List.length_nil,
      List.set_cons_zero, List.set_cons_succ, u32_inc, u32_sub, UINT32_MOD, Nat.reduceAdd,
      Nat.reduceMod, Nat.reducePow, Nat.reduceSub]
    refine step_ret (set_arg_step _ _ _ _ _ _ _ _ _ (of_decide_eq_true rfl) (halloc _)
      (of_decide_eq_true rfl)) ?_
    dsimp only [List.nil_append, List.cons_append, List.length_cons, List.length_nil,
      List.set_cons_zero, List.set_cons_succ, u32_inc, u32_sub, UINT32_MOD, Nat.reduceAdd,
      Nat.reduceMod, Nat.reducePow, Nat.reduceSub]
    refine step_ret (set_arg_step _ _ _ _ _ _ _ _ _ (of_decide_eq_true rfl) (halloc _)
      (of_decide_eq_true rfl)) ?_
    dsimp only [List.nil_append, List.cons_append, List.length_cons, List.length_nil,
      List.set_cons_zero, List.set_cons_succ, u32_inc, u32_sub, UINT32_MOD, Nat.reduceAdd,
      Nat.reduceMod, Nat.reducePow, Nat.reduceSub]
    refine step_ret (set_arg_step _ _ _ _ _ _ _ _ _ (of_decide_eq_true rfl) (halloc _)
      (of_decide_eq_true rfl)) ?_
    dsimp only [List.nil_append, List.cons_append, List.length_cons, List.length_nil,
      List.set_cons_zero, List.set_cons_succ, u32_inc, u32_sub, UINT32_MOD, Nat.reduceAdd,
      Nat.reduceMod, Nat.reducePow, Nat.reduceSub]
    refine step_desc_init _ _ _ _ hpre hj hc rfl (bo_stop env j _ 1 _ rfl (of_decide_eq_true rfl))
      (of_decide_eq_true rfl) (of_decide_eq_true rfl) (of_decide_eq_true rfl) (fun hc => ?_)
    dsimp only [List.nil_append, List.cons_append, List.length_cons, List.length_nil,
      List.set_cons_zero, List.set_cons_succ, u32_inc, u32_sub, UINT32_MOD, Nat.reduceAdd,
      Nat.reduceMod, Nat.reducePow, Nat.reduceSub]
    dsimp only [Nat.reduceAdd] at hc
    refine step_init_data_memory _ _ _ _ _ _ hpre hj hc rfl (bo_stop env j _ 7 _ rfl (of_decide_eq_true rfl))
      (of_decide_eq_true rfl) (of_decide_eq_true rfl) (of_decide_eq_true rfl) (of_decide_eq_true rfl) (fun hc => ?_)
    dsimp only [List.nil_append, List.cons_append, List.length_cons, List.length_nil,
      List.set_cons_zero, List.set_cons_succ, u32_inc, u32_sub, UINT32_MOD, Nat.reduceAdd,
      Nat.reduceMod, Nat.reducePow, Nat.reduceSub]
    dsimp only [Nat.reduceAdd] at hc
    refine step_call hpre hj hc rfl (bo_stop env j _ 1 _ rfl (of_decide_eq_true rfl)) rfl
      (fun hc => ?_)
    dsimp only [List.nil_append, List.cons_append, List.length_cons, List.length_nil,
      List.set_cons_zero, List.set_cons_succ, u32_inc, u32_sub, UINT32_MOD, Nat.reduceAdd,
      Nat.reduceMod, Nat.reducePow, Nat.reduceSub]
    dsimp only [Nat.reduceAdd] at hc
    refine step_call hpre hj hc rfl (bo_stop env j _ 1 _ rfl (of_decide_eq_true rfl)) rfl
      (fun hc => ?_)
    dsimp only [List.nil_append, List.cons_append, List.length_cons, List.length_nil,
      List.set_cons_zero, List.set_cons_succ, u32_inc, u32_sub, UINT32_MOD, Nat.reduceAdd,
      Nat.reduceMod, Nat.reducePow, Nat.reduceSub]
    dsimp only [Nat.reduceAdd] at hc
    refine step_memory_with_buffer _ _ hpre hj hc rfl (bo_stop env j _ 2 _ rfl (of_decide_eq_true rfl))
      (fun hc => ?_)
    dsimp only [List.nil_append, List.cons_append, List.length_cons, List.length_nil,
      List.set_cons_zero, List.set_cons_succ, u32_inc, u32_sub, UINT32_MOD, Nat.reduceAdd,
      Nat.reduceMod, Nat.reducePow, Nat.reduceSub]
    dsimp only [Nat.reduceAdd] at hc
    refine step_ret rfl ?_
    dsimp only [List.nil_append, List.cons_append, List.length_cons, List.length_nil,
      List.set_cons_zero, List.set_cons_succ, u32_inc, u32_sub, UINT32_MOD, Nat.reduceAdd,
      Nat.reduceMod, Nat.reducePow, Nat.reduceSub]
    refine step_prepare_reorder _ _ _ _ _ _ _ _ _ hpre hj hc rfl halloc rfl (of_decide_eq_true rfl)
      (of_decide_eq_true rfl) (bo_ub env j _ (of_decide_eq_true rfl)) (bo_stop env j _ 6 _ rfl (of_decide_eq_true rfl))
      (fun h3 hc => ?_) (fun h3 hc => ?_) <;>
    dsimp only <;>
    (try dsimp only [Nat.reduceAdd] at hc) <;>
    try simp only [List.nil_append, List.cons_append, List.length_cons, List.length_nil,
      List.length_set, List.length_replicate, List.set_cons_zero, List.set_cons_succ, u32_inc,
      u32_sub, UINT32_MOD, NULL, Nat.reduceAdd, Nat.reduceMod, Nat.reducePow, Nat.reduceSub,
      Nat.reduceEqDiff, ne_eq, not_false_eq_true, not_true_eq_false, if_true, if_false,
      one_ne_zero, Int.toNat_ofNat, Int.reduceToNat]
  all_goals
    refine step_ret rfl ?_
    dsimp only [List.nil_append, List.cons_append, List.length_cons, List.length_nil,
      List.set_cons_zero, List.set_cons_succ, u32_inc, u32_sub, UINT32_MOD, Nat.reduceAdd,
      Nat.reduceMod, Nat.reducePow, Nat.reduceSub]
    refine step_call hpre hj hc rfl (bo_stop env j _ 1 _ rfl (of_decide_eq_true rfl)) rfl
      (fun hc => ?_)
    dsimp only [List.nil_append, List.cons_append, List.length_cons, List.length_nil,
      List.set_cons_zero, List.set_cons_succ, u32_inc, u32_sub, UINT32_MOD, Nat.reduceAdd,
      Nat.reduceMod, Nat.reducePow, Nat.reduceSub]
    dsimp only [Nat.reduceAdd] at hc
    refine step_ret (net_store_ok _ _ (of_decide_eq_true rfl)) ?_
    dsimp only [List.nil_append, List.cons_append, List.length_cons, List.length_nil,
      List.set_cons_zero, List.set_cons_succ, u32_inc, u32_sub, UINT32_MOD, Nat.reduceAdd,
      Nat.reduceMod, Nat.reducePow, Nat.reduceSub]
    refine step_ret rfl ?_
    dsimp only [List.nil_append, List.cons_append, List.length_cons, List.length_nil,
      List.set_cons_zero, List.set_cons_succ, u32_inc, u32_sub, UINT32_MOD, Nat.reduceAdd,
      Nat.reduceMod, Nat.reducePow, Nat.reduceSub]
    refine step_ret (store_ok _ _ (of_decide_eq_true rfl)) ?_
    dsimp only [List.nil_append, List.cons_append, List.length_cons, List.length_nil,
      List.set_cons_zero, List.set_cons_succ, u32_inc, u32_sub, UINT32_MOD, Nat.reduceAdd,
      Nat.reduceMod, Nat.reducePow, Nat.reduceSub]
    refine step_ret (set_arg_step _ _ _ _ _ _ _ _ _ (of_decide_eq_true rfl) (halloc _)
      (of_decide_eq_true rfl)) ?_
    dsimp only [List.nil_append, List.cons_append, List.length_cons, List.length_nil,
      List.set_cons_zero, List.set_cons_succ, u32_inc, u32_sub, UINT32_MOD, Nat.reduceAdd,
      Nat.reduceMod, Nat.reducePow, Nat.reduceSub]
    refine step_ret (set_arg_step _ _ _ _ _ _ _ _ _ (of_decide_eq_true rfl) (halloc _)
      (of_decide_eq_true rfl)) ?_
    dsimp only [List.nil_append, List.cons_append, List.length_cons, List.length_nil,
      List.set_cons_zero, List.set_cons_succ, u32_inc, u32_sub, UINT32_MOD, Nat.reduceAdd,
      Nat.reduceMod, Nat.reducePow, Nat.reduceSub]
    refine step_ret (set_arg_step _ _ _ _ _ _ _ _ _ (of_decide_eq_true rfl) (halloc _)
      (of_decide_eq_true rfl)) ?_
    dsimp only [List.nil_append, List.cons_append, List.length_cons, List.length_nil,
      List.set_cons_zero, List.set_cons_succ, u32_inc, u32_sub, UINT32_MOD, Nat.reduceAdd,
      Nat.reduceMod, Nat.reducePow, Nat.reduceSub]
  · refine bo_ret env j hc ⟨false, false, false, ?_, rfl⟩
    exact
      { src := h1
        weights := h2
        dst := h3
        ready := by
          intro i hi
          have hi : i < 4 := hi
          interval_cases i <;> exact ⟨_, _, _, rfl, rfl, halloc _, rfl, rfl⟩
        engine_ok := Nat.succ_ne_zero 0
        exec_order := fun _ => rfl
        exec_all := fun _ => rfl
        src_at := fun h => Bool.noConfusion h
        weights_at := fun h => Bool.noConfusion h
        dst_at := fun h => Bool.noConfusion h
        src_reorder_cells := fun h => Bool.noConfusion h
        weights_reorder_cells := fun h => Bool.noConfusion h
        dst_reorder_cells := fun h => Bool.noConfusion h
        n_eq := rfl
        net_len := rfl
        args_len := rfl
        net_eq := rfl
        net_rest := rfl
        conv_prim := rfl
        relu_prim := rfl
        lrn_prim := rfl
        pool_prim := rfl
        src_reorder := rfl
        weights_reorder := rfl
        dst_reorder := rfl
        src_null := rfl
        weights_null := rfl
        dst_null := rfl
        src_sel := rfl
        weights_sel := rfl
        dst_sel := rfl
        src_internal := rfl
        weights_internal := rfl
        dst_internal := rfl
        src_user := rfl
        weights_user := rfl
        dst_user := rfl
        conv_cells := rfl
        relu_cells := rfl
        lrn_cells := rfl
        pool_cells := rfl
        written := rfl
        written_at := rfl
        not_executed := rfl
        subs := rfl
        quiet := rfl
        heap_src := rfl
        heap_dst := rfl
        conv_dims := rfl
        conv_arrays := rfl
        pool_dst_dims := rfl
        pool_arrays := rfl
        conv_kind := rfl
        pool_kind := rfl
        conv_resolved := rfl
        pool_resolved := rfl
        executed_none := rfl
        ptrs_len := rfl
        dst_ne := rfl
        conv_at := rfl
        relu_at := rfl
        lrn_at := rfl
        pool_at := rfl
        args_rest := rfl }
  · refine bo_ret env j hc ⟨false, false, true, ?_, rfl⟩
    exact
      { src := h1
        weights := h2
        dst := h3
        ready := by
          intro i hi
          have hi : i < 5 := hi
          interval_cases i <;> exact ⟨_, _, _, rfl, rfl, halloc _, rfl, rfl⟩
        engine_ok := Nat.succ_ne_zero 0
        exec_order := fun _ => rfl
        exec_all := fun _ => rfl
        src_at := fun h => Bool.noConfusion h
        weights_at := fun h => Bool.noConfusion h
        dst_at := fun _ => rfl
        src_reorder_cells := fun h => Bool.noConfusion h
        weights_reorder_cells := fun h => Bool.noConfusion h
        dst_reorder_cells := fun _ => rfl
        n_eq := rfl
        net_len := rfl
        args_len := rfl
        net_eq := rfl
        net_rest := rfl
        conv_prim := rfl
        relu_prim := rfl
        lrn_prim := rfl
        pool_prim := rfl
        src_reorder := rfl
        weights_reorder := rfl
        dst_reorder := rfl
        src_null := rfl
        weights_null := rfl
        dst_null := rfl
        src_sel := rfl
        weights_sel := rfl
        dst_sel := rfl
        src_internal := rfl
        weights_internal := rfl
        dst_internal := rfl
        src_user := rfl
        weights_user := rfl
        dst_user := rfl
        conv_cells := rfl
        relu_cells := rfl
        lrn_cells := rfl
        pool_cells := rfl
        written := rfl
        written_at := rfl
        not_executed := rfl
        subs := rfl
        quiet := rfl
        heap_src := rfl
        heap_dst := rfl
        conv_dims := rfl
        conv_arrays := rfl
        pool_dst_dims := rfl
        pool_arrays := rfl
        conv_kind := rfl
        pool_kind := rfl
        conv_resolved := rfl
        pool_resolved := rfl
        executed_none := rfl
        ptrs_len := rfl
        dst_ne := rfl
        conv_at := rfl
        relu_at := rfl
        lrn_at := rfl
        pool_at := rfl
        args_rest := rfl }
  · refine bo_ret env j hc ⟨false, true, false, ?_, rfl⟩
    exact
      { src := h1
        weights := h2
        dst := h3
        ready := by
          intro i hi
          have hi : i < 5 := hi
          interval_cases i <;> exact ⟨_, _, _, rfl, rfl, halloc _, rfl, rfl⟩
        engine_ok := Nat.succ_ne_zero 0
        exec_order := fun _ => rfl
        exec_all := fun _ => rfl
        src_at := fun h => Bool.noConfusion h
        weights_at := fun _ => rfl
        dst_at := fun h => Bool.noConfusion h
        src_reorder_cells := fun h => Bool.noConfusion h
        weights_reorder_cells := fun _ => rfl
        dst_reorder_cells := fun h => Bool.noConfusion h
        n_eq := rfl
        net_len := rfl
        args_len := rfl
        net_eq := rfl
        net_rest := rfl
        conv_prim := rfl
        relu_prim := rfl
        lrn_prim := rfl
        pool_prim := rfl
        src_reorder := rfl
        weights_reorder := rfl
        dst_reorder := rfl
        src_null := rfl
        weights_null := rfl
        dst_null := rfl
        src_sel := rfl
        weights_sel := rfl
        dst_sel := rfl
        src_internal := rfl
        weights_internal := rfl
        dst_internal := rfl
        src_user := rfl
        weights_user := rfl
        dst_user := rfl
        conv_cells := rfl
        relu_cells := rfl
        lrn_cells := rfl
        pool_cells := rfl
        written := rfl
        written_at := rfl
        not_executed := rfl
        subs := rfl
        quiet := rfl
        heap_src := rfl
        heap_dst := rfl
        conv_dims := rfl
        conv_arrays := rfl
        pool_dst_dims := rfl
        pool_arrays := rfl
        conv_kind := rfl
        pool_kind := rfl
        conv_resolved := rfl
        pool_resolved := rfl
        executed_none := rfl
        ptrs_len := rfl
        dst_ne := rfl
        conv_at := rfl
        relu_at := rfl
        lrn_at := rfl
        pool_at := rfl
        args_rest := rfl }
  · refine bo_ret env j hc ⟨false, true, true, ?_, rfl⟩
    exact
      { src := h1
        weights := h2
        dst := h3
        ready := by
          intro i hi
          have hi : i < 6 := hi
          interval_cases i <;> exact ⟨_, _, _, rfl, rfl, halloc _, rfl, rfl⟩
        engine_ok := Nat.succ_ne_zero 0
        exec_order := fun _ => rfl
        exec_all := fun _ => rfl
        src_at := fun h => Bool.noConfusion h
        weights_at := fun _ => rfl
        dst_at := fun _ => rfl
        src_reorder_cells := fun h => Bool.noConfusion h
        weights_reorder_cells := fun _ => rfl
        dst_reorder_cells := fun _ => rfl
        n_eq := rfl
        net_len := rfl
        args_len := rfl
        net_eq := rfl
        net_rest := rfl
        conv_prim := rfl
        relu_prim := rfl
        lrn_prim := rfl
        pool_prim := rfl
        src_reorder := rfl
        weights_reorder := rfl
        dst_reorder := rfl
        src_null := rfl
        weights_null := rfl
        dst_null := rfl
        src_sel := rfl
        weights_sel := rfl
        dst_sel := rfl
        src_internal := rfl
        weights_internal := rfl
        dst_internal := rfl
        src_user := rfl
        weights_user := rfl
        dst_user := rfl
        conv_cells := rfl
        relu_cells := rfl
        lrn_cells := rfl
        pool_cells := rfl
        written := rfl
        written_at := rfl
        not_executed := rfl
        subs := rfl
        quiet := rfl
        heap_src := rfl
        heap_dst := rfl
        conv_dims := rfl
        conv_arrays := rfl
        pool_dst_dims := rfl
        pool_arrays := rfl
        conv_kind := rfl
        pool_kind := rfl
        conv_resolved := rfl
        pool_resolved := rfl
        executed_none := rfl
        ptrs_len := rfl
        dst_ne := rfl
        conv_at := rfl
        relu_at := rfl
        lrn_at := rfl
        pool_at := rfl
        args_rest := rfl }
  · refine bo_ret env j hc ⟨true, false, false, ?_, rfl⟩
    exact
      { src := h1
        weights := h2
        dst := h3
        ready := by
          intro i hi
          have hi : i < 5 := hi
          interval_cases i <;> exact ⟨_, _, _, rfl, rfl, halloc _, rfl, rfl⟩
        engine_ok := Nat.succ_ne_zero 0
        exec_order := fun _ => rfl
        exec_all := fun _ => rfl
        src_at := fun _ => rfl
        weights_at := fun h => Bool.noConfusion h
        dst_at := fun h => Bool.noConfusion h
        src_reorder_cells := fun _ => rfl
        weights_reorder_cells := fun h => Bool.noConfusion h
        dst_reorder_cells := fun h => Bool.noConfusion h
        n_eq := rfl
        net_len := rfl
        args_len := rfl
        net_eq := rfl
        net_rest := rfl
        conv_prim := rfl
        relu_prim := rfl
        lrn_prim := rfl
        pool_prim := rfl
        src_reorder := rfl
        weights_reorder := rfl
        dst_reorder := rfl
        src_null := rfl
        weights_null := rfl
        dst_null := rfl
        src_sel := rfl
        weights_sel := rfl
        dst_sel := rfl
        src_internal := rfl
        weights_internal := rfl
        dst_internal := rfl
        src_user := rfl
        weights_user := rfl
        dst_user := rfl
        conv_cells := rfl
        relu_cells := rfl
        lrn_cells := rfl
        pool_cells := rfl
        written := rfl
        written_at := rfl
        not_executed := rfl
        subs := rfl
        quiet := rfl
        heap_src := rfl
        heap_dst := rfl
        conv_dims := rfl
        conv_arrays := rfl
        pool_dst_dims := rfl
        pool_arrays := rfl
        conv_kind := rfl
        pool_kind := rfl
        conv_resolved := rfl
        pool_resolved := rfl
        executed_none := rfl
        ptrs_len := rfl
        dst_ne := rfl
        conv_at := rfl
        relu_at := rfl
        lrn_at := rfl
        pool_at := rfl
        args_rest := rfl }
  · refine bo_ret env j hc ⟨true, false, true, ?_, rfl⟩
    exact
      { src := h1
        weights := h2
        dst := h3
        ready := by
          intro i hi
          have hi : i < 6 := hi
          interval_cases i <;> exact ⟨_, _, _, rfl, rfl, halloc _, rfl, rfl⟩
        engine_ok := Nat.succ_ne_zero 0
        exec_order := fun _ => rfl
        exec_all := fun _ => rfl
        src_at := fun _ => rfl
        weights_at := fun h => Bool.noConfusion h
        dst_at := fun _ => rfl
        src_reorder_cells := fun _ => rfl
        weights_reorder_cells := fun h => Bool.noConfusion h
        dst_reorder_cells := fun _ => rfl
        n_eq := rfl
        net_len := rfl
        args_len := rfl
        net_eq := rfl
        net_rest := rfl
        conv_prim := rfl
        relu_prim := rfl
        lrn_prim := rfl
        pool_prim := rfl
        src_reorder := rfl
        weights_reorder := rfl
        dst_reorder := rfl
        src_null := rfl
        weights_null := rfl
        dst_null := rfl
        src_sel := rfl
        weights_sel := rfl
        dst_sel := rfl
        src_internal := rfl
        weights_internal := rfl
        dst_internal := rfl
        src_user := rfl
        weights_user := rfl
        dst_user := rfl
        conv_cells := rfl
        relu_cells := rfl
        lrn_cells := rfl
        pool_cells := rfl
        written := rfl
        written_at := rfl
        not_executed := rfl
        subs := rfl
        quiet := rfl
        heap_src := rfl
        heap_dst := rfl
        conv_dims := rfl
        conv_arrays := rfl
        pool_dst_dims := rfl
        pool_arrays := rfl
        conv_kind := rfl
        pool_kind := rfl
        conv_resolved := rfl
        pool_resolved := rfl
        executed_none := rfl
        ptrs_len := rfl
        dst_ne := rfl
        conv_at := rfl
        relu_at := rfl
        lrn_at := rfl
        pool_at := rfl
        args_rest := rfl }
  · refine bo_ret env j hc ⟨true, true, false, ?_, rfl⟩
    exact
      { src := h1
        weights := h2
        dst := h3
        ready := by
          intro i hi
          have hi : i < 6 := hi
          interval_cases i <;> exact ⟨_, _, _, rfl, rfl, halloc _, rfl, rfl⟩
        engine_ok := Nat.succ_ne_zero 0
        exec_order := fun _ => rfl
        exec_all := fun _ => rfl
        src_at := fun _ => rfl
        weights_at := fun _ => rfl
        dst_at := fun h => Bool.noConfusion h
        src_reorder_cells := fun _ => rfl
        weights_reorder_cells := fun _ => rfl
        dst_reorder_cells := fun h => Bool.noConfusion h
        n_eq := rfl
        net_len := rfl
        args_len := rfl
        net_eq := rfl
        net_rest := rfl
        conv_prim := rfl
        relu_prim := rfl
        lrn_prim := rfl
        pool_prim := rfl
        src_reorder := rfl
        weights_reorder := rfl
        dst_reorder := rfl
        src_null := rfl
        weights_null := rfl
        dst_null := rfl
        src_sel := rfl
        weights_sel := rfl
        dst_sel := rfl
        src_internal := rfl
        weights_internal := rfl
        dst_internal := rfl
        src_user := rfl
        weights_user := rfl
        dst_user := rfl
        conv_cells := rfl
        relu_cells := rfl
        lrn_cells := rfl
        pool_cells := rfl
        written := rfl
        written_at := rfl
        not_executed := rfl
        subs := rfl
        quiet := rfl
        heap_src := rfl
        heap_dst := rfl
        conv_dims := rfl
        conv_arrays := rfl
        pool_dst_dims := rfl
        pool_arrays := rfl
        conv_kind := rfl
        pool_kind := rfl
        conv_resolved := rfl
        pool_resolved := rfl
        executed_none := rfl
        ptrs_len := rfl
        dst_ne := rfl
        conv_at := rfl
        relu_at := rfl
        lrn_at := rfl
        pool_at := rfl
        args_rest := rfl }
  · refine bo_ret env j hc ⟨true, true, true, ?_, rfl⟩
    exact
      { src := h1
        weights := h2
        dst := h3
        ready := by
          intro i hi
          have hi : i < 7 := hi
          interval_cases i <;> exact ⟨_, _, _, rfl, rfl, halloc _, rfl, rfl⟩
        engine_ok := Nat.succ_ne_zero 0
        exec_order := fun _ => rfl
        exec_all := fun _ => rfl
        src_at := fun _ => rfl
        weights_at := fun _ => rfl
        dst_at := fun _ => rfl
        src_reorder_cells := fun _ => rfl
        weights_reorder_cells := fun _ => rfl
        dst_reorder_cells := fun _ => rfl
        n_eq := rfl
        net_len := rfl
        args_len := rfl
        net_eq := rfl
        net_rest := rfl
        conv_prim := rfl
        relu_prim := rfl
        lrn_prim := rfl
        pool_prim := rfl
        src_reorder := rfl
        weights_reorder := rfl
        dst_reorder := rfl
        src_null := rfl
        weights_null := rfl
        dst_null := rfl
        src_sel := rfl
        weights_sel := rfl
        dst_sel := rfl
        src_internal := rfl
        weights_internal := rfl
        dst_internal := rfl
        src_user := rfl
        weights_user := rfl
        dst_user := rfl
        conv_cells := rfl
        relu_cells := rfl
        lrn_cells := rfl
        pool_cells := rfl
        written := rfl
        written_at := rfl
        not_executed := rfl
        subs := rfl
        quiet := rfl
        heap_src := rfl
        heap_dst := rfl
        conv_dims := rfl
        conv_arrays := rfl
        pool_dst_dims := rfl
        pool_arrays := rfl
        conv_kind := rfl
        pool_kind := rfl
        conv_resolved := rfl
        pool_resolved := rfl
        executed_none := rfl
        ptrs_len := rfl
        dst_ne := rfl
        conv_at := rfl
        relu_at := rfl
        lrn_at := rfl
        pool_at := rfl
        args_rest := rfl }

/-! ### The stream loop when call `j` is the first to fail -/

/-- The stream loop in a run whose first failing library call is `j`: it runs to its end
when `j` lies after its last call, and otherwise the process exits at call `j`, the slots
before the failing one having been executed in order. -/
theorem for_each_execute_outcome (env : Env) (L : Locals) (stream : mkldnn_stream_t)
    (hs : stream ≠ NULL) (j : Nat) (hpre : ∀ i, i < j → env.status i = mkldnn_success)
    (hj : env.status j ≠ mkldnn_success) :
    ∀ (k i : Nat) (w : World),
      (∀ x, i ≤ x → x < i + k → ∃ p node args, L.net.get? x = some (some p) ∧
        L.net_args.get? x = some (some node) ∧ node.args ≠ NULL ∧
        all_written node.cells = some args ∧ (w.prim p).isSome = true) →
      w.calls ≤ j →
      (w.calls + k ≤ j →
        for_each (fun i => do
            let p ← load L.net i
            let node ← load L.net_args i
            CHECK (mkldnn_primitive_execute env p stream node)) (indices i k) w
          = .ret () (World.mk (w.calls + k) w.heap w.engines w.streams w.mems w.prims
              (w.trace ++ (indices i k).filterMap (L.execute_event stream)) w.out))
      ∧ (j < w.calls + k →
        for_each (fun i => do
            let p ← load L.net i
            let node ← load L.net_args i
            CHECK (mkldnn_primitive_execute env p stream node)) (indices i k) w
          = .exited 2 (World.mk (j + 1) w.heap w.engines w.streams w.mems w.prims
              (w.trace ++ (indices i (j - w.calls)).filterMap (L.execute_event stream))
              (w.out ++ [Msg.error_returns (env.status j)]))) := by
  intro k
  induction k with
  | zero =>
    intro i w _ hc
    refine ⟨fun _ => ?_, fun h => absurd h (by omega)⟩
    show Outcome.ret () w = _
    simp [indices]
  | succ k ih =>
    intro i w h hc
    obtain ⟨p, node, args, hp, hn, hargs, hw, hprim⟩ := h i (Nat.le_refl _) (by omega)
    have hev : L.execute_event stream i = some (Event.execute p stream node.nargs args) := by
      unfold Locals.execute_event
      rw [hp, hn]
      simp [hw]
    rw [indices_succ, for_each_cons]
    rcases Nat.lt_or_ge w.calls j with hlt | hge
    · have hst : env.status w.calls = mkldnn_success := hpre _ hlt
      have hbody : (do
            let p ← load L.net i
            let node ← load L.net_args i
            CHECK (mkldnn_primitive_execute env p stream node) : M Unit) w
          = .ret () (World.mk (w.calls + 1) w.heap w.engines w.streams w.mems w.prims
              (w.trace ++ [Event.execute p stream node.nargs args]) w.out) := by
        refine (bind_ret (load_ok w hp)).trans ?_
        refine (bind_ret (load_ok w hn)).trans ?_
        unfold mkldnn_primitive_execute
        rw [if_neg hargs, hw]
        refine CHECK_libcall hst ?_
        have hs2 : decide (stream = NULL) = false := decide_eq_false hs
        have hprim2 : (World.prim
          { calls := w.calls + 1, heap := w.heap, engines := w.engines, streams := w.streams,
            mems := w.mems, prims := w.prims, trace := w.trace, out := w.out } p).isSome
            = true := hprim
        simp only [hprim2, hs2, Bool.not_false, Bool.and_self, if_true]
      have hnext := ih (i + 1)
        (World.mk (w.calls + 1) w.heap w.engines w.streams w.mems w.prims
          (w.trace ++ [Event.execute p stream node.nargs args]) w.out)
        (fun x hx1 hx2 => h x (by omega) (by omega)) hlt
      refine ⟨fun hk => ?_, fun hk => ?_⟩
      · refine (bind_ret hbody).trans ?_
        rw [hnext.1 (by show w.calls + 1 + k ≤ j; omega)]
        have hcalls : w.calls + 1 + k = w.calls + (k + 1) := by omega
        rw [hcalls]
        simp only [List.filterMap_cons, hev, List.append_assoc, List.singleton_append]
      · refine (bind_ret hbody).trans ?_
        rw [hnext.2 (by show j < w.calls + 1 + k; omega)]
        have hsub : j - w.calls = (j - (w.calls + 1)) + 1 := by omega
        rw [hsub, indices_succ]
        simp only [List.filterMap_cons, hev, List.append_assoc, List.singleton_append]
    · have hjc : j = w.calls := Nat.le_antisymm hge hc
      have hst : env.status w.calls ≠ mkldnn_success := by
        rw [← hjc]
        exact hj
      have hbody : (do
            let p ← load L.net i
            let node ← load L.net_args i
            CHECK (mkldnn_primitive_execute env p stream node) : M Unit) w
          = .exited 2 (World.mk (w.calls + 1) w.heap w.engines w.streams w.mems w.prims
              w.trace (w.out ++ [Msg.error_returns (env.status w.calls)])) := by
        refine (bind_ret (load_ok w hp)).trans ?_
        refine (bind_ret (load_ok w hn)).trans ?_
        unfold mkldnn_primitive_execute
        rw [if_neg hargs, hw]
        exact CHECK_fail (libcall_fail hst) hst
      refine ⟨fun hk => absurd hk (by omega), fun _ => ?_⟩
      refine (bind_exited hbody).trans ?_
      have hsub : j - w.calls = 0 := by omega
      rw [hsub, ← hjc]
      simp [indices]

/-- Lines 446-451 in a run whose first failing library call is `j`. -/
theorem simple_net_execute_outcome (env : Env) (j : Nat)
    (hpre : ∀ i, i < j → env.status i = mkldnn_success)
    (hj : env.status j ≠ mkldnn_success) (L : Locals) (w : World) (he : L.engine ≠ NULL)
    (h : ∀ x, x < L.n → ∃ p node args, L.net.get? x = some (some p) ∧
        L.net_args.get? x = some (some node) ∧ node.args ≠ NULL ∧
        all_written node.cells = some args ∧ (w.prim p).isSome = true)
    (hc : w.calls ≤ j) :
    (w.calls + 1 + L.n ≤ j →
      simple_net_execute env L w
        = .ret (w.streams + 1) (World.mk (w.calls + 1 + L.n) w.heap w.engines (w.streams + 1)
            w.mems w.prims
            (w.trace ++ (indices 0 L.n).filterMap (L.execute_event (w.streams + 1))) w.out))
    ∧ (j < w.calls + 1 + L.n →
      ∃ w1, simple_net_execute env L w = .exited 2 w1 ∧ w1.calls = j + 1
        ∧ w1.out = w.out ++ [Msg.error_returns (env.status j)]
        ∧ w1.trace = w.trace ++
            (indices 0 (j - w.calls - 1)).filterMap (L.execute_event (w.streams + 1))) := by
  rcases Nat.lt_or_ge w.calls j with hlt | hge
  · have hst : env.status w.calls = mkldnn_success := hpre _ hlt
    have hcr : CHECK (mkldnn_stream_create env L.engine) w
        = .ret (w.streams + 1) (World.mk (w.calls + 1) w.heap w.engines (w.streams + 1)
            w.mems w.prims w.trace w.out) := by
      unfold mkldnn_stream_create
      refine CHECK_libcall hst ?_
      simp only [if_neg he]
    have hloop := for_each_execute_outcome env L (w.streams + 1) (Nat.succ_ne_zero _) j hpre
      hj L.n 0
      (World.mk (w.calls + 1) w.heap w.engines (w.streams + 1) w.mems w.prims w.trace w.out)
      (fun x _ hx => h x (by omega)) hlt
    refine ⟨fun hk => ?_, fun hk => ?_⟩
    · unfold simple_net_execute
      refine (bind_ret hcr).trans ?_
      refine (bind_ret (hloop.1 (by show w.calls + 1 + L.n ≤ j; omega))).trans ?_
      rfl
    · refine ⟨World.mk (j + 1) w.heap w.engines (w.streams + 1) w.mems w.prims
          (w.trace ++
            (indices 0 (j - (w.calls + 1))).filterMap (L.execute_event (w.streams + 1)))
          (w.out ++ [Msg.error_returns (env.status j)]), ?_, ?_, ?_, ?_⟩
      · unfold simple_net_execute
        refine (bind_ret hcr).trans ?_
        exact bind_exited (hloop.2 (by show j < w.calls + 1 + L.n; omega))
      · rfl
      · rfl
      · show w.trace ++ _ = w.trace ++ _
        have hsub : j - (w.calls + 1) = j - w.calls - 1 := by omega
        rw [hsub]
  · have hjc : j = w.calls := Nat.le_antisymm hge hc
    have hst : env.status w.calls ≠ mkldnn_success := by
      rw [← hjc]
      exact hj
    refine ⟨fun hk => absurd hk (by omega), fun _ => ?_⟩
    refine ⟨World.mk (w.calls + 1) w.heap w.engines w.streams w.mems w.prims w.trace
      (w.out ++ [Msg.error_returns (env.status w.calls)]), ?_, ?_, ?_, ?_⟩
    · unfold simple_net_execute
      refine bind_exited ?_
      unfold mkldnn_stream_create
      exact CHECK_fail (libcall_fail hst) hst
    · show w.calls + 1 = j + 1
      omega
    · show w.out ++ [Msg.error_returns (env.status w.calls)] = _
      rw [hjc]
    · have hsub : j - w.calls - 1 = 0 := by omega
      rw [hsub]
      show w.trace = w.trace ++ _
      simp [indices]

/-! ### The clean-up when call `j` is the first to fail -/

theorem always_returns_pure {α : Type} (a : α) : AlwaysReturns (pure a : M α) :=
  fun w => ⟨a, w, rfl, rfl⟩

theorem always_returns_bind {α β : Type} {m : M α} {f : α → M β}
    (hm : AlwaysReturns m) (hf : ∀ a, AlwaysReturns (f a)) : AlwaysReturns (m >>= f) := by
  intro w
  obtain ⟨a, w1, h1, ho1⟩ := hm w
  obtain ⟨b, w2, h2, ho2⟩ := hf a w1
  exact ⟨b, w2, (bind_ret h1).trans h2, ho2.trans ho1⟩

theorem always_returns_free (p : Ptr) : AlwaysReturns (_free p) :=
  fun _ => ⟨(), _, rfl, rfl⟩

/-- A library call whose status is ignored never ends the run. -/
theorem always_returns_ignored {α : Type} (env : Env) (eff : World → Option (α × World))
    (heff : ∀ w a w2, eff w = some (a, w2) → w2.out = w.out) :
    AlwaysReturns (ignored (libcall env eff)) := by
  intro w
  by_cases hs : env.status w.calls = mkldnn_success
  · cases he : eff { w with calls := w.calls + 1 } with
    | none =>
      refine ⟨(), { w with calls := w.calls + 1 }, ?_, ?_⟩
      · unfold ignored
        exact bind_ret (libcall_invalid hs he)
      · rfl
    | some p =>
      obtain ⟨a, w2⟩ := p
      refine ⟨(), w2, ?_, ?_⟩
      · unfold ignored
        exact bind_ret (libcall_ok hs he)
      · exact heff { w with calls := w.calls + 1 } a w2 he
  · refine ⟨(), { w with calls := w.calls + 1 }, ?_, ?_⟩
    · unfold ignored
      exact bind_ret (libcall_fail hs)
    · rfl

theorem always_returns_stream_destroy (env : Env) (s : mkldnn_stream_t) :
    AlwaysReturns (ignored (mkldnn_stream_destroy env s)) :=
  always_returns_ignored env _ fun w a w2 h => by
    cases h
    rfl

theorem always_returns_memory_destroy (env : Env) (m : mkldnn_memory_t) :
    AlwaysReturns (ignored (mkldnn_memory_destroy env m)) :=
  always_returns_ignored env _ fun w a w2 h => by
    cases h
    rfl

theorem always_returns_primitive_destroy (env : Env) (p : mkldnn_primitive_t) :
    AlwaysReturns (ignored (mkldnn_primitive_destroy env p)) :=
  always_returns_ignored env _ fun w a w2 h => by
    cases h
    rfl

theorem always_returns_engine_destroy (env : Env) (e : mkldnn_engine_t) :
    AlwaysReturns (ignored (mkldnn_engine_destroy env e)) :=
  always_returns_ignored env _ fun w a w2 h => by
    cases h
    rfl

theorem always_returns_elim {α : Type} {G : Outcome α → Prop} {m : M α} {w : World}
    (h : AlwaysReturns m) (hG : ∀ a w2, w2.out = w.out → G (.ret a w2)) : G (m w) := by
  obtain ⟨a, w2, h1, h2⟩ := h w
  rw [h1]
  exact hG a w2 h2

/-- Lines 453-505 in a run whose first failing library call is `j`: the process exits
when `j` is one of the four checked descriptor destructions; when `j` lies after them the
clean-up runs to its end whatever the remaining destructors answer. -/
theorem step_cleanup (G : Outcome Unit → Prop) (env : Env) (j c : Nat)
    (hpre : ∀ i, i < j → env.status i = mkldnn_success)
    (hj : env.status j ≠ mkldnn_success) (L : Locals) (stream : mkldnn_stream_t) (w : World)
    (h : ∀ x, x < L.n → ∃ node, L.net_args.get? x = some (some node))
    (hc : c ≤ j) (hcw : w.calls = c)
    (hstop : ∀ w1 : World, w1.calls = j + 1 →
      w1.out = w.out ++ [Msg.error_returns (env.status j)] →
      c < w1.calls → w1.calls ≤ c + 4 → G (.exited 2 w1))
    (hret : c + 4 ≤ j → ∀ w2 : World, w2.out = w.out → G (.ret () w2)) :
    G (simple_net_cleanup env L stream w) := by
  unfold simple_net_cleanup
  refine step_ret (for_each_free L L.n 0 w (fun x _ hx => h x (by omega))) ?_
  refine step_call hpre hj hc hcw
    (fun w1 h1 h2 h3 h4 => hstop w1 h1 h2 h3 (by omega)) rfl (fun hc1 => ?_)
  refine step_call hpre hj hc1 (by rw [← hcw])
    (fun w1 h1 h2 h3 h4 => hstop w1 h1 h2 (by omega) (by omega)) rfl (fun hc2 => ?_)
  refine step_call hpre hj hc2 (by rw [← hcw])
    (fun w1 h1 h2 h3 h4 => hstop w1 h1 h2 (by omega) (by omega)) rfl (fun hc3 => ?_)
  refine step_call hpre hj hc3 (by rw [← hcw])
    (fun w1 h1 h2 h3 h4 => hstop w1 h1 h2 (by omega) (by omega)) rfl (fun hc4 => ?_)
  refine always_returns_elim ?_ (fun a w2 h2 => hret hc4 w2 h2)
  repeat' first
    | with_reducible exact always_returns_pure _
    | with_reducible refine always_returns_bind ?_ (fun _ => ?_)
    | with_reducible exact always_returns_free _
    | with_reducible exact always_returns_stream_destroy _ _
    | with_reducible exact always_returns_memory_destroy _ _
    | with_reducible exact always_returns_primitive_destroy _ _
    | with_reducible exact always_returns_engine_destroy _ _

/-! ### Errors end the process -/

theorem stops_mono {α : Type} {env : Env} {j : Nat} {P Q : World → Prop} {o : Outcome α}
    (h : o.stops env j P) (hPQ : ∀ w, P w → Q w) : o.stops env j Q := by
  obtain ⟨w, h1, h2, h3, h4⟩ := stops_iff.mp h
  exact stops_iff.mpr ⟨w, h1, h2, h3, hPQ w h4⟩

/-- In an environment whose layout preferences are `layouts_of a b c` the three layout
comparisons answer `a`, `b`, `c`. -/
theorem facts_layouts_of {env : Env} {a b c a1 b1 c1 : Bool} {L : Locals} {w : World}
    (hl : env.layouts = layouts_of a b c)
    (F : BuildFacts env a1 b1 c1 L w) : a1 = a ∧ b1 = b ∧ c1 = c := by
  have hconv : L.conv_pd.resolved = layouts_of a b c L.conv_pd.desc L.engine := by
    rw [F.conv_resolved, hl]
  have hpool : L.pool_pd.resolved = layouts_of a b c L.pool_pd.desc L.engine := by
    rw [F.pool_resolved, hl]
  refine ⟨?_, ?_, ?_⟩
  · rw [← F.src]
    unfold Locals.src_mismatch
    rw [mismatch_of_mem_pd _ F.src_user]
    unfold mkldnn_primitive_desc_query_pd
    simp only [hconv, layouts_of, F.conv_kind]
    cases a <;> rfl
  · rw [← F.weights]
    unfold Locals.weights_mismatch
    rw [mismatch_of_mem_pd _ F.weights_user]
    unfold mkldnn_primitive_desc_query_pd
    simp only [hconv, layouts_of, F.conv_kind]
    cases b <;> rfl
  · rw [← F.dst]
    unfold Locals.dst_mismatch
    rw [mismatch_of_mem_pd _ F.dst_user]
    unfold mkldnn_primitive_desc_query_pd
    simp only [hpool, layouts_of, F.pool_kind]
    cases c <;> rfl

theorem env_failing_alloc (a b c : Bool) (j : Nat) (s : mkldnn_status_t) :
    ∀ i, (env_failing a b c j s).alloc i ≠ NULL := by
  intro i
  show 4096 * (i + 1) ≠ 0
  omega

theorem env_failing_before (a b c : Bool) (j : Nat) (s : mkldnn_status_t) :
    ∀ i, i < j → (env_failing a b c j s).status i = mkldnn_success := by
  intro i hi
  show (if i = j then s else mkldnn_success) = mkldnn_success
  rw [if_neg (Nat.ne_of_lt hi)]

theorem env_failing_at (a b c : Bool) (j : Nat) (s : mkldnn_status_t) :
    (env_failing a b c j s).status j = s := by
  show (if j = j then s else mkldnn_success) = s
  rw [if_pos rfl]

/-- The clean-up after the stream loop, in a run whose first failing library call is
`j`. -/
theorem simple_net_cleanup_outcome (env : Env) (j : Nat)
    (hpre : ∀ i, i < j → env.status i = mkldnn_success)
    (hj : env.status j ≠ mkldnn_success) (L : Locals) (stream : mkldnn_stream_t) (w : World)
    (h : ∀ x, x < L.n → ∃ node, L.net_args.get? x = some (some node))
    (hc : w.calls ≤ j) (hq : w.out = []) :
    (j < w.calls + 4 ∧ ∃ w2, simple_net_cleanup env L stream w = .exited 2 w2
        ∧ w2.calls = j + 1 ∧ w2.out = [Msg.error_returns (env.status j)])
    ∨ (w.calls + 4 ≤ j ∧ ∃ w2, simple_net_cleanup env L stream w = .ret () w2
        ∧ w2.out = []) := by
  refine step_cleanup
    (fun o => (j < w.calls + 4 ∧ ∃ w2, o = .exited 2 w2
        ∧ w2.calls = j + 1 ∧ w2.out = [Msg.error_returns (env.status j)])
      ∨ (w.calls + 4 ≤ j ∧ ∃ w2, o = .ret () w2 ∧ w2.out = []))
    env j w.calls hpre hj L stream w h hc rfl ?_ ?_
  · intro w2 h1 h2 _ h4
    refine Or.inl ⟨by omega, w2, rfl, h1, ?_⟩
    rw [h2, hq]
    rfl
  · intro h4 w2 h2
    exact Or.inr ⟨h4, w2, rfl, h2.trans hq⟩

/-- C10 (amended): errors are not propagated as statuses.  `CHECK` turns every status
other than `mkldnn_success` into a message and `exit(2)`, and a call whose status the
source does not look at never ends the run.  So `prepare_reorder` returns
`mkldnn_success` whenever it returns, and when it ends the process it does so with code 2
at its first failing checked call, whose status it has printed, leaving the trace as it
was; `simple_net` returns `mkldnn_success` whenever it returns, and when it ends the
process it does so with code 2 after printing one message that is not a success status;
and when the process ends while the net is being built, no primitive has been executed.

Last clause, for `simple_net` started in the initial world with every allocation
succeeding, when library call number `j` is the first to answer a status other than
`mkldnn_success`.  If call `j` is made while the net is being built (the build makes 59
library calls plus 5 for each reorder, at most 74), the process exits with code 2 at that
call with that status as the only message and no primitive executed, unless the call is
one of the unchecked `mkldnn_memory_get_primitive_desc` of `prepare_reorder` (call 30, 31,
36, 57, 62 or 67), where the behaviour is undefined.  Otherwise the net is assembled; if
call `j` is `mkldnn_stream_create` or one of the `n` calls of `mkldnn_primitive_execute`,
the process exits with code 2 at that call with that status as the only message, the slots
before the failing one having been executed in order; if call `j` is one of the four
checked `mkldnn_primitive_desc_destroy` after the stream loop, the process exits with
code 2 at that call likewise; and if call `j` comes later (the remaining 21 destructor
calls, whose statuses are ignored), the clean-up runs to its end and `simple_net` returns
`mkldnn_success` without printing anything. -/
theorem failures_exit (env : Env) (w : World) :
    (∀ (α : Type) (f : M (Ret α)) (r : Ret α) (w1 : World), f w = .ret r w1 →
        r.status ≠ mkldnn_success →
        CHECK f w = .exited 2 { w1 with out := w1.out ++ [Msg.error_returns r.status] })
    ∧ (∀ (α : Type) (eff : World → Option (α × World)),
        ∃ w1, ignored (libcall env eff) w = .ret () w1)
    ∧ (∀ U R dir buffer k net net_args,
        (∀ r w1, prepare_reorder env U R dir buffer k net net_args w = .ret r w1 →
          r.status = mkldnn_success)
        ∧ (∀ c w1, prepare_reorder env U R dir buffer k net net_args w = .exited c w1 →
          c = 2 ∧ w1.trace = w.trace ∧
          ∃ j, 1 ≤ j ∧ j < 6 ∧ (∀ i, i < j → env.status (w.calls + i) = mkldnn_success)
            ∧ env.status (w.calls + j) ≠ mkldnn_success
            ∧ w1.out = w.out ++ [Msg.error_returns (env.status (w.calls + j))]))
    ∧ (∀ s w1, simple_net env w = .ret s w1 → s = mkldnn_success)
    ∧ (∀ c w1, simple_net env w = .exited c w1 →
        c = 2 ∧ ∃ msg, w1.out = w.out ++ [msg] ∧ msg ≠ Msg.error_returns mkldnn_success)
    ∧ (∀ c w1, simple_net_build env w = .exited c w1 →
        simple_net env w = .exited c w1 ∧ executions w1.trace = executions w.trace)
    ∧ (∀ j, (∀ i, env.alloc i ≠ NULL) → (∀ i, i < j → env.status i = mkldnn_success) →
        env.status j ≠ mkldnn_success →
        ((simple_net_build env World.init).stops env j
            (fun w1 => w1.calls ≤ 74 ∧ executions w1.trace = [])
          ∧ (simple_net env World.init).stops env j
            (fun w1 => w1.calls ≤ 74 ∧ executions w1.trace = []))
        ∨ (simple_net_build env World.init = .ub ∧ simple_net env World.init = .ub
          ∧ (j = 30 ∨ j = 31 ∨ j = 36 ∨ j = 57 ∨ j = 62 ∨ j = 67))
        ∨ (simple_net_build env World.init).returns (fun L w0 =>
            w0.calls ≤ j
            ∧ (∃ a b c, BuildFacts env a b c L w0
                ∧ w0.calls = 59 + 5 * (a.toNat + b.toNat + c.toNat))
            ∧ ((j ≤ w0.calls + L.n
                ∧ (simple_net_execute env L w0).stops env j (fun w1 =>
                    executions w1.trace = (indices 0 (j - w0.calls - 1)).filterMap
                      (L.execute_event (w0.streams + 1)))
                ∧ (simple_net env World.init).stops env j (fun w1 =>
                    executions w1.trace = (indices 0 (j - w0.calls - 1)).filterMap
                      (L.execute_event (w0.streams + 1))))
              ∨ (simple_net_execute env L w0).returns (fun stream w1 =>
                  w1.calls = w0.calls + 1 + L.n ∧ w1.calls ≤ j
                  ∧ executions w1.trace = (indices 0 L.n).filterMap (L.execute_event stream)
                  ∧ ((j < w1.calls + 4
                      ∧ (simple_net_cleanup env L stream w1).stops env j (fun _ => True)
                      ∧ (simple_net env World.init).stops env j (fun w2 =>
                          executions w2.trace =
                            (indices 0 L.n).filterMap (L.execute_event stream)))
                    ∨ (w1.calls + 4 ≤ j
                      ∧ (simple_net_cleanup env L stream w1).returns (fun _ w2 =>
                          w2.out = [])
                      ∧ (simple_net env World.init).returns (fun s w2 =>
                          s = mkldnn_success ∧ w2.out = []))))))) := by
  refine ⟨?_, ?_, ?_, ?_, ?_, ?_, ?_⟩
  · intro α f r w1 hf hr
    cases r with
    | ok a => exact absurd rfl hr
    | fail s => exact CHECK_fail hf hr
  · intro α eff
    obtain ⟨r, w1, h⟩ := libcall_returns env eff w
    exact ⟨w1, by unfold ignored; exact bind_ret h⟩
  · intro U R dir buffer k net net_args
    rcases prepare_reorder_outcome env w U R dir buffer k net net_args with
      h | ⟨j, w2, hj1, hj2, hpre, hfail, hrun, _, hout, htrace⟩ | ⟨o, _, _, hrun⟩ |
      ⟨o, out, w2, node, _, _, _, _, hrun, _⟩
    · refine ⟨fun r w1 hr => ?_, fun c w1 hr => ?_⟩
      · rw [h] at hr; cases hr
      · rw [h] at hr; cases hr
    · refine ⟨fun r w1 hr => ?_, fun c w1 hr => ?_⟩
      · rw [hrun] at hr; cases hr
      · rw [hrun] at hr
        cases hr
        exact ⟨rfl, htrace, j, hj1, hj2, hpre, hfail, hout⟩
    · refine ⟨fun r w1 hr => ?_, fun c w1 hr => ?_⟩
      · rw [hrun] at hr; cases hr; rfl
      · rw [hrun] at hr; cases hr
    · refine ⟨fun r w1 hr => ?_, fun c w1 hr => ?_⟩
      · rw [hrun] at hr; cases hr; rfl
      · rw [hrun] at hr; cases hr
  · intro s w1 h
    unfold simple_net at h
    obtain ⟨L, w2, _, h⟩ := bind_ret_inv h
    obtain ⟨stream, w3, _, h⟩ := bind_ret_inv h
    obtain ⟨_, w4, _, h⟩ := bind_ret_inv h
    cases h
    rfl
  · intro c w1 h
    have hc := checked_simple_net env w
    rw [h] at hc
    exact ⟨hc.1, hc.2.1⟩
  · intro c w1 h
    refine ⟨?_, ?_⟩
    · unfold simple_net
      exact bind_exited h
    · have hc := checked_simple_net_build true env w
      rw [h] at hc
      exact hc.2.2 rfl
  · intro j halloc hpre hj
    rcases simple_net_build_outcome env halloc j hpre hj with hs | ⟨hub, hmem⟩ | hr
    · left
      obtain ⟨w1, h1, h2, h3, h4⟩ := stops_iff.mp hs
      have hq := checked_simple_net_build true env World.init
      rw [h1] at hq
      have hex : executions w1.trace = [] := hq.2.2 rfl
      have hsn : simple_net env World.init = .exited 2 w1 := by
        unfold simple_net
        exact bind_exited h1
      rw [h1, hsn]
      exact ⟨stops_exited h2 h3 ⟨h4, hex⟩, stops_exited h2 h3 ⟨h4, hex⟩⟩
    · right
      left
      refine ⟨hub, ?_, hmem⟩
      unfold simple_net
      exact bind_ub hub
    · right
      right
      obtain ⟨L, w0, hb, hc, a, b, c, F, hcalls⟩ := returns_iff.mp hr
      rw [hb]
      refine returns_ret.mpr ⟨hc, ⟨a, b, c, F, hcalls⟩, ?_⟩
      have hexec := simple_net_execute_outcome env j hpre hj L w0 F.engine_ok F.ready hc
      rcases Nat.lt_or_ge j (w0.calls + 1 + L.n) with hlt | hge
      · left
        obtain ⟨w1, he, h1, h2, h3⟩ := hexec.2 hlt
        have hout : w1.out = [Msg.error_returns (env.status j)] := by
          rw [h2, F.quiet]
          rfl
        have hex : executions w1.trace = (indices 0 (j - w0.calls - 1)).filterMap
            (L.execute_event (w0.streams + 1)) := by
          rw [h3, executions_append, F.not_executed, (executions_execute_events L _ _).1]
          rfl
        have hsn : simple_net env World.init = .exited 2 w1 := by
          unfold simple_net
          refine (bind_ret hb).trans ?_
          exact bind_exited he
        rw [he, hsn]
        exact ⟨by omega, stops_exited h1 hout hex, stops_exited h1 hout hex⟩
      · right
        obtain ⟨stream, w1, he, hw1c, hw1o, hw1t⟩ : ∃ stream w1,
            simple_net_execute env L w0 = .ret stream w1
            ∧ w1.calls = w0.calls + 1 + L.n ∧ w1.out = w0.out
            ∧ w1.trace = w0.trace ++ (indices 0 L.n).filterMap (L.execute_event stream) :=
          ⟨w0.streams + 1, World.mk (w0.calls + 1 + L.n) w0.heap w0.engines (w0.streams + 1)
            w0.mems w0.prims
            (w0.trace ++ (indices 0 L.n).filterMap (L.execute_event (w0.streams + 1)))
            w0.out, hexec.1 hge, rfl, rfl, rfl⟩
        have hex : executions w1.trace
            = (indices 0 L.n).filterMap (L.execute_event stream) := by
          rw [hw1t, executions_append, F.not_executed, (executions_execute_events L _ _).1]
          rfl
        rw [he]
        refine returns_ret.mpr ⟨hw1c, by omega, hex, ?_⟩
        rcases simple_net_cleanup_outcome env j hpre hj L stream w1 (ready_node F.ready)
          (by omega) (hw1o.trans F.quiet) with ⟨hlt4, w2, hcl, h1, h2⟩ | ⟨hge4, w2, hcl, h2⟩
        · left
          have hq := checked_simple_net_cleanup true env L stream w1
          rw [hcl] at hq
          have hex2 : executions w2.trace
              = (indices 0 L.n).filterMap (L.execute_event stream) := (hq.2.2 rfl).trans hex
          have hsn : simple_net env World.init = .exited 2 w2 := by
            unfold simple_net
            refine (bind_ret hb).trans ?_
            refine (bind_ret he).trans ?_
            exact bind_exited hcl
          rw [hcl, hsn]
          exact ⟨hlt4, stops_exited h1 h2 trivial, stops_exited h1 h2 hex2⟩
        · right
          have hsn : simple_net env World.init = .ret mkldnn_success w2 := by
            unfold simple_net
            refine (bind_ret hb).trans ?_
            refine (bind_ret he).trans ?_
            exact bind_ret hcl
          rw [hcl, hsn]
          exact ⟨hge4, returns_ret.mpr h2, returns_ret.mpr ⟨rfl, h2⟩⟩

/-- Two runs in which every layout comparison asks for a reorder (the
build makes 74 library calls, the stream is created by call 74, the seven primitives are
executed by calls 75-81, the four checked descriptor destructions are calls 82-85 and the
ignored destructors calls 86-106).  When call 76, the second `mkldnn_primitive_execute`,
answers `mkldnn_runtime_error`, `simple_net` ends the process with `exit(2)` at that call,
at most one primitive having been executed; when call 90, an ignored
`mkldnn_memory_destroy`, answers `mkldnn_out_of_memory`, `simple_net` returns
`mkldnn_success` and prints nothing. -/
theorem failures_exit_witness :
    (simple_net (env_failing true true true 76 mkldnn_runtime_error) World.init).stops
        (env_failing true true true 76 mkldnn_runtime_error) 76
        (fun w1 => (executions w1.trace).length ≤ 1)
    ∧ (simple_net (env_failing true true true 90 mkldnn_out_of_memory) World.init).returns
        (fun s w2 => s = mkldnn_success ∧ w2.out = []) := by
  refine ⟨?_, ?_⟩
  · have hj : (env_failing true true true 76 mkldnn_runtime_error).status 76
        ≠ mkldnn_success := by
      rw [env_failing_at]
      decide
    rcases (failures_exit (env_failing true true true 76 mkldnn_runtime_error)
      World.init).2.2.2.2.2.2 76 (env_failing_alloc _ _ _ _ _)
      (env_failing_before _ _ _ _ _) hj with ⟨hs, _⟩ | ⟨_, _, hmem⟩ | hr
    · obtain ⟨w1, _, h1, _, h4, _⟩ := stops_iff.mp hs
      omega
    · omega
    · obtain ⟨L, w0, _, _, ⟨a, b, c, F, hcalls⟩, hrest⟩ := returns_iff.mp hr
      obtain ⟨ha, hb, hc⟩ := facts_layouts_of rfl F
      subst ha hb hc
      have hn : L.n = 7 := F.n_eq
      have hcalls74 : w0.calls = 74 := hcalls
      rcases hrest with ⟨_, _, hsn⟩ | hret
      · refine stops_mono hsn ?_
        intro w1 hw1
        rw [hw1, hcalls74]
        exact List.length_filterMap_le _ _
      · obtain ⟨stream, w1, _, h1, h2, _⟩ := returns_iff.mp hret
        omega
  · have hj : (env_failing true true true 90 mkldnn_out_of_memory).status 90
        ≠ mkldnn_success := by
      rw [env_failing_at]
      decide
    rcases (failures_exit (env_failing true true true 90 mkldnn_out_of_memory)
      World.init).2.2.2.2.2.2 90 (env_failing_alloc _ _ _ _ _)
      (env_failing_before _ _ _ _ _) hj with ⟨hs, _⟩ | ⟨_, _, hmem⟩ | hr
    · obtain ⟨w1, _, h1, _, h4, _⟩ := stops_iff.mp hs
      omega
    · omega
    · obtain ⟨L, w0, _, _, ⟨a, b, c, F, hcalls⟩, hrest⟩ := returns_iff.mp hr
      obtain ⟨ha, hb, hc⟩ := facts_layouts_of rfl F
      subst ha hb hc
      have hn : L.n = 7 := F.n_eq
      have hcalls74 : w0.calls = 74 := hcalls
      rcases hrest with ⟨hle, _, _⟩ | hret
      · omega
      · obtain ⟨stream, w1, _, h1, _, _, hcl⟩ := returns_iff.mp hret
        rcases hcl with ⟨hlt, _, _⟩ | ⟨_, _, hsn⟩
        · omega
        · exact hsn

end SimpleNet
